import Mathlib

/-!
# Gracht client (librt/libgracht/client.c)

A shallow embedding of the message dispatch and completion tracking engine of
the gracht client: `gracht_client_invoke`, `gracht_client_await`,
`gracht_client_await_multiple`, `gracht_client_status`,
`gracht_client_wait_message` and their static helpers.

Conventions of the embedding:

* machine integers are `Nat` or `Int`; the 32 bit id counter wraps with an
  explicit `% 2 ^ 32`;
* bytes in memory that the code only reaches through a pointer (a received
  message, the message area of a descriptor) are a function from byte offset
  to byte value, and the typed view of those bytes is taken through an ABI
  record (`gracht_abi`), because the layout headers are not part of the
  sources at hand;
* a pointer to a node of an intrusive list is the position of the node in the
  list;
* the transport link, the allocator and the protocol action dispatcher are
  collaborators: they are functions over a collaborator state of arbitrary
  type, and every call the client makes to them is recorded in a trace;
* a null pointer argument is `none`.
-/

namespace Gracht

/-! ## Constants of the absent headers -/

/-- Modelled from the spec: the errno value for InvalidArgument (errno.h is absent). -/
def EINVAL : Int := 22

/-- Modelled from the spec: the errno value for OutOfMemory (errno.h is absent). -/
def ENOMEM : Int := 12

/-- Modelled from the spec: the errno value for AlreadyConsumed (errno.h is absent). -/
def EALREADY : Int := 114

/-- Modelled from the spec: descriptor status Error (gracht/types.h is absent). -/
def GRACHT_MESSAGE_ERROR : Int := -1

/-- Modelled from the spec: descriptor status Created (gracht/types.h is absent). -/
def GRACHT_MESSAGE_CREATED : Int := 0

/-- Modelled from the spec: descriptor status InProgress (gracht/types.h is absent). -/
def GRACHT_MESSAGE_INPROGRESS : Int := 1

/-- Modelled from the spec: descriptor status Completed (gracht/types.h is absent). -/
def GRACHT_MESSAGE_COMPLETED : Int := 2

/-- Modelled from the spec: await mode Any (gracht/types.h is absent). -/
def GRACHT_AWAIT_ANY : Nat := 0

/-- Modelled from the spec: await mode All (gracht/types.h is absent). -/
def GRACHT_AWAIT_ALL : Nat := 1

/-- Modelled from the spec: parameter tag Value (gracht/types.h is absent). -/
def GRACHT_PARAM_VALUE : Nat := 0

/-- Modelled from the spec: parameter tag Buffer (gracht/types.h is absent). -/
def GRACHT_PARAM_BUFFER : Nat := 1

/-- Modelled from the spec: the macro MESSAGE_FLAG_TYPE (gracht/types.h is absent)
extracts the message kind from the flags field; four kinds need two bits. -/
def MESSAGE_FLAG_TYPE (flags : Nat) : Nat := flags % 4

/-- Modelled from the spec: message kind Sync-Request. -/
def MESSAGE_FLAG_SYNC : Nat := 0

/-- Modelled from the spec: message kind Async-Request. -/
def MESSAGE_FLAG_ASYNC : Nat := 1

/-- Modelled from the spec: message kind Event. -/
def MESSAGE_FLAG_EVENT : Nat := 2

/-- Modelled from the spec: message kind Response. -/
def MESSAGE_FLAG_RESPONSE : Nat := 3

/-! ## Memory and wire data -/

/-- Bytes reachable from a base pointer, by offset. -/
abbrev Memory := Nat → Nat

/-- The memory seen from `base + off`. -/
def mem_offset (m : Memory) (off : Nat) : Memory := fun j => m (off + j)

/-- The `len` bytes at `base + off`. -/
def mem_read (m : Memory) (off len : Nat) : List Nat :=
  (List.range len).map (fun j => m (off + j))

/-- The C library `memcpy(dst, src, n)`: the first `n` bytes of `dst` become those of `src`. -/
def memcpy (dst src : Memory) (n : Nat) : Memory :=
  fun j => if j < n then src j else dst j

/-- The cast `(int)x` of a `uint32_t`. -/
def int_cast (u : Nat) : Int :=
  if u % 2 ^ 32 < 2 ^ 31 then ((u % 2 ^ 32 : Nat) : Int) else ((u % 2 ^ 32 : Nat) : Int) - 2 ^ 32

/-- The fields of `struct gracht_message_header` that client.c reads or writes. -/
structure gracht_message_header where
  id : Nat
  length : Nat
  param_in : Nat
  param_out : Nat
  flags : Nat
deriving DecidableEq, Repr

/-- The record `struct gracht_param`; `data` is the union of `data.value` and `data.buffer`. -/
structure gracht_param where
  type : Nat
  data : Nat
  length : Nat
deriving DecidableEq, Repr

/-- A `struct gracht_message` built by the caller of invoke: header and `params[]`. -/
structure gracht_message where
  header : gracht_message_header
  params : Nat → gracht_param

/-- The record `struct gracht_message_context`. -/
structure gracht_message_context where
  message_id : Nat
  descriptor : Nat
deriving DecidableEq, Repr

/-- Sizes and typed views that depend on the platform ABI. `sizeof_message` is
`sizeof(struct gracht_message)`, that is the offset of `params[0]`. -/
structure gracht_abi where
  sizeof_message : Nat
  sizeof_param : Nat
  sizeof_descriptor : Nat
  sizeof_awaiter : Nat
  sizeof_client : Nat
  size_bits : Nat
  read_header : Memory → gracht_message_header
  read_param : Memory → gracht_param

/-- The record `struct gracht_message_descriptor`: list header id, status, and the
message area that follows (descriptor | message | params). -/
structure gracht_message_descriptor where
  header_id : Int
  status : Int
  message : Memory

/-- The record `struct gracht_message_awaiter`. `addr` is the address malloc gave,
`event` counts the signals delivered to the condition variable, `ids` is the
flexible array `ids[]` and `id_count` is its length. -/
structure gracht_message_awaiter where
  addr : Nat
  flags : Nat
  event : Nat
  ids : List Nat
deriving DecidableEq, Repr

/-- A registered protocol: its address and its list header id. -/
structure gracht_protocol where
  addr : Nat
  id : Int
deriving DecidableEq, Repr

/-- The record `struct gracht_client` (the ops pointer is the environment below). -/
structure gracht_client where
  iod : Int
  current_message_id : Nat
  protocols : List gracht_protocol
  awaiters : List gracht_message_awaiter
  messages : List gracht_message_descriptor

/-! ## Collaborators -/

/-- What `get_buffer` hands back: status, the buffer pointer stored in
`context->descriptor`, the bytes found in its message area, and the next link state. -/
structure get_buffer_result (σ : Type) where
  status : Int
  buffer : Nat
  memory : Memory
  link : σ

/-- What `recv` hands back: status, the bytes at the `message` pointer, and the next link state. -/
structure recv_result (σ : Type) where
  status : Int
  message : Memory
  link : σ

/-- The table `struct client_link_ops` of the transport link. -/
structure client_link_ops (σ : Type) where
  connect : σ → Int × σ
  recv : σ → Nat → Nat → recv_result σ
  send : σ → gracht_message → gracht_message_context → Int × σ
  get_buffer : σ → Nat → get_buffer_result σ
  free_buffer : σ → Nat → σ
  destroy : σ → σ

/-- Everything client.c calls but does not define: the link, malloc, and the
dispatcher `client_invoke_action` declared at the top of the file. -/
structure gracht_env (σ : Type) where
  ops : client_link_ops σ
  malloc : σ → Nat → Option Nat × σ
  client_invoke_action : σ → List gracht_protocol → Memory → Int × σ

/-- Calls made by the client to its collaborators, in order. -/
inductive gracht_event where
  | connect
  | destroy
  | get_buffer (size : Nat)
  | free_buffer (descriptor : Nat)
  | send (id : Nat)
  | recv (buffer : Nat)
  | mtx_lock
  | mtx_unlock
  | mtx_init
  | mtx_destroy
  | cnd_wait (awaiter : Nat)
  | malloc (size : Nat)
  | free (ptr : Nat)
  | free_client
  | client_invoke_action
deriving DecidableEq, Repr

/-- The state outside the client object: collaborator state, errno, and the call trace. -/
structure gracht_system (σ : Type) where
  link : σ
  errno : Int
  trace : List gracht_event

/-! ## Intrusive lists (gracht/list.h is absent) -/

/-- Modelled from the spec: `gracht_list_append` of the absent gracht/list.h puts the
node at the tail of the list. -/
def gracht_list_append {α : Type} (list : List α) (item : α) : List α := list ++ [item]

/-- Modelled from the spec: `gracht_list_lookup` of the absent gracht/list.h walks the
list from the head and returns the first node whose header id is `id`, here as
its position together with the node, or nothing (NULL). -/
def gracht_list_lookup {α : Type} (key : α → Int) : List α → Int → Option (Nat × α)
  | [], _ => none
  | x :: rest, id =>
    if key x = id then some (0, x)
    else (gracht_list_lookup key rest id).map (fun r => (r.1 + 1, r.2))

/-- Modelled from the spec: `gracht_list_remove` of the absent gracht/list.h unlinks the
node the pointer designates. -/
def gracht_list_remove {α : Type} (list : List α) (node : Nat) : List α := list.eraseIdx node

/-! ## client.c -/

/-- The static `get_message_id`: `return client->current_message_id++;` on a `uint32_t`. -/
def get_message_id (client : gracht_client) : Nat × gracht_client :=
  (client.current_message_id,
   { client with current_message_id := (client.current_message_id + 1) % 2 ^ 32 })

/-- The `bufferLength` computed by invoke for a Sync-Request, in `size_t` arithmetic. -/
def invoke_buffer_length (abi : gracht_abi) (message : gracht_message) : Nat :=
  (List.range message.header.param_out).foldl
    (fun bufferLength i =>
      if (message.params (message.header.param_in + i)).type = GRACHT_PARAM_BUFFER then
        (bufferLength + (message.params (message.header.param_in + i)).length) % 2 ^ abi.size_bits
      else bufferLength)
    ((abi.sizeof_descriptor + (message.header.param_out * abi.sizeof_param) % 2 ^ abi.size_bits)
      % 2 ^ abi.size_bits)

/-- The store `descriptor->status = v` through a node pointer. -/
def descriptor_set_status (list : List gracht_message_descriptor) (node : Nat) (v : Int) :
    List gracht_message_descriptor :=
  match list.get? node with
  | none => list
  | some d => list.set node { d with status := v }

/-- Result of `gracht_client_invoke`: return value, the state outside the client,
the client object, and the caller objects the call wrote to. -/
structure invoke_result (σ : Type) where
  ret : Int
  sys : gracht_system σ
  client : Option gracht_client
  context : gracht_message_context
  message : Option gracht_message

/-- The function `gracht_client_invoke` (client.c lines 70 to 116). The context pointer
is never checked by the code and is taken to be valid. After a successful
registration `context->descriptor` points to the node just appended, the last of
the list. -/
def gracht_client_invoke {σ : Type} (abi : gracht_abi) (env : gracht_env σ)
    (sys : gracht_system σ) (client : Option gracht_client)
    (context : gracht_message_context) (message : Option gracht_message) : invoke_result σ :=
  match client, message with
  | some c, some m =>
    let idc := get_message_id c
    let m1 : gracht_message := { m with header := { m.header with id := idc.1 } }
    let c1 := idc.2
    if MESSAGE_FLAG_TYPE m1.header.flags = MESSAGE_FLAG_SYNC then
      let bufferLength := invoke_buffer_length abi m1
      let gb := env.ops.get_buffer sys.link bufferLength
      let ctx1 : gracht_message_context := { message_id := m1.header.id, descriptor := gb.buffer }
      let sys1 : gracht_system σ :=
        { sys with link := gb.link, trace := sys.trace ++ [gracht_event.get_buffer bufferLength] }
      if gb.status ≠ 0 then
        { ret := -1, sys := sys1, client := some c1, context := ctx1, message := some m1 }
      else
        let descriptor : gracht_message_descriptor :=
          { header_id := int_cast m1.header.id, status := GRACHT_MESSAGE_CREATED,
            message := gb.memory }
        let c2 := { c1 with messages := gracht_list_append c1.messages descriptor }
        let sd := env.ops.send sys1.link m1 ctx1
        let sys2 : gracht_system σ :=
          { sys1 with
            link := sd.2,
            trace := sys1.trace ++
              [gracht_event.mtx_lock, gracht_event.mtx_unlock, gracht_event.send m1.header.id] }
        let c3 := { c2 with
          messages := descriptor_set_status c2.messages (c2.messages.length - 1)
            (if sd.1 = 0 then GRACHT_MESSAGE_COMPLETED else GRACHT_MESSAGE_ERROR) }
        { ret := sd.1, sys := sys2, client := some c3, context := ctx1, message := some m1 }
    else
      let sd := env.ops.send sys.link m1 context
      let sys2 : gracht_system σ :=
        { sys with link := sd.2, trace := sys.trace ++ [gracht_event.send m1.header.id] }
      { ret := sd.1, sys := sys2, client := some c1, context := context, message := some m1 }
  | _, _ =>
    { ret := -1, sys := { sys with errno := EINVAL }, client := client, context := context,
      message := message }

/-! ### Awaiting -/

/-- The inner loop of the static `mark_awaiters` over `ids[0 .. id_count)`: a slot holding 0
counts as cleared, a slot equal to `messageId` is set to 0 and counts as cleared.
Returns the new slots and the final `idsLeft`. -/
def mark_ids (messageId : Nat) : List Nat → Int → List Nat × Int
  | [], idsLeft => ([], idsLeft)
  | t :: rest, idsLeft =>
    if t = 0 then
      ((mark_ids messageId rest (idsLeft - 1)).1.cons t, (mark_ids messageId rest (idsLeft - 1)).2)
    else if t = messageId then
      ((mark_ids messageId rest (idsLeft - 1)).1.cons 0, (mark_ids messageId rest (idsLeft - 1)).2)
    else
      ((mark_ids messageId rest idsLeft).1.cons t, (mark_ids messageId rest idsLeft).2)

/-- The body of the while loop of `mark_awaiters` for one awaiter (lines 374 to 395);
`cnd_signal` adds one to the signal count of the condition variable. -/
def mark_awaiter (messageId : Nat) (awaiter : gracht_message_awaiter) : gracht_message_awaiter :=
  let r := mark_ids messageId awaiter.ids (awaiter.ids.length : Int)
  if r.2 ≠ (awaiter.ids.length : Int) then
    if r.2 = 0 ∨ awaiter.flags = GRACHT_AWAIT_ANY then
      { awaiter with ids := r.1, event := awaiter.event + 1 }
    else { awaiter with ids := r.1 }
  else { awaiter with ids := r.1 }

/-- The static `mark_awaiters` (lines 368 to 399): walk the awaiter list from its head. -/
def mark_awaiters (client : gracht_client) (messageId : Nat) : gracht_client :=
  { client with awaiters := client.awaiters.map (mark_awaiter messageId) }

/-- The counting loop of `check_awaiter_condition` (lines 408 to 418). -/
def count_completed (messages : List gracht_message_descriptor) :
    List gracht_message_context → Int
  | [] => 0
  | ctx :: rest =>
    match gracht_list_lookup gracht_message_descriptor.header_id messages
        (int_cast ctx.message_id) with
    | some (_, descriptor) =>
      if descriptor.status = GRACHT_MESSAGE_INPROGRESS ∨
          descriptor.status = GRACHT_MESSAGE_CREATED then
        count_completed messages rest
      else count_completed messages rest + 1
    | none => count_completed messages rest + 1

/-- The static `check_awaiter_condition` (lines 401 to 427); `contexts` holds the
`contextCount` contexts. -/
def check_awaiter_condition (client : gracht_client) (awaiter : gracht_message_awaiter)
    (contexts : List gracht_message_context) : Int :=
  let messagesCompleted := count_completed client.messages contexts
  if messagesCompleted ≠ 0 then
    if messagesCompleted = (contexts.length : Int) ∨ awaiter.flags = GRACHT_AWAIT_ANY then 0
    else -1
  else -1

/-- How a call of await ends in a sequential run: it returns, or it sleeps in
`cnd_wait` with its awaiter enqueued and the mutex released. -/
inductive await_result (σ : Type) where
  | returned (ret : Int) (sys : gracht_system σ) (client : Option gracht_client)
  | waiting (awaiter : Nat) (sys : gracht_system σ) (client : gracht_client)

/-- The part shared by await and await_multiple once the awaiter is filled in
(lines 140 to 150 and 179 to 189), up to the return or the sleep. -/
def await_enter {σ : Type} (sys : gracht_system σ) (client : gracht_client)
    (awaiter : gracht_message_awaiter) (contexts : List gracht_message_context) :
    await_result σ :=
  if check_awaiter_condition client awaiter contexts ≠ 0 then
    await_result.waiting awaiter.addr
      { sys with trace := sys.trace ++ [gracht_event.mtx_lock, gracht_event.cnd_wait awaiter.addr] }
      { client with awaiters := gracht_list_append client.awaiters awaiter }
  else
    await_result.returned 0
      { sys with trace := sys.trace ++
          [gracht_event.mtx_lock, gracht_event.mtx_unlock, gracht_event.free awaiter.addr] }
      (some client)

/-- The function `gracht_client_await` (lines 118 to 151) up to its return or its sleep. -/
def gracht_client_await {σ : Type} (abi : gracht_abi) (env : gracht_env σ)
    (sys : gracht_system σ) (client : Option gracht_client)
    (context : Option gracht_message_context) : await_result σ :=
  match client, context with
  | some c, some ctx =>
    let size := abi.sizeof_awaiter + 4
    let ml := env.malloc sys.link size
    let sys1 : gracht_system σ :=
      { sys with link := ml.2, trace := sys.trace ++ [gracht_event.malloc size] }
    match ml.1 with
    | none => await_result.returned (-1) { sys1 with errno := ENOMEM } (some c)
    | some addr =>
      await_enter sys1 c
        { addr := addr, flags := GRACHT_AWAIT_ANY, event := 0, ids := [ctx.message_id] } [ctx]
  | _, _ => await_result.returned (-1) { sys with errno := EINVAL } client

/-- The function `gracht_client_await_multiple` (lines 153 to 190) up to its return or its
sleep; `contexts` is the array of `contextCount` context pointers. -/
def gracht_client_await_multiple {σ : Type} (abi : gracht_abi) (env : gracht_env σ)
    (sys : gracht_system σ) (client : Option gracht_client)
    (contexts : Option (List gracht_message_context)) (flags : Nat) : await_result σ :=
  match client, contexts with
  | some c, some ctxs =>
    let size := abi.sizeof_awaiter + 4 * ctxs.length
    let ml := env.malloc sys.link size
    let sys1 : gracht_system σ :=
      { sys with link := ml.2, trace := sys.trace ++ [gracht_event.malloc size] }
    match ml.1 with
    | none => await_result.returned (-1) { sys1 with errno := ENOMEM } (some c)
    | some addr =>
      await_enter sys1 c
        { addr := addr, flags := flags, event := 0,
          ids := ctxs.map gracht_message_context.message_id } ctxs
  | _, _ => await_result.returned (-1) { sys with errno := EINVAL } client

/-- The rest of await and await_multiple after `cnd_wait` returns: the awaiter is
unlinked, the mutex released, the awaiter freed, and 0 returned. -/
def await_wake {σ : Type} (sys : gracht_system σ) (client : gracht_client) (awaiter : Nat) :
    Int × gracht_system σ × gracht_client :=
  (0,
   { sys with trace := sys.trace ++ [gracht_event.mtx_unlock, gracht_event.free awaiter] },
   { client with
     awaiters := gracht_list_remove client.awaiters
       (client.awaiters.findIdx (fun a => decide (a.addr = awaiter))) })

/-! ### Result extraction -/

/-- A store into caller memory made by status: a `width` byte integer at `dst`, or a
`memcpy` of `bytes` to `dst`. -/
inductive param_write where
  | value (dst : Nat) (width : Nat) (v : Nat)
  | buffer (dst : Nat) (bytes : List Nat)
deriving DecidableEq, Repr

/-- The unpacking loop of status (lines 228 to 250): `n` iterations remain, `i` is the
loop index and `pointer` the cursor, an offset into the stored message. -/
def unpack_parameters (abi : gracht_abi) (stored : Memory) (params : Nat → gracht_param) :
    Nat → Nat → Nat → List param_write
  | 0, _, _ => []
  | n + 1, i, pointer =>
    let out_param := params i
    let in_param := abi.read_param (mem_offset stored (abi.sizeof_message + i * abi.sizeof_param))
    if out_param.type = GRACHT_PARAM_VALUE then
      if out_param.length = 1 then
        param_write.value out_param.data 1 (in_param.data % 2 ^ 8) ::
          unpack_parameters abi stored params n (i + 1) pointer
      else if out_param.length = 2 then
        param_write.value out_param.data 2 (in_param.data % 2 ^ 16) ::
          unpack_parameters abi stored params n (i + 1) pointer
      else if out_param.length = 4 then
        param_write.value out_param.data 4 (in_param.data % 2 ^ 32) ::
          unpack_parameters abi stored params n (i + 1) pointer
      else if out_param.length = 8 then
        param_write.value out_param.data 8 (in_param.data % 2 ^ 64) ::
          unpack_parameters abi stored params n (i + 1) pointer
      else unpack_parameters abi stored params n (i + 1) pointer
    else if out_param.type = GRACHT_PARAM_BUFFER then
      param_write.buffer out_param.data (mem_read stored pointer in_param.length) ::
        unpack_parameters abi stored params n (i + 1) (pointer + in_param.length)
    else unpack_parameters abi stored params n (i + 1) pointer

/-- Result of `gracht_client_status`: return value, outside state, client, and the
stores made into the caller output slots, in order. -/
structure status_result (σ : Type) where
  ret : Int
  sys : gracht_system σ
  client : Option gracht_client
  writes : List param_write

/-- The function `gracht_client_status` (lines 193 to 256). -/
def gracht_client_status {σ : Type} (abi : gracht_abi) (env : gracht_env σ)
    (sys : gracht_system σ) (client : Option gracht_client)
    (context : Option gracht_message_context) (params : Option (Nat → gracht_param)) :
    status_result σ :=
  match client, context, params with
  | some c, some ctx, some ps =>
    match gracht_list_lookup gracht_message_descriptor.header_id c.messages
        (int_cast ctx.message_id) with
    | none =>
      { ret := -1,
        sys := { sys with
          errno := EALREADY,
          trace := sys.trace ++ [gracht_event.mtx_lock, gracht_event.mtx_unlock] },
        client := some c, writes := [] }
    | some (node, descriptor) =>
      if descriptor.status = GRACHT_MESSAGE_COMPLETED ∨
          descriptor.status = GRACHT_MESSAGE_ERROR then
        let header := abi.read_header descriptor.message
        { ret := 0,
          sys := { sys with
            link := env.ops.free_buffer sys.link ctx.descriptor,
            trace := sys.trace ++ [gracht_event.mtx_lock, gracht_event.mtx_unlock,
              gracht_event.free_buffer ctx.descriptor] },
          client := some { c with messages := gracht_list_remove c.messages node },
          writes := unpack_parameters abi descriptor.message ps header.param_in 0
            (abi.sizeof_message + header.param_in * abi.sizeof_param) }
      else
        { ret := 0,
          sys := { sys with
            trace := sys.trace ++ [gracht_event.mtx_lock, gracht_event.mtx_unlock] },
          client := some c, writes := [] }
  | _, _, _ =>
    { ret := -1, sys := { sys with errno := EINVAL }, client := client, writes := [] }

/-! ### Dispatch -/

/-- Result of `gracht_client_wait_message`. -/
structure wait_result (σ : Type) where
  ret : Int
  sys : gracht_system σ
  client : Option gracht_client

/-- The function `gracht_client_wait_message` (lines 258 to 297). -/
def gracht_client_wait_message {σ : Type} (abi : gracht_abi) (env : gracht_env σ)
    (sys : gracht_system σ) (client : Option gracht_client) (messageBuffer : Nat) :
    wait_result σ :=
  match client with
  | none => { ret := -1, sys := { sys with errno := EINVAL }, client := none }
  | some c =>
    let rv := env.ops.recv sys.link messageBuffer 0
    let sys1 : gracht_system σ :=
      { sys with link := rv.link, trace := sys.trace ++ [gracht_event.recv messageBuffer] }
    if rv.status ≠ 0 then { ret := rv.status, sys := sys1, client := some c }
    else
      let header := abi.read_header rv.message
      let c1 := mark_awaiters c header.id
      let sys2 : gracht_system σ :=
        { sys1 with trace := sys1.trace ++ [gracht_event.mtx_lock, gracht_event.mtx_unlock] }
      if MESSAGE_FLAG_TYPE header.flags = MESSAGE_FLAG_EVENT then
        let act := env.client_invoke_action sys2.link c1.protocols rv.message
        { ret := act.1,
          sys := { sys2 with
            link := act.2, trace := sys2.trace ++ [gracht_event.client_invoke_action] },
          client := some c1 }
      else if MESSAGE_FLAG_TYPE header.flags = MESSAGE_FLAG_RESPONSE then
        match gracht_list_lookup gracht_message_descriptor.header_id c1.messages
            (int_cast header.id) with
        | none => { ret := -1, sys := sys2, client := some c1 }
        | some (node, descriptor) =>
          { ret := 0, sys := sys2,
            client := some { c1 with
              messages := c1.messages.set node
                { descriptor with
                  message := memcpy descriptor.message rv.message header.length,
                  status := GRACHT_MESSAGE_COMPLETED } } }
      else { ret := 0, sys := sys2, client := some c1 }

/-! ### Lifecycle and registry -/

/-- The function `gracht_client_shutdown` (lines 330 to 344). -/
def gracht_client_shutdown {σ : Type} (env : gracht_env σ) (sys : gracht_system σ)
    (client : Option gracht_client) : Int × gracht_system σ :=
  match client with
  | none => (-1, { sys with errno := EINVAL })
  | some c =>
    if c.iod > 0 then
      (0, { sys with
        link := env.ops.destroy sys.link,
        trace := sys.trace ++
          [gracht_event.destroy, gracht_event.mtx_destroy, gracht_event.free_client] })
    else
      (0, { sys with
        trace := sys.trace ++ [gracht_event.mtx_destroy, gracht_event.free_client] })

/-- Result of `gracht_client_create`: return value, outside state, and the client
stored through `clientOut` when the store is made. -/
structure create_result (σ : Type) where
  ret : Int
  sys : gracht_system σ
  clientOut : Option gracht_client

/-- The function `gracht_client_create` (lines 299 to 328). `config` is the config
pointer with, inside, its link pointer; `clientOut` tells whether the output
pointer is non-null. -/
def gracht_client_create {σ : Type} (abi : gracht_abi) (env : gracht_env σ)
    (sys : gracht_system σ) (config : Option (Option Nat)) (clientOut : Bool) :
    create_result σ :=
  match config, clientOut with
  | some (some _), true =>
    let ml := env.malloc sys.link abi.sizeof_client
    let sys1 : gracht_system σ :=
      { sys with link := ml.2, trace := sys.trace ++ [gracht_event.malloc abi.sizeof_client] }
    match ml.1 with
    | none => { ret := -1, sys := { sys1 with errno := ENOMEM }, clientOut := none }
    | some _ =>
      let cn := env.ops.connect sys1.link
      let client : gracht_client :=
        { iod := cn.1, current_message_id := 0, protocols := [], awaiters := [], messages := [] }
      let sys2 : gracht_system σ :=
        { sys1 with
          link := cn.2,
          trace := sys1.trace ++ [gracht_event.mtx_init, gracht_event.connect] }
      if client.iod < 0 then
        { ret := -1, sys := (gracht_client_shutdown env sys2 (some client)).2, clientOut := none }
      else { ret := 0, sys := sys2, clientOut := some client }
  | _, _ => { ret := -1, sys := { sys with errno := EINVAL }, clientOut := none }

/-- The function `gracht_client_register_protocol` (lines 346 to 355). -/
def gracht_client_register_protocol {σ : Type} (sys : gracht_system σ)
    (client : Option gracht_client) (protocol : Option gracht_protocol) :
    Int × gracht_system σ × Option gracht_client :=
  match client, protocol with
  | some c, some p =>
    (0, sys, some { c with protocols := gracht_list_append c.protocols p })
  | _, _ => (-1, { sys with errno := EINVAL }, client)

/-- The function `gracht_client_unregister_protocol` (lines 357 to 366). -/
def gracht_client_unregister_protocol {σ : Type} (sys : gracht_system σ)
    (client : Option gracht_client) (protocol : Option gracht_protocol) :
    Int × gracht_system σ × Option gracht_client :=
  match client, protocol with
  | some c, some p =>
    (0, sys,
     some { c with
       protocols := gracht_list_remove c.protocols
         (c.protocols.findIdx (fun q => decide (q.addr = p.addr))) })
  | _, _ => (-1, { sys with errno := EINVAL }, client)

/-! ## Drivers and sample collaborators used to state and run the properties -/

/-- The message as invoke leaves it: the id field holds the value drawn from the client. -/
def with_id (client : gracht_client) (message : gracht_message) : gracht_message :=
  { message with header := { message.header with id := client.current_message_id } }

/-- A run of successive invokes on one client, each with a non-null client and message.
Returns the result of every call and the client after the last one. -/
def invoke_run {σ : Type} (abi : gracht_abi) (env : gracht_env σ) :
    gracht_system σ → gracht_client → List (gracht_message_context × gracht_message) →
    List (invoke_result σ) × gracht_client
  | _, c, [] => ([], c)
  | sys, c, call :: rest =>
    let r := gracht_client_invoke abi env sys (some c) call.1 (some call.2)
    ((invoke_run abi env r.sys (r.client.getD c) rest).1.cons r,
     (invoke_run abi env r.sys (r.client.getD c) rest).2)

/-- The message id each call of a run assigned. -/
def issued_ids {σ : Type} (results : List (invoke_result σ)) : List Nat :=
  results.map (fun r => match r.message with
    | some m => m.header.id
    | none => 0)

/-- A 32 bit little endian word at an offset. -/
def le32 (m : Memory) (off : Nat) : Nat :=
  m off % 256 + 256 * (m (off + 1) % 256) + 65536 * (m (off + 2) % 256) +
    16777216 * (m (off + 3) % 256)

/-- A sample ABI to run the model on concrete bytes: 32 bit, little endian, a 12 byte
message header (id, length, then one word packing param_in, param_out and flags)
and a 12 byte parameter (type, data, length). -/
def sample_abi : gracht_abi :=
  { sizeof_message := 12
    sizeof_param := 12
    sizeof_descriptor := 24
    sizeof_awaiter := 24
    sizeof_client := 64
    size_bits := 32
    read_header := fun m =>
      { id := le32 m 0, length := le32 m 4, param_in := m 8 % 16, param_out := m 8 / 16 % 16,
        flags := m 9 % 256 }
    read_param := fun m => { type := le32 m 0, data := le32 m 4, length := le32 m 8 } }

/-- A sample environment over a trivial link state: every collaborator answers with
the given constant. -/
def sample_env (get_buffer_status send_status recv_status : Int) (inbound : Memory)
    (malloc_result : Option Nat) (action_result : Int) : gracht_env Unit :=
  { ops :=
      { connect := fun _ => (1, ())
        recv := fun _ _ _ => { status := recv_status, message := inbound, link := () }
        send := fun _ _ _ => (send_status, ())
        get_buffer := fun _ _ =>
          { status := get_buffer_status, buffer := 4096, memory := fun _ => 0, link := () }
        free_buffer := fun _ _ => ()
        destroy := fun _ => () }
    malloc := fun _ _ => (malloc_result, ())
    client_invoke_action := fun _ _ _ => (action_result, ()) }

/-- A sample outside state. -/
def sample_sys : gracht_system Unit := { link := (), errno := 0, trace := [] }

/-- A client as create leaves it, with the given counter value. -/
def sample_client (counter : Nat) : gracht_client :=
  { iod := 1, current_message_id := counter, protocols := [], awaiters := [], messages := [] }

/-- A message of the given kind without parameters. -/
def sample_message (flags : Nat) : gracht_message :=
  { header := { id := 0, length := 12, param_in := 0, param_out := 0, flags := flags }
    params := fun _ => { type := 0, data := 0, length := 0 } }

/-- A client whose Pending-Call table holds the given (key, status) entries, in order. -/
def sample_table_client (entries : List (Int × Int)) : gracht_client :=
  { iod := 1, current_message_id := 100, protocols := [], awaiters := []
    messages := entries.map (fun e => { header_id := e.1, status := e.2, message := fun _ => 0 }) }

/-- Caller output slots that are all absent (type and length 0 beyond use). -/
def sample_no_params : Nat → gracht_param := fun _ => { type := 2, data := 0, length := 0 }

/-- The memory holding the given bytes from offset 0 on, and 0 after them. -/
def bytes_memory (bytes : List Nat) : Memory := fun j => bytes.getD j 0

/-- A client as create leaves it, with the given awaiters enqueued. -/
def sample_awaiting_client (awaiters : List gracht_message_awaiter) : gracht_client :=
  { iod := 1, current_message_id := 100, protocols := [], awaiters := awaiters, messages := [] }

/-- A received message header under `sample_abi`: the given id (below 256), length 12,
no parameters, and the given flags. -/
def sample_inbound (id flags : Nat) : Memory :=
  bytes_memory [id, 0, 0, 0, 12, 0, 0, 0, 0, flags]

/-- Parameter `i` of a message in memory carries an expected store: for a value, the
inline data is the value and the value fits the width, one of 1, 2, 4, 8; for a
buffer, the parameter announces the length of the bytes. -/
def carries (abi : gracht_abi) (message : Memory) (i : Nat) : param_write → Prop
  | param_write.value _ width v =>
    (abi.read_param (mem_offset message (abi.sizeof_message + i * abi.sizeof_param))).data = v ∧
      (width = 1 ∨ width = 2 ∨ width = 4 ∨ width = 8) ∧ v < 2 ^ (8 * width)
  | param_write.buffer _ bytes =>
    (abi.read_param (mem_offset message (abi.sizeof_message + i * abi.sizeof_param))).length =
      bytes.length

/-- Whether a parameter carries an expected store can be computed. -/
instance carries_decidable (abi : gracht_abi) (message : Memory) (i : Nat) (e : param_write) :
    Decidable (carries abi message i e) := by
  cases e <;> unfold carries <;> infer_instance

/-- A Sync-Request without inputs that declares two outputs: a 4 byte Value slot at
address 1000 and a 16 byte Buffer slot at address 2000. -/
def sample_request : gracht_message :=
  { header := { id := 0, length := 36, param_in := 0, param_out := 2, flags := 0 }
    params := fun i =>
      if i = 0 then { type := GRACHT_PARAM_VALUE, data := 1000, length := 4 }
      else { type := GRACHT_PARAM_BUFFER, data := 2000, length := 16 } }

/-- The Response to message id 7 under `sample_abi`: 52 bytes, two parameters, the value
0xDEADBEEF inline and a 16 byte buffer after the parameter array. -/
def sample_response : Memory :=
  bytes_memory
    [7, 0, 0, 0, 52, 0, 0, 0, 2, 3, 0, 0,
     0, 0, 0, 0, 239, 190, 173, 222, 4, 0, 0, 0,
     1, 0, 0, 0, 0, 0, 0, 0, 16, 0, 0, 0,
     1, 2, 3, 4, 5, 6, 7, 8, 9, 10, 11, 12, 13, 14, 15, 16]

/-- The count named `completed` in the description of the awaiter condition: the number
of contexts whose message id has no table entry or whose descriptor status is
neither Created nor InProgress. -/
def completed_contexts (messages : List gracht_message_descriptor)
    (contexts : List gracht_message_context) : Nat :=
  contexts.countP (fun ctx =>
    match gracht_list_lookup gracht_message_descriptor.header_id messages
        (int_cast ctx.message_id) with
    | none => true
    | some (_, descriptor) =>
      decide (¬ (descriptor.status = GRACHT_MESSAGE_CREATED ∨
        descriptor.status = GRACHT_MESSAGE_INPROGRESS)))

/-- A sample environment whose link state is the queue of messages still to be
received: recv hands out the head of the queue, and fails with -1 when it is
empty. The other collaborators answer with the given constants. -/
def queue_env (connect_result : Int) (malloc_result : Option Nat) : gracht_env (List Memory) :=
  { ops :=
      { connect := fun q => (connect_result, q)
        recv := fun q _ _ =>
          match q with
          | [] => { status := -1, message := fun _ => 0, link := [] }
          | m :: rest => { status := 0, message := m, link := rest }
        send := fun q _ _ => (0, q)
        get_buffer := fun q _ => { status := 0, buffer := 4096, memory := fun _ => 0, link := q }
        free_buffer := fun q _ => q
        destroy := fun q => q }
    malloc := fun q _ => (malloc_result, q)
    client_invoke_action := fun q _ _ => (0, q) }

/-- An outside state whose link holds the given inbound messages. -/
def queue_sys (inbound : List Memory) : gracht_system (List Memory) :=
  { link := inbound, errno := 0, trace := [] }

/-- Whether a call of await ended asleep in `cnd_wait`. -/
def await_result.blocked {σ : Type} : await_result σ → Bool
  | await_result.returned _ _ _ => false
  | await_result.waiting _ _ _ => true

/-- The outside state a call of await leaves. -/
def await_result.sys {σ : Type} : await_result σ → gracht_system σ
  | await_result.returned _ sys _ => sys
  | await_result.waiting _ sys _ => sys

/-- The client a call of await leaves. -/
def await_result.client {σ : Type} : await_result σ → Option gracht_client
  | await_result.returned _ _ client => client
  | await_result.waiting _ _ client => some client

/-- A run of the dispatch loop: `n` successive calls of wait_message on one client.
Returns the value each call returned, and the state and client after the last. -/
def dispatch_run {σ : Type} (abi : gracht_abi) (env : gracht_env σ) :
    Nat → gracht_system σ → Option gracht_client →
    List Int × gracht_system σ × Option gracht_client
  | 0, sys, client => ([], sys, client)
  | n + 1, sys, client =>
    ((dispatch_run abi env n
        (gracht_client_wait_message abi env sys client 0).sys
        (gracht_client_wait_message abi env sys client 0).client).1.cons
      (gracht_client_wait_message abi env sys client 0).ret,
     (dispatch_run abi env n
        (gracht_client_wait_message abi env sys client 0).sys
        (gracht_client_wait_message abi env sys client 0).client).2)

/-- The statuses of the Pending-Call table of a client, in table order. -/
def table_statuses (client : Option gracht_client) : List Int :=
  match client with
  | none => []
  | some c => c.messages.map gracht_message_descriptor.status

/-- The awaiters enqueued on a client. -/
def enqueued_awaiters (client : Option gracht_client) : List gracht_message_awaiter :=
  match client with
  | none => []
  | some c => c.awaiters

/-- The cursor offset described for buffer extraction: the sum of the stored lengths of
the parameters before index `i` whose caller slot is of type Buffer. -/
def cursor_at (abi : gracht_abi) (stored : Memory) (params : Nat → gracht_param) : Nat → Nat
  | 0 => 0
  | i + 1 =>
    if (params i).type = GRACHT_PARAM_BUFFER then
      cursor_at abi stored params i +
        (abi.read_param (mem_offset stored (abi.sizeof_message + i * abi.sizeof_param))).length
    else cursor_at abi stored params i

/-- The store described for index `i` when the cursor starts at offset `base`: a Value
slot of width 1, 2, 4 or 8 receives the stored value reduced modulo 2^(8 width);
a Buffer slot receives the stored bytes at `base` plus the cursor offset, as many
as the stored length; any other slot receives nothing. -/
def expected_store (abi : gracht_abi) (stored : Memory) (params : Nat → gracht_param)
    (base : Nat) (i : Nat) : Option param_write :=
  if (params i).type = GRACHT_PARAM_VALUE then
    if (params i).length = 1 ∨ (params i).length = 2 ∨ (params i).length = 4 ∨
        (params i).length = 8 then
      some (param_write.value (params i).data (params i).length
        ((abi.read_param (mem_offset stored (abi.sizeof_message + i * abi.sizeof_param))).data %
          2 ^ (8 * (params i).length)))
    else none
  else if (params i).type = GRACHT_PARAM_BUFFER then
    some (param_write.buffer (params i).data
      (mem_read stored (base + cursor_at abi stored params i)
        (abi.read_param (mem_offset stored (abi.sizeof_message + i * abi.sizeof_param))).length))
  else none

/-- A client whose Pending-Call table holds one Completed entry for id 7 whose stored
message is `sample_response`. -/
def sample_completed_client : gracht_client :=
  { iod := 1, current_message_id := 8, protocols := [], awaiters := []
    messages := [{ header_id := 7, status := GRACHT_MESSAGE_COMPLETED, message := sample_response }] }

/-- The sum described for the descriptor size: the declared lengths of those output
parameters `params[param_in + i]`, `i < param_out`, whose type is Buffer. -/
def declared_buffer_bytes (message : gracht_message) : Nat :=
  ((List.range message.header.param_out).map (fun i =>
    if (message.params (message.header.param_in + i)).type = GRACHT_PARAM_BUFFER then
      (message.params (message.header.param_in + i)).length
    else 0)).sum

/-- A Sync-Request with one output parameter, a Buffer of declared length 2^32 - 1. -/
def sample_huge_request : gracht_message :=
  { header := { id := 0, length := 24, param_in := 0, param_out := 1, flags := 0 }
    params := fun _ => { type := GRACHT_PARAM_BUFFER, data := 2000, length := 4294967295 } }

/-! ### Accesses to the shared state, for the locking discipline -/

/-- What a public operation does that matters for the locking discipline, in program
order: a call to a collaborator (mtx_lock and mtx_unlock among them), a read or
mutation of the Pending-Call table (`gracht_list_lookup`, `gracht_list_append`,
`gracht_list_remove` on `client->messages`), a read or mutation of the Awaiter
set, a store to `descriptor->status`, or a check of the satisfaction condition. -/
inductive access_event where
  | call (e : gracht_event)
  | messages_access
  | awaiters_access
  | status_write
  | condition_check
deriving DecidableEq, Repr

/-- The calls among the accesses. -/
def access_calls : List access_event → List gracht_event
  | [] => []
  | access_event.call e :: rest => e :: access_calls rest
  | _ :: rest => access_calls rest

/-- The accesses of `gracht_client_invoke`, line by line: get_buffer (96), the store of
Created (103), mtx_lock (105), the append (106), mtx_unlock (107), send (110),
the store of Completed or Error (113). -/
def gracht_client_invoke_accesses {σ : Type} (abi : gracht_abi) (env : gracht_env σ)
    (sys : gracht_system σ) (client : Option gracht_client) (message : Option gracht_message) :
    List access_event :=
  match client, message with
  | some c, some m =>
    if MESSAGE_FLAG_TYPE m.header.flags = MESSAGE_FLAG_SYNC then
      if (env.ops.get_buffer sys.link (invoke_buffer_length abi m)).status ≠ 0 then
        [access_event.call (gracht_event.get_buffer (invoke_buffer_length abi m))]
      else
        [access_event.call (gracht_event.get_buffer (invoke_buffer_length abi m)),
         access_event.status_write,
         access_event.call gracht_event.mtx_lock,
         access_event.messages_access,
         access_event.call gracht_event.mtx_unlock,
         access_event.call (gracht_event.send c.current_message_id),
         access_event.status_write]
    else [access_event.call (gracht_event.send c.current_message_id)]
  | _, _ => []

/-- The accesses of `gracht_client_wait_message`, line by line: recv (268), mtx_lock
(274), the walk of the awaiters (275), mtx_unlock (276), then for an Event the
dispatcher (280), and for a Response the lookup (284) and, when a descriptor is
found, the copy and the store of Completed (291 to 294). -/
def gracht_client_wait_message_accesses {σ : Type} (abi : gracht_abi) (env : gracht_env σ)
    (sys : gracht_system σ) (client : Option gracht_client) (messageBuffer : Nat) :
    List access_event :=
  match client with
  | none => []
  | some c =>
    if (env.ops.recv sys.link messageBuffer 0).status ≠ 0 then
      [access_event.call (gracht_event.recv messageBuffer)]
    else
      [access_event.call (gracht_event.recv messageBuffer),
       access_event.call gracht_event.mtx_lock,
       access_event.awaiters_access,
       access_event.call gracht_event.mtx_unlock] ++
      (if MESSAGE_FLAG_TYPE
          (abi.read_header (env.ops.recv sys.link messageBuffer 0).message).flags =
            MESSAGE_FLAG_EVENT then
        [access_event.call gracht_event.client_invoke_action]
      else if MESSAGE_FLAG_TYPE
          (abi.read_header (env.ops.recv sys.link messageBuffer 0).message).flags =
            MESSAGE_FLAG_RESPONSE then
        match gracht_list_lookup gracht_message_descriptor.header_id c.messages
            (int_cast (abi.read_header (env.ops.recv sys.link messageBuffer 0).message).id) with
        | none => [access_event.messages_access]
        | some _ => [access_event.messages_access, access_event.status_write]
      else [])

/-- The accesses of `gracht_client_status`, line by line: mtx_lock (207), the lookup
(208), and then either mtx_unlock (212), or for a terminal descriptor the
removal (219), mtx_unlock (224) and free_buffer (252), or mtx_unlock (224). -/
def gracht_client_status_accesses (client : Option gracht_client)
    (context : Option gracht_message_context) (params : Option (Nat → gracht_param)) :
    List access_event :=
  match client, context, params with
  | some c, some ctx, some _ =>
    match gracht_list_lookup gracht_message_descriptor.header_id c.messages
        (int_cast ctx.message_id) with
    | none =>
      [access_event.call gracht_event.mtx_lock, access_event.messages_access,
       access_event.call gracht_event.mtx_unlock]
    | some (_, descriptor) =>
      if descriptor.status = GRACHT_MESSAGE_COMPLETED ∨
          descriptor.status = GRACHT_MESSAGE_ERROR then
        [access_event.call gracht_event.mtx_lock, access_event.messages_access,
         access_event.messages_access, access_event.call gracht_event.mtx_unlock,
         access_event.call (gracht_event.free_buffer ctx.descriptor)]
      else
        [access_event.call gracht_event.mtx_lock, access_event.messages_access,
         access_event.call gracht_event.mtx_unlock]
  | _, _, _ => []

/-- The locking discipline on a sequence of accesses, given whether the mutex is held
at its start: every access to the Pending-Call table or to the Awaiter set,
every store to a descriptor status and every condition check is made while the
mutex is held, and send and recv are called while it is not held. -/
def lock_disciplined : Bool → List access_event → Bool
  | _, [] => true
  | _, access_event.call gracht_event.mtx_lock :: rest => lock_disciplined true rest
  | _, access_event.call gracht_event.mtx_unlock :: rest => lock_disciplined false rest
  | held, access_event.call (gracht_event.send _) :: rest => !held && lock_disciplined held rest
  | held, access_event.call (gracht_event.recv _) :: rest => !held && lock_disciplined held rest
  | held, access_event.call _ :: rest => lock_disciplined held rest
  | held, access_event.messages_access :: rest => held && lock_disciplined held rest
  | held, access_event.awaiters_access :: rest => held && lock_disciplined held rest
  | held, access_event.status_write :: rest => held && lock_disciplined held rest
  | held, access_event.condition_check :: rest => held && lock_disciplined held rest

/-! ### Runs of a client -/

/-- A call on a client, with non-null arguments. -/
inductive client_op where
  | invoke (context : gracht_message_context) (message : gracht_message)
  | status (context : gracht_message_context) (params : Nat → gracht_param)
  | wait_message (messageBuffer : Nat)

/-- The state of a run: the outside state, the client, and two records kept along the
run, neither of which looks at the Pending-Call table. `issued` lists the
message ids issued so far; `live` lists the ids issued to those invokes of a
Sync-Request for which the transport handed out the descriptor buffer, less
the ids asked for by the status queries that have returned 0 since. -/
structure run_state (σ : Type) where
  sys : gracht_system σ
  client : gracht_client
  issued : List Nat
  live : List Nat

/-- The message id found in the message after an invoke. -/
def issued_id {σ : Type} (r : invoke_result σ) : Nat :=
  match r.message with
  | some m => m.header.id
  | none => 0

/-- One call of a run. An invoke records the id it issued, and records it as live when
the message it was given is a Sync-Request and get_buffer answered 0 to the
request for its descriptor; a status query that returned 0 strikes the id it
asked for from the live ids. -/
def run_step {σ : Type} (abi : gracht_abi) (env : gracht_env σ) (s : run_state σ) :
    client_op → run_state σ
  | client_op.invoke context message =>
    { sys := (gracht_client_invoke abi env s.sys (some s.client) context (some message)).sys
      client :=
        (gracht_client_invoke abi env s.sys (some s.client) context (some message)).client.getD
          s.client
      issued := s.issued ++
        [issued_id (gracht_client_invoke abi env s.sys (some s.client) context (some message))]
      live :=
        if MESSAGE_FLAG_TYPE message.header.flags = MESSAGE_FLAG_SYNC ∧
            (env.ops.get_buffer s.sys.link (invoke_buffer_length abi message)).status = 0 then
          s.live ++
            [issued_id (gracht_client_invoke abi env s.sys (some s.client) context (some message))]
        else s.live }
  | client_op.status context params =>
    { sys := (gracht_client_status abi env s.sys (some s.client) (some context) (some params)).sys
      client :=
        (gracht_client_status abi env s.sys (some s.client) (some context)
          (some params)).client.getD s.client
      issued := s.issued
      live :=
        if (gracht_client_status abi env s.sys (some s.client) (some context)
            (some params)).ret = 0 then
          s.live.filter (fun i => decide (int_cast i ≠ int_cast context.message_id))
        else s.live }
  | client_op.wait_message messageBuffer =>
    { sys := (gracht_client_wait_message abi env s.sys (some s.client) messageBuffer).sys
      client :=
        (gracht_client_wait_message abi env s.sys (some s.client) messageBuffer).client.getD
          s.client
      issued := s.issued
      live := s.live }

/-- A run: the calls of the list, one after the other. -/
def run_ops {σ : Type} (abi : gracht_abi) (env : gracht_env σ) :
    run_state σ → List client_op → run_state σ
  | s, [] => s
  | s, op :: rest => run_ops abi env (run_step abi env s op) rest

/-- The number of invokes among the calls of a run. -/
def count_invokes : List client_op → Nat
  | [] => 0
  | client_op.invoke _ _ :: rest => count_invokes rest + 1
  | _ :: rest => count_invokes rest

/-- The client that create yields for the handle connect returned (lines 316 to 319). -/
def fresh_client (iod : Int) : gracht_client :=
  { iod := iod, current_message_id := 0, protocols := [], awaiters := [], messages := [] }

/-- The start of a run on a freshly created client. -/
def fresh_state {σ : Type} (sys : gracht_system σ) (iod : Int) : run_state σ :=
  { sys := sys, client := fresh_client iod, issued := [], live := [] }

/-- What holds of the Pending-Call table all along a run of fewer than 2^32 invokes. -/
structure run_invariant {σ : Type} (s : run_state σ) : Prop where
  counter_lt : s.client.current_message_id < 2 ^ 32
  issued_eq : s.issued = List.range s.client.current_message_id
  keys_eq : s.client.messages.map gracht_message_descriptor.header_id = s.live.map int_cast
  live_sorted : s.live.Pairwise (fun i j => i < j)
  live_lt : ∀ i ∈ s.live, i < s.client.current_message_id

/-- Every descriptor of the Pending-Call table is Completed or Error. -/
def all_terminal (client : gracht_client) : Prop :=
  ∀ d ∈ client.messages,
    d.status = GRACHT_MESSAGE_COMPLETED ∨ d.status = GRACHT_MESSAGE_ERROR

/-- A sample run on a fresh client: a Sync-Request (id 0), an Async-Request (id 1), two
more Sync-Requests (ids 2 and 3), a reception, a status query on id 0 and a
status query on id 1, which was never registered. -/
def sample_ops : List client_op :=
  [client_op.invoke ⟨0, 0⟩ sample_request,
   client_op.invoke ⟨0, 0⟩ (sample_message 1),
   client_op.invoke ⟨0, 0⟩ sample_request,
   client_op.invoke ⟨0, 0⟩ sample_request,
   client_op.wait_message 0,
   client_op.status ⟨0, 4096⟩ sample_no_params,
   client_op.status ⟨1, 4096⟩ sample_no_params]

/-- A client whose counter has wrapped around to 7 while its Pending-Call table still
holds the Completed descriptor of the earlier Sync-Request with id 7, which no
status query has consumed. -/
def sample_wrapped_client : gracht_client :=
  { iod := 1, current_message_id := 7, protocols := [], awaiters := []
    messages := [{ header_id := 7, status := GRACHT_MESSAGE_COMPLETED, message := fun _ => 0 }] }

/-! ## Properties -/

/-- With a non-null client and message, invoke always hands back the client with its
counter advanced by one modulo 2^32 and the message carrying the old counter value. -/
theorem invoke_assigns_id {σ : Type} (abi : gracht_abi) (env : gracht_env σ)
    (sys : gracht_system σ) (c : gracht_client) (ctx : gracht_message_context)
    (m : gracht_message) :
    ∃ c2 m2, (gracht_client_invoke abi env sys (some c) ctx (some m)).client = some c2 ∧
      (gracht_client_invoke abi env sys (some c) ctx (some m)).message = some m2 ∧
      c2.current_message_id = (c.current_message_id + 1) % 2 ^ 32 ∧
      m2.header.id = c.current_message_id := by
  unfold gracht_client_invoke
  simp only [get_message_id]
  split_ifs <;> exact ⟨_, _, rfl, rfl, rfl, rfl⟩

/-- The ids issued by a run and the counter it leaves. -/
theorem invoke_run_ids {σ : Type} (abi : gracht_abi) (env : gracht_env σ)
    (calls : List (gracht_message_context × gracht_message)) :
    ∀ (sys : gracht_system σ) (c : gracht_client), c.current_message_id < 2 ^ 32 →
      issued_ids (invoke_run abi env sys c calls).1 =
        (List.range calls.length).map (fun i => (c.current_message_id + i) % 2 ^ 32) ∧
      (invoke_run abi env sys c calls).2.current_message_id =
        (c.current_message_id + calls.length) % 2 ^ 32 := by
  induction calls with
  | nil =>
    intro sys c hc
    simp only [invoke_run, issued_ids, List.map_nil, List.length_nil, List.range_zero,
      Nat.add_zero, true_and]
    exact (Nat.mod_eq_of_lt hc).symm
  | cons call rest ih =>
    intro sys c hc
    obtain ⟨c2, m2, hc2, hm2, hcnt, hid⟩ := invoke_assigns_id abi env sys c call.1 call.2
    have hlt : c2.current_message_id < 2 ^ 32 := by
      rw [hcnt]; exact Nat.mod_lt _ (by norm_num)
    obtain ⟨ih1, ih2⟩ := ih (gracht_client_invoke abi env sys (some c) call.1 (some call.2)).sys
      c2 hlt
    simp only [invoke_run, hc2, Option.getD_some]
    refine ⟨?_, ?_⟩
    · simp only [issued_ids, List.map_cons, List.length_cons, List.range_succ_eq_map,
        List.map_map, hm2, hid] at ih1 ⊢
      rw [ih1, hcnt]
      simp only [Nat.add_zero, Nat.mod_eq_of_lt hc, List.cons.injEq, true_and]
      apply List.map_congr_left
      intro i _
      simp only [Function.comp, Nat.mod_add_mod]
      congr 1
      omega
    · rw [ih2, hcnt, List.length_cons, Nat.mod_add_mod]
      congr 1
      omega

/-- The first `k` values of the counter sequence are pairwise distinct when `k ≤ 2^32`. -/
theorem counter_values_nodup (c k : Nat) (hk : k ≤ 2 ^ 32) :
    ((List.range k).map (fun i => (c + i) % 2 ^ 32)).Nodup := by
  refine (List.nodup_range k).map_on ?_
  intro i hi j hj hij
  rw [List.mem_range] at hi hj
  have hij2 : (c + i) % 2 ^ 32 = (c + j) % 2 ^ 32 := hij
  omega

/-- C1: starting from a counter value c, the i-th invoke of a run (counting from 0,
each with non-null client and message) assigns the message id (c + i) mod 2^32, the
counter ends at (c + k) mod 2^32, each issued id is the previous one plus 1 modulo
2^32, and for k at most 2^32 the issued ids are pairwise distinct. -/
theorem C1_invoke_issues_successive_ids {σ : Type} (abi : gracht_abi) (env : gracht_env σ)
    (sys : gracht_system σ) (c : gracht_client)
    (calls : List (gracht_message_context × gracht_message))
    (hc : c.current_message_id < 2 ^ 32) :
    (∀ i, i < calls.length →
      (issued_ids (invoke_run abi env sys c calls).1).get? i =
        some ((c.current_message_id + i) % 2 ^ 32)) ∧
    (invoke_run abi env sys c calls).2.current_message_id =
      (c.current_message_id + calls.length) % 2 ^ 32 ∧
    (∀ i, i + 1 < calls.length → ∃ a,
      (issued_ids (invoke_run abi env sys c calls).1).get? i = some a ∧
      (issued_ids (invoke_run abi env sys c calls).1).get? (i + 1) = some ((a + 1) % 2 ^ 32)) ∧
    (calls.length ≤ 2 ^ 32 → (issued_ids (invoke_run abi env sys c calls).1).Nodup) := by
  obtain ⟨hids, hfinal⟩ := invoke_run_ids abi env calls sys c hc
  have hget : ∀ i, i < calls.length →
      (issued_ids (invoke_run abi env sys c calls).1).get? i =
        some ((c.current_message_id + i) % 2 ^ 32) := by
    intro i hi
    rw [hids, List.get?_eq_getElem?, List.getElem?_map, List.getElem?_range hi]
    rfl
  refine ⟨hget, hfinal, ?_, ?_⟩
  · intro i hi
    refine ⟨_, hget i (by omega), ?_⟩
    rw [hget (i + 1) hi, Nat.mod_add_mod, Nat.add_assoc]
  · intro hk
    rw [hids]
    exact counter_values_nodup _ _ hk

/-- C1 at the wrap: from counter 2^32 - 1 two invokes issue 2^32 - 1 and then 0. -/
theorem C1_invoke_issues_successive_ids_witness :
    (sample_client 4294967295).current_message_id < 2 ^ 32 ∧
    (issued_ids (invoke_run sample_abi (sample_env 0 0 0 (fun _ => 0) none 0) sample_sys
      (sample_client 4294967295)
      [(⟨0, 0⟩, sample_message 1), (⟨0, 0⟩, sample_message 0)]).1).get? 1 = some 0 :=
  ⟨by decide,
   (C1_invoke_issues_successive_ids sample_abi (sample_env 0 0 0 (fun _ => 0) none 0) sample_sys
      (sample_client 4294967295) [(⟨0, 0⟩, sample_message 1), (⟨0, 0⟩, sample_message 0)]
      (by decide)).1 1 (by decide)⟩

/-- C2: invoke with a null client or a null message returns -1 with errno EINVAL and
leaves everything else as it was: the client (no Pending-Call entry, counter not
advanced), the context, the message, the link state and the call trace (neither
get_buffer nor send is called). -/
theorem C2_invoke_null_argument {σ : Type} (abi : gracht_abi) (env : gracht_env σ)
    (sys : gracht_system σ) (client : Option gracht_client) (context : gracht_message_context)
    (message : Option gracht_message) (hnull : client = none ∨ message = none) :
    (gracht_client_invoke abi env sys client context message).ret = -1 ∧
    (gracht_client_invoke abi env sys client context message).sys.errno = EINVAL ∧
    (gracht_client_invoke abi env sys client context message).client = client ∧
    (gracht_client_invoke abi env sys client context message).context = context ∧
    (gracht_client_invoke abi env sys client context message).message = message ∧
    (gracht_client_invoke abi env sys client context message).sys.trace = sys.trace ∧
    (gracht_client_invoke abi env sys client context message).sys.link = sys.link := by
  rcases hnull with h | h
  · subst h
    cases message <;> simp [gracht_client_invoke]
  · subst h
    cases client <;> simp [gracht_client_invoke]

/-- C2 on a live client with a null message. -/
theorem C2_invoke_null_argument_witness :
    (gracht_client_invoke sample_abi (sample_env 0 0 0 (fun _ => 0) none 0) sample_sys
      (some (sample_client 7)) ⟨0, 0⟩ none).ret = -1 ∧
    (gracht_client_invoke sample_abi (sample_env 0 0 0 (fun _ => 0) none 0) sample_sys
      (some (sample_client 7)) ⟨0, 0⟩ none).sys.errno = EINVAL :=
  ⟨(C2_invoke_null_argument sample_abi (sample_env 0 0 0 (fun _ => 0) none 0) sample_sys
      (some (sample_client 7)) ⟨0, 0⟩ none (Or.inr rfl)).1,
   (C2_invoke_null_argument sample_abi (sample_env 0 0 0 (fun _ => 0) none 0) sample_sys
      (some (sample_client 7)) ⟨0, 0⟩ none (Or.inr rfl)).2.1⟩

/-- Storing a status through the pointer to the node appended last. -/
theorem descriptor_set_status_last (l : List gracht_message_descriptor)
    (d : gracht_message_descriptor) (v : Int) :
    descriptor_set_status (gracht_list_append l d) ((gracht_list_append l d).length - 1) v =
      l ++ [{ d with status := v }] := by
  simp [descriptor_set_status, gracht_list_append, List.get?_eq_getElem?]

/-- The size handed to get_buffer does not depend on the id field. -/
theorem invoke_buffer_length_with_id (abi : gracht_abi) (c : gracht_client)
    (m : gracht_message) :
    invoke_buffer_length abi (with_id c m) = invoke_buffer_length abi m := rfl

/-- Invoke of a Sync-Request whose buffer request succeeds, in full. -/
theorem invoke_sync_ok {σ : Type} (abi : gracht_abi) (env : gracht_env σ)
    (sys : gracht_system σ) (c : gracht_client) (ctx : gracht_message_context)
    (m : gracht_message)
    (hsync : MESSAGE_FLAG_TYPE m.header.flags = MESSAGE_FLAG_SYNC)
    (hgb : (env.ops.get_buffer sys.link (invoke_buffer_length abi m)).status = 0) :
    gracht_client_invoke abi env sys (some c) ctx (some m) =
      { ret := (env.ops.send (env.ops.get_buffer sys.link (invoke_buffer_length abi m)).link
          (with_id c m)
          ⟨c.current_message_id,
            (env.ops.get_buffer sys.link (invoke_buffer_length abi m)).buffer⟩).1
        sys :=
          { link := (env.ops.send (env.ops.get_buffer sys.link (invoke_buffer_length abi m)).link
              (with_id c m)
              ⟨c.current_message_id,
                (env.ops.get_buffer sys.link (invoke_buffer_length abi m)).buffer⟩).2
            errno := sys.errno
            trace := sys.trace ++ [gracht_event.get_buffer (invoke_buffer_length abi m)] ++
              [gracht_event.mtx_lock, gracht_event.mtx_unlock,
                gracht_event.send c.current_message_id] }
        client := some
          { iod := c.iod
            current_message_id := (c.current_message_id + 1) % 2 ^ 32
            protocols := c.protocols
            awaiters := c.awaiters
            messages := c.messages ++
              [{ header_id := int_cast c.current_message_id
                 status :=
                   if (env.ops.send
                      (env.ops.get_buffer sys.link (invoke_buffer_length abi m)).link
                      (with_id c m)
                      ⟨c.current_message_id,
                        (env.ops.get_buffer sys.link (invoke_buffer_length abi m)).buffer⟩).1 = 0
                   then GRACHT_MESSAGE_COMPLETED else GRACHT_MESSAGE_ERROR
                 message := (env.ops.get_buffer sys.link (invoke_buffer_length abi m)).memory }] }
        context :=
          ⟨c.current_message_id, (env.ops.get_buffer sys.link (invoke_buffer_length abi m)).buffer⟩
        message := some (with_id c m) } := by
  have hsync2 : MESSAGE_FLAG_TYPE (with_id c m).header.flags = MESSAGE_FLAG_SYNC := hsync
  have hgb2 : (env.ops.get_buffer sys.link (invoke_buffer_length abi (with_id c m))).status = 0 :=
    hgb
  unfold gracht_client_invoke
  simp only [get_message_id]
  change (if MESSAGE_FLAG_TYPE (with_id c m).header.flags = MESSAGE_FLAG_SYNC then _ else _) = _
  rw [if_pos hsync2]
  change (if (env.ops.get_buffer sys.link (invoke_buffer_length abi (with_id c m))).status ≠ 0
    then _ else _) = _
  rw [if_neg (not_not.mpr hgb2)]
  simp only [descriptor_set_status_last]
  rfl

/-- Invoke of a message that is not a Sync-Request, in full. -/
theorem invoke_not_sync {σ : Type} (abi : gracht_abi) (env : gracht_env σ)
    (sys : gracht_system σ) (c : gracht_client) (ctx : gracht_message_context)
    (m : gracht_message)
    (hkind : MESSAGE_FLAG_TYPE m.header.flags ≠ MESSAGE_FLAG_SYNC) :
    gracht_client_invoke abi env sys (some c) ctx (some m) =
      { ret := (env.ops.send sys.link (with_id c m) ctx).1
        sys :=
          { link := (env.ops.send sys.link (with_id c m) ctx).2
            errno := sys.errno
            trace := sys.trace ++ [gracht_event.send c.current_message_id] }
        client := some
          { iod := c.iod
            current_message_id := (c.current_message_id + 1) % 2 ^ 32
            protocols := c.protocols
            awaiters := c.awaiters
            messages := c.messages }
        context := ctx
        message := some (with_id c m) } := by
  have hkind2 : ¬ MESSAGE_FLAG_TYPE (with_id c m).header.flags = MESSAGE_FLAG_SYNC := hkind
  unfold gracht_client_invoke
  simp only [get_message_id]
  change (if MESSAGE_FLAG_TYPE (with_id c m).header.flags = MESSAGE_FLAG_SYNC then _ else _) = _
  rw [if_neg hkind2]
  rfl

/-- C3: an invoke of a Sync-Request whose get_buffer succeeds leaves the Pending-Call
table equal to the old table with exactly one descriptor appended, keyed by the
message id just assigned, which is also stored in the context; an invoke of a
message of any other kind leaves the Pending-Call table unchanged. -/
theorem C3_invoke_registers_sync_request {σ : Type} (abi : gracht_abi) (env : gracht_env σ)
    (sys : gracht_system σ) (c : gracht_client) (ctx : gracht_message_context)
    (m : gracht_message) :
    (MESSAGE_FLAG_TYPE m.header.flags = MESSAGE_FLAG_SYNC →
      (env.ops.get_buffer sys.link (invoke_buffer_length abi m)).status = 0 →
      ∃ c2 d m2,
        (gracht_client_invoke abi env sys (some c) ctx (some m)).client = some c2 ∧
        (gracht_client_invoke abi env sys (some c) ctx (some m)).message = some m2 ∧
        c2.messages = c.messages ++ [d] ∧
        d.header_id = int_cast m2.header.id ∧
        m2.header.id = c.current_message_id ∧
        (gracht_client_invoke abi env sys (some c) ctx (some m)).context.message_id =
          m2.header.id) ∧
    (MESSAGE_FLAG_TYPE m.header.flags ≠ MESSAGE_FLAG_SYNC →
      ∃ c2,
        (gracht_client_invoke abi env sys (some c) ctx (some m)).client = some c2 ∧
        c2.messages = c.messages) := by
  constructor
  · intro hsync hgb
    rw [invoke_sync_ok abi env sys c ctx m hsync hgb]
    exact ⟨_, _, _, rfl, rfl, rfl, rfl, rfl, rfl⟩
  · intro hkind
    rw [invoke_not_sync abi env sys c ctx m hkind]
    exact ⟨_, rfl, rfl⟩

/-- C3 on a Sync-Request and on an Async-Request without parameters. -/
theorem C3_invoke_registers_sync_request_witness :
    (MESSAGE_FLAG_TYPE (sample_message 0).header.flags = MESSAGE_FLAG_SYNC ∧
      ((sample_env 0 0 0 (fun _ => 0) none 0).ops.get_buffer sample_sys.link
        (invoke_buffer_length sample_abi (sample_message 0))).status = 0 ∧
      ∃ c2 d m2,
        (gracht_client_invoke sample_abi (sample_env 0 0 0 (fun _ => 0) none 0) sample_sys
          (some (sample_client 7)) ⟨0, 0⟩ (some (sample_message 0))).client = some c2 ∧
        (gracht_client_invoke sample_abi (sample_env 0 0 0 (fun _ => 0) none 0) sample_sys
          (some (sample_client 7)) ⟨0, 0⟩ (some (sample_message 0))).message = some m2 ∧
        c2.messages = (sample_client 7).messages ++ [d] ∧
        d.header_id = int_cast m2.header.id ∧
        m2.header.id = (sample_client 7).current_message_id ∧
        (gracht_client_invoke sample_abi (sample_env 0 0 0 (fun _ => 0) none 0) sample_sys
          (some (sample_client 7)) ⟨0, 0⟩ (some (sample_message 0))).context.message_id =
          m2.header.id) ∧
    (MESSAGE_FLAG_TYPE (sample_message 1).header.flags ≠ MESSAGE_FLAG_SYNC ∧
      ∃ c2,
        (gracht_client_invoke sample_abi (sample_env 0 0 0 (fun _ => 0) none 0) sample_sys
          (some (sample_client 7)) ⟨0, 0⟩ (some (sample_message 1))).client = some c2 ∧
        c2.messages = (sample_client 7).messages) :=
  ⟨⟨by decide, rfl,
    (C3_invoke_registers_sync_request sample_abi (sample_env 0 0 0 (fun _ => 0) none 0)
      sample_sys (sample_client 7) ⟨0, 0⟩ (sample_message 0)).1 (by decide) rfl⟩,
   ⟨by decide,
    (C3_invoke_registers_sync_request sample_abi (sample_env 0 0 0 (fun _ => 0) none 0)
      sample_sys (sample_client 7) ⟨0, 0⟩ (sample_message 1)).2 (by decide)⟩⟩

/-- C4: an invoke with non-null client and message that reaches the send step returns
the status that send returned; for a Sync-Request the descriptor just registered
then has status Completed exactly when send returned 0, and Error for every
non-zero send status. -/
theorem C4_invoke_returns_send_status {σ : Type} (abi : gracht_abi) (env : gracht_env σ)
    (sys : gracht_system σ) (c : gracht_client) (ctx : gracht_message_context)
    (m : gracht_message) :
    (MESSAGE_FLAG_TYPE m.header.flags = MESSAGE_FLAG_SYNC →
      (env.ops.get_buffer sys.link (invoke_buffer_length abi m)).status = 0 →
      (gracht_client_invoke abi env sys (some c) ctx (some m)).ret =
        (env.ops.send (env.ops.get_buffer sys.link (invoke_buffer_length abi m)).link
          (with_id c m)
          ⟨c.current_message_id,
            (env.ops.get_buffer sys.link (invoke_buffer_length abi m)).buffer⟩).1 ∧
      ∃ c2 d,
        (gracht_client_invoke abi env sys (some c) ctx (some m)).client = some c2 ∧
        c2.messages = c.messages ++ [d] ∧
        (d.status = GRACHT_MESSAGE_COMPLETED ↔
          (gracht_client_invoke abi env sys (some c) ctx (some m)).ret = 0) ∧
        ((gracht_client_invoke abi env sys (some c) ctx (some m)).ret ≠ 0 →
          d.status = GRACHT_MESSAGE_ERROR)) ∧
    (MESSAGE_FLAG_TYPE m.header.flags ≠ MESSAGE_FLAG_SYNC →
      (gracht_client_invoke abi env sys (some c) ctx (some m)).ret =
        (env.ops.send sys.link (with_id c m) ctx).1) := by
  constructor
  · intro hsync hgb
    rw [invoke_sync_ok abi env sys c ctx m hsync hgb]
    refine ⟨rfl, _, _, rfl, rfl, ?_, ?_⟩
    · by_cases h : (env.ops.send (env.ops.get_buffer sys.link (invoke_buffer_length abi m)).link
          (with_id c m)
          ⟨c.current_message_id,
            (env.ops.get_buffer sys.link (invoke_buffer_length abi m)).buffer⟩).1 = 0
      · simp [h]
      · simp [h, GRACHT_MESSAGE_ERROR, GRACHT_MESSAGE_COMPLETED]
    · intro h
      simp [h]
  · intro hkind
    rw [invoke_not_sync abi env sys c ctx m hkind]

/-- C4 on a Sync-Request whose send fails with status 5, and on an Async-Request. -/
theorem C4_invoke_returns_send_status_witness :
    (MESSAGE_FLAG_TYPE (sample_message 0).header.flags = MESSAGE_FLAG_SYNC ∧
      (gracht_client_invoke sample_abi (sample_env 0 5 0 (fun _ => 0) none 0) sample_sys
        (some (sample_client 7)) ⟨0, 0⟩ (some (sample_message 0))).ret = 5) ∧
    (MESSAGE_FLAG_TYPE (sample_message 1).header.flags ≠ MESSAGE_FLAG_SYNC ∧
      (gracht_client_invoke sample_abi (sample_env 0 5 0 (fun _ => 0) none 0) sample_sys
        (some (sample_client 7)) ⟨0, 0⟩ (some (sample_message 1))).ret = 5) :=
  ⟨⟨by decide,
    ((C4_invoke_returns_send_status sample_abi (sample_env 0 5 0 (fun _ => 0) none 0)
      sample_sys (sample_client 7) ⟨0, 0⟩ (sample_message 0)).1 (by decide) rfl).1⟩,
   ⟨by decide,
    (C4_invoke_returns_send_status sample_abi (sample_env 0 5 0 (fun _ => 0) none 0)
      sample_sys (sample_client 7) ⟨0, 0⟩ (sample_message 1)).2 (by decide)⟩⟩

/-- A lookup finds nothing exactly when no node carries the id. -/
theorem gracht_list_lookup_eq_none {α : Type} (key : α → Int) (l : List α) (id : Int) :
    gracht_list_lookup key l id = none ↔ ∀ x ∈ l, key x ≠ id := by
  induction l with
  | nil => simp [gracht_list_lookup]
  | cons x rest ih =>
    by_cases h : key x = id
    · simp [gracht_list_lookup, h]
    · simp [gracht_list_lookup, h, ih]

/-- What a successful lookup returns: a node of the list, at the returned position,
carrying the id, with no node before it carrying the id. -/
theorem gracht_list_lookup_eq_some {α : Type} (key : α → Int) (l : List α) (id : Int) :
    ∀ (n : Nat) (d : α), gracht_list_lookup key l id = some (n, d) →
      l.get? n = some d ∧ key d = id ∧ ∀ j x, j < n → l.get? j = some x → key x ≠ id := by
  induction l with
  | nil => intro n d h; simp [gracht_list_lookup] at h
  | cons x rest ih =>
    intro n d h
    by_cases hx : key x = id
    · simp only [gracht_list_lookup, hx, if_true, Option.some.injEq, Prod.mk.injEq] at h
      obtain ⟨rfl, rfl⟩ := h
      exact ⟨rfl, hx, fun j y hj => absurd hj (Nat.not_lt_zero j)⟩
    · simp only [gracht_list_lookup, hx, if_false, Option.map_eq_some', Prod.mk.injEq,
        Prod.exists] at h
      obtain ⟨n0, d0, hl, rfl, rfl⟩ := h
      obtain ⟨h1, h2, h3⟩ := ih n0 d0 hl
      refine ⟨by simpa using h1, h2, ?_⟩
      intro j y hj hy
      cases j with
      | zero =>
        simp only [List.get?_cons_zero, Option.some.injEq] at hy
        subst hy
        exact hx
      | succ j =>
        simp only [List.get?_cons_succ] at hy
        exact h3 j y (by omega) hy

/-- With pairwise distinct keys, the lookup of a key finds the node that carries it. -/
theorem gracht_list_lookup_of_nodup {α : Type} (key : α → Int) (l : List α) (id : Int) :
    ∀ (n : Nat) (d : α), (l.map key).Nodup → l.get? n = some d → key d = id →
      gracht_list_lookup key l id = some (n, d) := by
  induction l with
  | nil => intro n d _ h; simp at h
  | cons x rest ih =>
    intro n d hnd hget hkey
    rw [List.map_cons, List.nodup_cons] at hnd
    cases n with
    | zero =>
      simp only [List.get?_cons_zero, Option.some.injEq] at hget
      subst hget
      simp [gracht_list_lookup, hkey]
    | succ n =>
      simp only [List.get?_cons_succ] at hget
      have hmem : d ∈ rest := List.get?_mem hget
      have hx : key x ≠ id := by
        intro hxe
        exact hnd.1 (List.mem_map.mpr ⟨d, hmem, by rw [hkey, hxe]⟩)
      simp [gracht_list_lookup, hx, ih n d hnd.2 hget hkey]

/-- With pairwise distinct keys, once the node carrying a key is unlinked no node carries it. -/
theorem gracht_list_remove_key_gone {α : Type} (key : α → Int) (l : List α) (id : Int) :
    ∀ (n : Nat) (d : α), (l.map key).Nodup → l.get? n = some d → key d = id →
      ∀ x ∈ gracht_list_remove l n, key x ≠ id := by
  induction l with
  | nil => intro n d _ h; simp at h
  | cons y rest ih =>
    intro n d hnd hget hkey x hx
    rw [List.map_cons, List.nodup_cons] at hnd
    cases n with
    | zero =>
      simp only [List.get?_cons_zero, Option.some.injEq] at hget
      subst hget
      simp only [gracht_list_remove, List.eraseIdx_cons_zero] at hx
      intro hxe
      exact hnd.1 (List.mem_map.mpr ⟨x, hx, by rw [hkey, hxe]⟩)
    | succ n =>
      simp only [List.get?_cons_succ] at hget
      simp only [gracht_list_remove, List.eraseIdx_cons_succ, List.mem_cons] at hx
      rcases hx with rfl | hx
      · intro hxe
        exact hnd.1 (List.mem_map.mpr ⟨d, List.get?_mem hget, by rw [hkey, hxe]⟩)
      · exact ih n d hnd.2 hget hkey x hx

/-- Status on an id without a table entry, in full. -/
theorem status_absent {σ : Type} (abi : gracht_abi) (env : gracht_env σ)
    (sys : gracht_system σ) (c : gracht_client) (ctx : gracht_message_context)
    (ps : Nat → gracht_param)
    (habsent : ∀ d ∈ c.messages, d.header_id ≠ int_cast ctx.message_id) :
    gracht_client_status abi env sys (some c) (some ctx) (some ps) =
      { ret := -1
        sys :=
          { link := sys.link
            errno := EALREADY
            trace := sys.trace ++ [gracht_event.mtx_lock, gracht_event.mtx_unlock] }
        client := some c
        writes := [] } := by
  have hl := (gracht_list_lookup_eq_none gracht_message_descriptor.header_id c.messages
    (int_cast ctx.message_id)).mpr habsent
  simp only [gracht_client_status, hl]

/-- Status on an id whose first table entry is terminal, in full. -/
theorem status_terminal {σ : Type} (abi : gracht_abi) (env : gracht_env σ)
    (sys : gracht_system σ) (c : gracht_client) (ctx : gracht_message_context)
    (ps : Nat → gracht_param) (node : Nat) (d : gracht_message_descriptor)
    (hl : gracht_list_lookup gracht_message_descriptor.header_id c.messages
      (int_cast ctx.message_id) = some (node, d))
    (hterm : d.status = GRACHT_MESSAGE_COMPLETED ∨ d.status = GRACHT_MESSAGE_ERROR) :
    gracht_client_status abi env sys (some c) (some ctx) (some ps) =
      { ret := 0
        sys :=
          { link := env.ops.free_buffer sys.link ctx.descriptor
            errno := sys.errno
            trace := sys.trace ++ [gracht_event.mtx_lock, gracht_event.mtx_unlock,
              gracht_event.free_buffer ctx.descriptor] }
        client := some { c with messages := gracht_list_remove c.messages node }
        writes := unpack_parameters abi d.message ps (abi.read_header d.message).param_in 0
          (abi.sizeof_message + (abi.read_header d.message).param_in * abi.sizeof_param) } := by
  simp only [gracht_client_status, hl, if_pos hterm]

/-- C5: when the Pending-Call table, with pairwise distinct keys, holds a descriptor
for the context id whose status is Completed or Error, status returns 0 and
removes exactly that entry; an immediately following status on the same context
returns -1 with errno EALREADY and changes neither the client nor the link nor
any caller slot. More generally, status on an id with no table entry returns -1
with errno EALREADY and leaves the table unchanged. -/
theorem C5_status_consumes_once {σ : Type} (abi : gracht_abi) (env : gracht_env σ)
    (sys : gracht_system σ) (c : gracht_client) (ctx : gracht_message_context)
    (ps ps2 : Nat → gracht_param) :
    (∀ (node : Nat) (d : gracht_message_descriptor),
      (c.messages.map gracht_message_descriptor.header_id).Nodup →
      c.messages.get? node = some d →
      d.header_id = int_cast ctx.message_id →
      (d.status = GRACHT_MESSAGE_COMPLETED ∨ d.status = GRACHT_MESSAGE_ERROR) →
      (gracht_client_status abi env sys (some c) (some ctx) (some ps)).ret = 0 ∧
      (gracht_client_status abi env sys (some c) (some ctx) (some ps)).client =
        some { c with messages := c.messages.eraseIdx node } ∧
      (gracht_client_status abi env
        (gracht_client_status abi env sys (some c) (some ctx) (some ps)).sys
        (gracht_client_status abi env sys (some c) (some ctx) (some ps)).client
        (some ctx) (some ps2)).ret = -1 ∧
      (gracht_client_status abi env
        (gracht_client_status abi env sys (some c) (some ctx) (some ps)).sys
        (gracht_client_status abi env sys (some c) (some ctx) (some ps)).client
        (some ctx) (some ps2)).sys.errno = EALREADY ∧
      (gracht_client_status abi env
        (gracht_client_status abi env sys (some c) (some ctx) (some ps)).sys
        (gracht_client_status abi env sys (some c) (some ctx) (some ps)).client
        (some ctx) (some ps2)).client =
        (gracht_client_status abi env sys (some c) (some ctx) (some ps)).client ∧
      (gracht_client_status abi env
        (gracht_client_status abi env sys (some c) (some ctx) (some ps)).sys
        (gracht_client_status abi env sys (some c) (some ctx) (some ps)).client
        (some ctx) (some ps2)).sys.link =
        (gracht_client_status abi env sys (some c) (some ctx) (some ps)).sys.link ∧
      (gracht_client_status abi env
        (gracht_client_status abi env sys (some c) (some ctx) (some ps)).sys
        (gracht_client_status abi env sys (some c) (some ctx) (some ps)).client
        (some ctx) (some ps2)).writes = []) ∧
    ((∀ d ∈ c.messages, d.header_id ≠ int_cast ctx.message_id) →
      (gracht_client_status abi env sys (some c) (some ctx) (some ps)).ret = -1 ∧
      (gracht_client_status abi env sys (some c) (some ctx) (some ps)).sys.errno = EALREADY ∧
      (gracht_client_status abi env sys (some c) (some ctx) (some ps)).client = some c ∧
      (gracht_client_status abi env sys (some c) (some ctx) (some ps)).sys.link = sys.link ∧
      (gracht_client_status abi env sys (some c) (some ctx) (some ps)).writes = []) := by
  constructor
  · intro node d hnd hget hkey hterm
    have hl := gracht_list_lookup_of_nodup gracht_message_descriptor.header_id c.messages
      (int_cast ctx.message_id) node d hnd hget hkey
    have hgone := gracht_list_remove_key_gone gracht_message_descriptor.header_id c.messages
      (int_cast ctx.message_id) node d hnd hget hkey
    rw [status_terminal abi env sys c ctx ps node d hl hterm]
    refine ⟨rfl, rfl, ?_⟩
    rw [status_absent abi env _ { c with messages := gracht_list_remove c.messages node } ctx ps2
      hgone]
    exact ⟨rfl, rfl, rfl, rfl, rfl⟩
  · intro habsent
    rw [status_absent abi env sys c ctx ps habsent]
    exact ⟨rfl, rfl, rfl, rfl, rfl⟩

/-- C5 on a table with a Completed entry for id 7 and an Error entry for id 9: the
first status on id 9 succeeds, and a status on id 8, which has no entry, fails. -/
theorem C5_status_consumes_once_witness :
    (((sample_table_client [(7, 2), (9, -1)]).messages.map
        gracht_message_descriptor.header_id).Nodup ∧
      (gracht_client_status sample_abi (sample_env 0 0 0 (fun _ => 0) none 0) sample_sys
        (some (sample_table_client [(7, 2), (9, -1)])) (some ⟨9, 4096⟩)
        (some sample_no_params)).ret = 0) ∧
    ((∀ d ∈ (sample_table_client [(7, 2), (9, -1)]).messages,
        d.header_id ≠ int_cast (gracht_message_context.mk 8 4096).message_id) ∧
      (gracht_client_status sample_abi (sample_env 0 0 0 (fun _ => 0) none 0) sample_sys
        (some (sample_table_client [(7, 2), (9, -1)])) (some ⟨8, 4096⟩)
        (some sample_no_params)).ret = -1) :=
  ⟨⟨by decide,
    ((C5_status_consumes_once sample_abi (sample_env 0 0 0 (fun _ => 0) none 0) sample_sys
      (sample_table_client [(7, 2), (9, -1)]) ⟨9, 4096⟩ sample_no_params sample_no_params).1
      1 ⟨9, -1, fun _ => 0⟩ (by decide) rfl (by decide) (Or.inr rfl)).1⟩,
   ⟨by simp [sample_table_client, int_cast],
    ((C5_status_consumes_once sample_abi (sample_env 0 0 0 (fun _ => 0) none 0) sample_sys
      (sample_table_client [(7, 2), (9, -1)]) ⟨8, 4096⟩ sample_no_params sample_no_params).2
      (by simp [sample_table_client, int_cast])).1⟩⟩

/-- A received Event, in full: the awaiters are marked, then the dispatcher runs. -/
theorem wait_message_event {σ : Type} (abi : gracht_abi) (env : gracht_env σ)
    (sys : gracht_system σ) (c : gracht_client) (messageBuffer : Nat)
    (hrecv : (env.ops.recv sys.link messageBuffer 0).status = 0)
    (hkind : MESSAGE_FLAG_TYPE
      (abi.read_header (env.ops.recv sys.link messageBuffer 0).message).flags =
        MESSAGE_FLAG_EVENT) :
    gracht_client_wait_message abi env sys (some c) messageBuffer =
      { ret := (env.client_invoke_action (env.ops.recv sys.link messageBuffer 0).link c.protocols
          (env.ops.recv sys.link messageBuffer 0).message).1
        sys :=
          { link := (env.client_invoke_action (env.ops.recv sys.link messageBuffer 0).link
              c.protocols (env.ops.recv sys.link messageBuffer 0).message).2
            errno := sys.errno
            trace := sys.trace ++ [gracht_event.recv messageBuffer] ++
              [gracht_event.mtx_lock, gracht_event.mtx_unlock] ++
              [gracht_event.client_invoke_action] }
        client := some (mark_awaiters c
          (abi.read_header (env.ops.recv sys.link messageBuffer 0).message).id) } := by
  simp only [gracht_client_wait_message, hrecv, hkind, ne_eq, not_true_eq_false, if_false,
    if_true, mark_awaiters]

/-- A received Response whose id has no table entry, in full. -/
theorem wait_message_response_absent {σ : Type} (abi : gracht_abi) (env : gracht_env σ)
    (sys : gracht_system σ) (c : gracht_client) (messageBuffer : Nat)
    (hrecv : (env.ops.recv sys.link messageBuffer 0).status = 0)
    (hkind : MESSAGE_FLAG_TYPE
      (abi.read_header (env.ops.recv sys.link messageBuffer 0).message).flags =
        MESSAGE_FLAG_RESPONSE)
    (habsent : ∀ d ∈ c.messages, d.header_id ≠
      int_cast (abi.read_header (env.ops.recv sys.link messageBuffer 0).message).id) :
    gracht_client_wait_message abi env sys (some c) messageBuffer =
      { ret := -1
        sys :=
          { link := (env.ops.recv sys.link messageBuffer 0).link
            errno := sys.errno
            trace := sys.trace ++ [gracht_event.recv messageBuffer] ++
              [gracht_event.mtx_lock, gracht_event.mtx_unlock] }
        client := some (mark_awaiters c
          (abi.read_header (env.ops.recv sys.link messageBuffer 0).message).id) } := by
  have hl := (gracht_list_lookup_eq_none gracht_message_descriptor.header_id c.messages
    (int_cast (abi.read_header (env.ops.recv sys.link messageBuffer 0).message).id)).mpr habsent
  have hne : ¬ MESSAGE_FLAG_RESPONSE = MESSAGE_FLAG_EVENT := by decide
  simp only [gracht_client_wait_message, hrecv, hkind, hne, ne_eq, not_true_eq_false, if_false,
    if_true, mark_awaiters, hl]

/-- A received Response whose id has a table entry, in full: the message is copied
over the stored message of the first node carrying the id, which becomes Completed. -/
theorem wait_message_response_present {σ : Type} (abi : gracht_abi) (env : gracht_env σ)
    (sys : gracht_system σ) (c : gracht_client) (messageBuffer : Nat) (node : Nat)
    (d : gracht_message_descriptor)
    (hrecv : (env.ops.recv sys.link messageBuffer 0).status = 0)
    (hkind : MESSAGE_FLAG_TYPE
      (abi.read_header (env.ops.recv sys.link messageBuffer 0).message).flags =
        MESSAGE_FLAG_RESPONSE)
    (hl : gracht_list_lookup gracht_message_descriptor.header_id c.messages
      (int_cast (abi.read_header (env.ops.recv sys.link messageBuffer 0).message).id) =
        some (node, d)) :
    gracht_client_wait_message abi env sys (some c) messageBuffer =
      { ret := 0
        sys :=
          { link := (env.ops.recv sys.link messageBuffer 0).link
            errno := sys.errno
            trace := sys.trace ++ [gracht_event.recv messageBuffer] ++
              [gracht_event.mtx_lock, gracht_event.mtx_unlock] }
        client := some
          { iod := c.iod
            current_message_id := c.current_message_id
            protocols := c.protocols
            awaiters := c.awaiters.map (mark_awaiter
              (abi.read_header (env.ops.recv sys.link messageBuffer 0).message).id)
            messages := c.messages.set node
              { header_id := d.header_id
                status := GRACHT_MESSAGE_COMPLETED
                message := memcpy d.message (env.ops.recv sys.link messageBuffer 0).message
                  (abi.read_header (env.ops.recv sys.link messageBuffer 0).message).length } } } := by
  have hne : ¬ MESSAGE_FLAG_RESPONSE = MESSAGE_FLAG_EVENT := by decide
  simp only [gracht_client_wait_message, hrecv, hkind, hne, ne_eq, not_true_eq_false, if_false,
    if_true, mark_awaiters, hl]

/-- The marking loop leaves alone an id array without a slot that is 0 or the message id. -/
theorem mark_ids_untouched (messageId : Nat) (ids : List Nat) :
    ∀ idsLeft : Int, (∀ t ∈ ids, t ≠ 0 ∧ t ≠ messageId) →
      mark_ids messageId ids idsLeft = (ids, idsLeft) := by
  induction ids with
  | nil => intro idsLeft _; rfl
  | cons t rest ih =>
    intro idsLeft h
    have ht := h t (List.mem_cons_self t rest)
    have hrest := ih idsLeft (fun u hu => h u (List.mem_cons_of_mem t hu))
    simp [mark_ids, ht.1, ht.2, hrest]

/-- An awaiter without a slot that is 0 or the message id is neither changed nor signalled. -/
theorem mark_awaiter_untouched (messageId : Nat) (a : gracht_message_awaiter)
    (h : ∀ t ∈ a.ids, t ≠ 0 ∧ t ≠ messageId) : mark_awaiter messageId a = a := by
  simp [mark_awaiter, mark_ids_untouched messageId a.ids _ h]

/-- C7 as amended: for every successfully received Response whose id has no entry in
the Pending-Call table, wait_message drops the message, leaving the Pending-Call
table unchanged, and returns -1 (errno is left as it was). -/
theorem C7_unknown_response_dropped {σ : Type} (abi : gracht_abi) (env : gracht_env σ)
    (sys : gracht_system σ) (c : gracht_client) (messageBuffer : Nat)
    (hrecv : (env.ops.recv sys.link messageBuffer 0).status = 0)
    (hkind : MESSAGE_FLAG_TYPE
      (abi.read_header (env.ops.recv sys.link messageBuffer 0).message).flags =
        MESSAGE_FLAG_RESPONSE)
    (habsent : ∀ d ∈ c.messages, d.header_id ≠
      int_cast (abi.read_header (env.ops.recv sys.link messageBuffer 0).message).id) :
    (gracht_client_wait_message abi env sys (some c) messageBuffer).ret = -1 ∧
    (gracht_client_wait_message abi env sys (some c) messageBuffer).sys.errno = sys.errno ∧
    ∃ c2, (gracht_client_wait_message abi env sys (some c) messageBuffer).client = some c2 ∧
      c2.messages = c.messages := by
  rw [wait_message_response_absent abi env sys c messageBuffer hrecv hkind habsent]
  exact ⟨rfl, rfl, _, rfl, rfl⟩

/-- C7 as amended, on a Response with id 5 received by a client with an empty table. -/
theorem C7_unknown_response_dropped_witness :
    ((sample_env 0 0 0 (sample_inbound 5 3) none 0).ops.recv sample_sys.link 0 0).status = 0 ∧
    (gracht_client_wait_message sample_abi (sample_env 0 0 0 (sample_inbound 5 3) none 0)
      sample_sys (some (sample_client 9)) 0).ret = -1 :=
  ⟨rfl,
   (C7_unknown_response_dropped sample_abi (sample_env 0 0 0 (sample_inbound 5 3) none 0)
      sample_sys (sample_client 9) 0 rfl (by decide) (by simp [sample_client])).1⟩

/-- C7 as stated fails: a Response with id 5 is received successfully by a client whose
Pending-Call table is empty, and wait_message returns -1, not 0. -/
theorem C7_unknown_response_counterexample :
    ((sample_env 0 0 0 (sample_inbound 5 3) none 0).ops.recv sample_sys.link 0 0).status = 0 ∧
    MESSAGE_FLAG_TYPE (sample_abi.read_header
      ((sample_env 0 0 0 (sample_inbound 5 3) none 0).ops.recv sample_sys.link 0 0).message).flags =
        MESSAGE_FLAG_RESPONSE ∧
    (sample_client 9).messages.length = 0 ∧
    ¬ (gracht_client_wait_message sample_abi (sample_env 0 0 0 (sample_inbound 5 3) none 0)
      sample_sys (some (sample_client 9)) 0).ret = 0 := by
  decide

/-- C8: for every successfully received Event, wait_message leaves the Pending-Call
table unchanged and returns exactly what the dispatcher client_invoke_action
returns on the protocol registry of the client and that message. -/
theorem C8_event_leaves_pending_calls {σ : Type} (abi : gracht_abi) (env : gracht_env σ)
    (sys : gracht_system σ) (c : gracht_client) (messageBuffer : Nat)
    (hrecv : (env.ops.recv sys.link messageBuffer 0).status = 0)
    (hkind : MESSAGE_FLAG_TYPE
      (abi.read_header (env.ops.recv sys.link messageBuffer 0).message).flags =
        MESSAGE_FLAG_EVENT) :
    (gracht_client_wait_message abi env sys (some c) messageBuffer).ret =
      (env.client_invoke_action (env.ops.recv sys.link messageBuffer 0).link c.protocols
        (env.ops.recv sys.link messageBuffer 0).message).1 ∧
    ∃ c2, (gracht_client_wait_message abi env sys (some c) messageBuffer).client = some c2 ∧
      c2.messages = c.messages ∧ c2.protocols = c.protocols := by
  rw [wait_message_event abi env sys c messageBuffer hrecv hkind]
  exact ⟨rfl, _, rfl, rfl, rfl⟩

/-- C8 on an Event with id 0 whose dispatcher answers 42, with a pending entry for id 7. -/
theorem C8_event_leaves_pending_calls_witness :
    ((sample_env 0 0 0 (sample_inbound 0 2) none 42).ops.recv sample_sys.link 0 0).status = 0 ∧
    (gracht_client_wait_message sample_abi (sample_env 0 0 0 (sample_inbound 0 2) none 42)
      sample_sys (some (sample_table_client [(7, 0)])) 0).ret = 42 :=
  ⟨rfl,
   (C8_event_leaves_pending_calls sample_abi (sample_env 0 0 0 (sample_inbound 0 2) none 42)
      sample_sys (sample_table_client [(7, 0)]) 0 rfl (by decide)).1⟩

/-- The marking loop in closed form: every slot equal to the message id becomes 0, and
`idsLeft` drops by the number of slots that hold 0 or the message id. -/
theorem mark_ids_eq (messageId : Nat) (ids : List Nat) :
    ∀ idsLeft : Int,
      mark_ids messageId ids idsLeft =
        (ids.map (fun t => if t = messageId then 0 else t),
         idsLeft - (ids.countP (fun t => decide (t = 0 ∨ t = messageId)) : Nat)) := by
  induction ids with
  | nil => intro idsLeft; simp [mark_ids]
  | cons t rest ih =>
    intro idsLeft
    have ih1 := ih (idsLeft - 1)
    have ih2 := ih idsLeft
    by_cases h0 : t = 0
    · subst h0
      have hm : (if 0 = messageId then 0 else 0) = 0 := by split_ifs <;> rfl
      simp only [mark_ids, if_true, ih1, List.map_cons, List.countP_cons, true_or, decide_True,
        Nat.cast_add, Nat.cast_one, hm]
      refine Prod.ext rfl ?_
      simp only []
      omega
    · by_cases hm : t = messageId
      · subst hm
        simp only [mark_ids, h0, if_true, if_false, ih1, List.map_cons, List.countP_cons,
          or_true, decide_True, Nat.cast_add, Nat.cast_one]
        refine Prod.ext rfl ?_
        simp only []
        omega
      · simp [mark_ids, h0, hm, ih2]

/-- What marking does to one awaiter, with the final `idsLeft` in closed form. -/
theorem mark_awaiter_eq (messageId : Nat) (a : gracht_message_awaiter) :
    mark_awaiter messageId a =
      if a.ids.countP (fun t => decide (t = 0 ∨ t = messageId)) ≠ 0 ∧
          (a.ids.countP (fun t => decide (t = 0 ∨ t = messageId)) = a.ids.length ∨
            a.flags = GRACHT_AWAIT_ANY) then
        { a with ids := a.ids.map (fun t => if t = messageId then 0 else t),
                 event := a.event + 1 }
      else { a with ids := a.ids.map (fun t => if t = messageId then 0 else t) } := by
  have hle : a.ids.countP (fun t => decide (t = 0 ∨ t = messageId)) ≤ a.ids.length :=
    List.countP_le_length _
  simp only [mark_awaiter, mark_ids_eq]
  generalize a.ids.countP (fun t => decide (t = 0 ∨ t = messageId)) = n at hle ⊢
  have e1 : ((a.ids.length : Int) - (n : Nat) ≠ (a.ids.length : Int)) ↔ n ≠ 0 := by omega
  have e2 : ((a.ids.length : Int) - (n : Nat) = 0) ↔ n = a.ids.length := by omega
  simp only [e1, e2]
  by_cases h0 : n = 0
  · simp [h0]
  · by_cases h1 : n = a.ids.length ∨ a.flags = GRACHT_AWAIT_ANY
    · simp [h0, h1]
    · simp [h0, h1]

/-- Clearing the slots equal to the message id leaves the slots as they were exactly when
no non-zero slot holds the message id. -/
theorem map_clear_eq_self (messageId : Nat) (ids : List Nat) :
    ids.map (fun t => if t = messageId then 0 else t) = ids ↔
      ∀ t ∈ ids, t = messageId → t = 0 := by
  induction ids with
  | nil => simp
  | cons t rest ih =>
    simp only [List.map_cons, List.cons.injEq, ih, List.mem_cons, forall_eq_or_imp]
    constructor
    · rintro ⟨h1, h2⟩
      refine ⟨?_, h2⟩
      intro ht
      rw [if_pos ht] at h1
      exact h1.symm
    · rintro ⟨h1, h2⟩
      refine ⟨?_, h2⟩
      by_cases ht : t = messageId
      · rw [if_pos ht]; exact (h1 ht).symm
      · rw [if_neg ht]

/-- The signal test of the marking loop, said of the slots: some slot holds 0 or the
message id, and all of them do or the awaiter is in Any mode. -/
theorem mark_signal_iff (messageId : Nat) (a : gracht_message_awaiter) :
    (a.ids.countP (fun t => decide (t = 0 ∨ t = messageId)) ≠ 0 ∧
      (a.ids.countP (fun t => decide (t = 0 ∨ t = messageId)) = a.ids.length ∨
        a.flags = GRACHT_AWAIT_ANY)) ↔
    ((∃ t ∈ a.ids, t = 0 ∨ t = messageId) ∧
      ((∀ t ∈ a.ids, t = 0 ∨ t = messageId) ∨ a.flags = GRACHT_AWAIT_ANY)) := by
  have h1 : a.ids.countP (fun t => decide (t = 0 ∨ t = messageId)) ≠ 0 ↔
      ∃ t ∈ a.ids, t = 0 ∨ t = messageId := by
    rw [← Nat.pos_iff_ne_zero, List.countP_pos_iff]
    simp only [decide_eq_true_eq]
  have h2 : a.ids.countP (fun t => decide (t = 0 ∨ t = messageId)) = a.ids.length ↔
      ∀ t ∈ a.ids, t = 0 ∨ t = messageId := by
    rw [List.countP_eq_length]
    simp only [decide_eq_true_eq]
  rw [h1, h2]

/-- C9 as amended: for every successfully received Event with header id m and every
enqueued awaiter, wait_message leaves the awaiter at its place of the awaiter
list with its address and flags; it clears a target id of the awaiter exactly
when a non-zero target slot holds m; it signals the awaiter exactly when some
target slot holds 0 or m and, in addition, every target slot holds 0 or m or
the awaiter is in Any mode. So the awaiter is exactly as it was if and only if
no non-zero slot holds m and the signal test fails: in particular when no slot
holds 0 or m, and when the awaiter is not in Any mode, no slot holds m and a
non-zero slot is left. -/
theorem C9_event_spares_unrelated_awaiters {σ : Type} (abi : gracht_abi) (env : gracht_env σ)
    (sys : gracht_system σ) (c : gracht_client) (messageBuffer : Nat) (i : Nat)
    (a : gracht_message_awaiter)
    (hrecv : (env.ops.recv sys.link messageBuffer 0).status = 0)
    (hkind : MESSAGE_FLAG_TYPE
      (abi.read_header (env.ops.recv sys.link messageBuffer 0).message).flags =
        MESSAGE_FLAG_EVENT)
    (henq : c.awaiters.get? i = some a) :
    ∃ c2 a2, (gracht_client_wait_message abi env sys (some c) messageBuffer).client = some c2 ∧
      c2.awaiters.length = c.awaiters.length ∧ c2.awaiters.get? i = some a2 ∧
      a2.addr = a.addr ∧ a2.flags = a.flags ∧
      (a2.ids = a.ids ↔
        ∀ t ∈ a.ids,
          t = (abi.read_header (env.ops.recv sys.link messageBuffer 0).message).id → t = 0) ∧
      (a2.event = a.event + 1 ↔
        ((∃ t ∈ a.ids,
            t = 0 ∨ t = (abi.read_header (env.ops.recv sys.link messageBuffer 0).message).id) ∧
          ((∀ t ∈ a.ids,
              t = 0 ∨ t = (abi.read_header (env.ops.recv sys.link messageBuffer 0).message).id) ∨
            a.flags = GRACHT_AWAIT_ANY))) ∧
      (a2.event = a.event ↔
        ¬ ((∃ t ∈ a.ids,
            t = 0 ∨ t = (abi.read_header (env.ops.recv sys.link messageBuffer 0).message).id) ∧
          ((∀ t ∈ a.ids,
              t = 0 ∨ t = (abi.read_header (env.ops.recv sys.link messageBuffer 0).message).id) ∨
            a.flags = GRACHT_AWAIT_ANY))) ∧
      (a2 = a ↔
        (∀ t ∈ a.ids,
          t = (abi.read_header (env.ops.recv sys.link messageBuffer 0).message).id → t = 0) ∧
        ¬ ((∃ t ∈ a.ids,
            t = 0 ∨ t = (abi.read_header (env.ops.recv sys.link messageBuffer 0).message).id) ∧
          ((∀ t ∈ a.ids,
              t = 0 ∨ t = (abi.read_header (env.ops.recv sys.link messageBuffer 0).message).id) ∨
            a.flags = GRACHT_AWAIT_ANY))) ∧
      ((∀ t ∈ a.ids,
          t ≠ 0 ∧ t ≠ (abi.read_header (env.ops.recv sys.link messageBuffer 0).message).id) →
        a2 = a) ∧
      (a.flags ≠ GRACHT_AWAIT_ANY →
        (∀ t ∈ a.ids,
          t ≠ (abi.read_header (env.ops.recv sys.link messageBuffer 0).message).id) →
        (∃ t ∈ a.ids, t ≠ 0) → a2 = a) := by
  rw [wait_message_event abi env sys c messageBuffer hrecv hkind]
  generalize (abi.read_header (env.ops.recv sys.link messageBuffer 0).message).id = m
  have hget : (mark_awaiters c m).awaiters.get? i = some (mark_awaiter m a) := by
    simp only [mark_awaiters, List.get?_eq_getElem?, List.getElem?_map] at henq ⊢
    rw [henq, Option.map_some']
  have hids : (mark_awaiter m a).ids = a.ids.map (fun t => if t = m then 0 else t) := by
    rw [mark_awaiter_eq]; split_ifs <;> rfl
  have haddr : (mark_awaiter m a).addr = a.addr := by
    rw [mark_awaiter_eq]; split_ifs <;> rfl
  have hflags : (mark_awaiter m a).flags = a.flags := by
    rw [mark_awaiter_eq]; split_ifs <;> rfl
  have hidsiff : (mark_awaiter m a).ids = a.ids ↔ ∀ t ∈ a.ids, t = m → t = 0 := by
    rw [hids]; exact map_clear_eq_self m a.ids
  have hsig : (mark_awaiter m a).event = a.event + 1 ↔
      ((∃ t ∈ a.ids, t = 0 ∨ t = m) ∧
        ((∀ t ∈ a.ids, t = 0 ∨ t = m) ∨ a.flags = GRACHT_AWAIT_ANY)) := by
    rw [← mark_signal_iff, mark_awaiter_eq]
    split_ifs with h
    · exact ⟨fun _ => h, fun _ => rfl⟩
    · exact ⟨fun he => absurd he (by simp), fun hp => absurd hp h⟩
  have hnosig : (mark_awaiter m a).event = a.event ↔
      ¬ ((∃ t ∈ a.ids, t = 0 ∨ t = m) ∧
        ((∀ t ∈ a.ids, t = 0 ∨ t = m) ∨ a.flags = GRACHT_AWAIT_ANY)) := by
    rw [← mark_signal_iff, mark_awaiter_eq]
    split_ifs with h
    · exact ⟨fun he => absurd he (by simp), fun hp => absurd h hp⟩
    · exact ⟨fun _ => h, fun _ => rfl⟩
  have hsame : mark_awaiter m a = a ↔
      (∀ t ∈ a.ids, t = m → t = 0) ∧
      ¬ ((∃ t ∈ a.ids, t = 0 ∨ t = m) ∧
        ((∀ t ∈ a.ids, t = 0 ∨ t = m) ∨ a.flags = GRACHT_AWAIT_ANY)) := by
    rw [← hidsiff, ← hnosig]
    constructor
    · intro h; rw [h]; exact ⟨rfl, rfl⟩
    · rintro ⟨h1, h2⟩
      cases a with
      | mk addr flags event ids =>
        cases hm : mark_awaiter m ⟨addr, flags, event, ids⟩ with
        | mk addr2 flags2 event2 ids2 =>
          rw [hm] at h1 h2 haddr hflags
          simp only [] at h1 h2 haddr hflags
          rw [h1, h2, haddr, hflags]
  refine ⟨_, mark_awaiter m a, rfl, by simp [mark_awaiters], hget, haddr, hflags, hidsiff, hsig,
    hnosig, hsame, ?_, ?_⟩
  · intro h
    refine hsame.mpr ⟨fun t ht htm => absurd htm (h t ht).2, ?_⟩
    rintro ⟨⟨t, ht, h0 | hm⟩, _⟩
    · exact (h t ht).1 h0
    · exact (h t ht).2 hm
  · intro hall hnone hleft
    refine hsame.mpr ⟨fun t ht htm => absurd htm (hnone t ht), ?_⟩
    rintro ⟨_, hfull | hany⟩
    · obtain ⟨t, ht, ht0⟩ := hleft
      rcases hfull t ht with h0 | hm
      · exact ht0 h0
      · exact hnone t ht hm
    · exact hall hany

/-- C9 as amended, on an awaiter in All mode that is part-way through, with slots 0 and
7, and an Event whose header id is 9: the awaiter is left exactly as it was. -/
theorem C9_event_spares_unrelated_awaiters_witness :
    ((sample_env 0 0 0 (sample_inbound 9 2) none 0).ops.recv sample_sys.link 0 0).status = 0 ∧
    (sample_awaiting_client [⟨1, GRACHT_AWAIT_ALL, 0, [0, 7]⟩]).awaiters.get? 0 =
      some ⟨1, GRACHT_AWAIT_ALL, 0, [0, 7]⟩ ∧
    ∃ c2, (gracht_client_wait_message sample_abi (sample_env 0 0 0 (sample_inbound 9 2) none 0)
        sample_sys (some (sample_awaiting_client [⟨1, GRACHT_AWAIT_ALL, 0, [0, 7]⟩])) 0).client =
          some c2 ∧
      c2.awaiters.get? 0 = some ⟨1, GRACHT_AWAIT_ALL, 0, [0, 7]⟩ :=
  ⟨rfl, rfl, by
    obtain ⟨c2, a2, hc, _, hget, _, _, _, _, _, _, _, hall⟩ :=
      C9_event_spares_unrelated_awaiters sample_abi
        (sample_env 0 0 0 (sample_inbound 9 2) none 0) sample_sys
        (sample_awaiting_client [⟨1, GRACHT_AWAIT_ALL, 0, [0, 7]⟩]) 0 0
        ⟨1, GRACHT_AWAIT_ALL, 0, [0, 7]⟩ rfl (by decide) rfl
    refine ⟨c2, hc, ?_⟩
    rw [hget, hall (by decide) (by decide) ⟨7, by decide, by decide⟩]⟩

/-- C9 as stated fails: an awaiter of id 5 is enqueued, an Event whose header id is 5
is received successfully, and wait_message clears the target slot and signals
the awaiter. -/
theorem C9_event_visible_counterexample :
    ((sample_env 0 0 0 (sample_inbound 5 2) none 0).ops.recv sample_sys.link 0 0).status = 0 ∧
    MESSAGE_FLAG_TYPE (sample_abi.read_header
      ((sample_env 0 0 0 (sample_inbound 5 2) none 0).ops.recv sample_sys.link 0 0).message).flags =
        MESSAGE_FLAG_EVENT ∧
    (sample_awaiting_client [⟨1, 0, 0, [5]⟩]).awaiters = [⟨1, 0, 0, [5]⟩] ∧
    ((gracht_client_wait_message sample_abi (sample_env 0 0 0 (sample_inbound 5 2) none 0)
        sample_sys (some (sample_awaiting_client [⟨1, 0, 0, [5]⟩])) 0).client.map
      gracht_client.awaiters) = some [⟨1, 0, 1, [0]⟩] := by
  decide

/-- The awaiter condition of a single context whose descriptor is neither Created nor
InProgress holds, whatever the flags. -/
theorem check_awaiter_condition_single_done (c : gracht_client) (a : gracht_message_awaiter)
    (ctx : gracht_message_context) (node : Nat) (d : gracht_message_descriptor)
    (hl : gracht_list_lookup gracht_message_descriptor.header_id c.messages
      (int_cast ctx.message_id) = some (node, d))
    (hdone : ¬ (d.status = GRACHT_MESSAGE_INPROGRESS ∨ d.status = GRACHT_MESSAGE_CREATED)) :
    check_awaiter_condition c a [ctx] = 0 := by
  simp [check_awaiter_condition, count_completed, hl, hdone]

/-- C10 as amended: when the Pending-Call descriptor for the context id has status
Completed, await returns without enqueuing an awaiter and without waiting on
the condition variable, so the Awaiter set (and the whole client) is as before.
When the allocation of the awaiter succeeded the value returned is 0, errno is
as before and the calls made are malloc, mtx_lock, mtx_unlock and free only;
when the allocation failed the value returned is -1, errno is ENOMEM and
malloc is the only call made. -/
theorem C10_await_completed_returns_at_once {σ : Type} (abi : gracht_abi) (env : gracht_env σ)
    (sys : gracht_system σ) (c : gracht_client) (ctx : gracht_message_context) (node : Nat)
    (d : gracht_message_descriptor)
    (hl : gracht_list_lookup gracht_message_descriptor.header_id c.messages
      (int_cast ctx.message_id) = some (node, d))
    (hdone : d.status = GRACHT_MESSAGE_COMPLETED) :
    ∃ ret sys2,
      gracht_client_await abi env sys (some c) (some ctx) =
        await_result.returned ret sys2 (some c) ∧
      (∀ addr, (env.malloc sys.link (abi.sizeof_awaiter + 4)).1 = some addr →
        ret = 0 ∧ sys2.errno = sys.errno ∧
        sys2.trace = sys.trace ++ [gracht_event.malloc (abi.sizeof_awaiter + 4)] ++
          [gracht_event.mtx_lock, gracht_event.mtx_unlock, gracht_event.free addr]) ∧
      ((env.malloc sys.link (abi.sizeof_awaiter + 4)).1 = none →
        ret = -1 ∧ sys2.errno = ENOMEM ∧
        sys2.trace = sys.trace ++ [gracht_event.malloc (abi.sizeof_awaiter + 4)]) := by
  have hnot : ¬ (d.status = GRACHT_MESSAGE_INPROGRESS ∨ d.status = GRACHT_MESSAGE_CREATED) := by
    rw [hdone]; decide
  cases hm : (env.malloc sys.link (abi.sizeof_awaiter + 4)).1 with
  | none =>
    refine ⟨-1,
      { link := (env.malloc sys.link (abi.sizeof_awaiter + 4)).2
        errno := ENOMEM
        trace := sys.trace ++ [gracht_event.malloc (abi.sizeof_awaiter + 4)] }, ?_, ?_, ?_⟩
    · simp only [gracht_client_await, hm]
    · intro addr h
      exact absurd h (by simp)
    · intro _
      exact ⟨rfl, rfl, rfl⟩
  | some addr0 =>
    refine ⟨0,
      { link := (env.malloc sys.link (abi.sizeof_awaiter + 4)).2
        errno := sys.errno
        trace := sys.trace ++ [gracht_event.malloc (abi.sizeof_awaiter + 4)] ++
          [gracht_event.mtx_lock, gracht_event.mtx_unlock, gracht_event.free addr0] }, ?_, ?_, ?_⟩
    · simp only [gracht_client_await, hm, await_enter,
        check_awaiter_condition_single_done c _ ctx node d hl hnot, ne_eq, not_true_eq_false,
        if_false]
    · intro addr h
      simp only [Option.some.injEq] at h
      subst h
      exact ⟨rfl, rfl, rfl⟩
    · intro h
      exact absurd h (by simp)

/-- C10 as amended, on a client whose table holds a Completed entry for id 7, with an
allocator that hands out address 512. -/
theorem C10_await_completed_returns_at_once_witness :
    gracht_list_lookup gracht_message_descriptor.header_id
      (sample_table_client [(7, 2)]).messages
      (int_cast (gracht_message_context.mk 7 4096).message_id) = some (0, ⟨7, 2, fun _ => 0⟩) ∧
    ∃ ret sys2,
      gracht_client_await sample_abi (sample_env 0 0 0 (fun _ => 0) (some 512) 0) sample_sys
        (some (sample_table_client [(7, 2)])) (some ⟨7, 4096⟩) =
        await_result.returned ret sys2 (some (sample_table_client [(7, 2)])) ∧
      (∀ addr, ((sample_env 0 0 0 (fun _ => 0) (some 512) 0).malloc sample_sys.link
          (sample_abi.sizeof_awaiter + 4)).1 = some addr →
        ret = 0 ∧ sys2.errno = sample_sys.errno ∧
        sys2.trace = sample_sys.trace ++ [gracht_event.malloc (sample_abi.sizeof_awaiter + 4)] ++
          [gracht_event.mtx_lock, gracht_event.mtx_unlock, gracht_event.free addr]) ∧
      (((sample_env 0 0 0 (fun _ => 0) (some 512) 0).malloc sample_sys.link
          (sample_abi.sizeof_awaiter + 4)).1 = none →
        ret = -1 ∧ sys2.errno = ENOMEM ∧
        sys2.trace = sample_sys.trace ++
          [gracht_event.malloc (sample_abi.sizeof_awaiter + 4)]) :=
  ⟨rfl,
   C10_await_completed_returns_at_once sample_abi (sample_env 0 0 0 (fun _ => 0) (some 512) 0)
      sample_sys (sample_table_client [(7, 2)]) ⟨7, 4096⟩ 0 ⟨7, 2, fun _ => 0⟩ rfl rfl⟩

/-- C10 as stated fails: the Pending-Call table holds a Completed entry for id 7, the
allocation of the awaiter fails, and await on id 7 returns -1 with errno
ENOMEM, not 0; no awaiter is enqueued and the call does not wait. -/
theorem C10_allocation_failure_counterexample :
    (gracht_list_lookup gracht_message_descriptor.header_id
      (sample_table_client [(7, 2)]).messages (int_cast 7)).map
        (fun r => (r.1, r.2.header_id, r.2.status)) = some (0, 7, GRACHT_MESSAGE_COMPLETED) ∧
    ¬ (∃ sys2 client2,
      gracht_client_await sample_abi (sample_env 0 0 0 (fun _ => 0) none 0) sample_sys
        (some (sample_table_client [(7, 2)])) (some ⟨7, 4096⟩) =
        await_result.returned 0 sys2 client2) ∧
    gracht_client_await sample_abi (sample_env 0 0 0 (fun _ => 0) none 0) sample_sys
        (some (sample_table_client [(7, 2)])) (some ⟨7, 4096⟩) =
      await_result.returned (-1)
        { link := (), errno := ENOMEM,
          trace := [gracht_event.malloc (sample_abi.sizeof_awaiter + 4)] }
        (some (sample_table_client [(7, 2)])) := by
  have h : gracht_client_await sample_abi (sample_env 0 0 0 (fun _ => 0) none 0) sample_sys
        (some (sample_table_client [(7, 2)])) (some ⟨7, 4096⟩) =
      await_result.returned (-1)
        { link := (), errno := ENOMEM,
          trace := [gracht_event.malloc (sample_abi.sizeof_awaiter + 4)] }
        (some (sample_table_client [(7, 2)])) := rfl
  refine ⟨by decide, ?_, h⟩
  rintro ⟨sys2, client2, h2⟩
  rw [h] at h2
  injection h2 with hret
  exact absurd hret (by decide)

/-- The counting loop of check_awaiter_condition computes the count `completed`. -/
theorem count_completed_eq (messages : List gracht_message_descriptor)
    (contexts : List gracht_message_context) :
    count_completed messages contexts = (completed_contexts messages contexts : Int) := by
  induction contexts with
  | nil => rfl
  | cons ctx rest ih =>
    simp only [count_completed, completed_contexts, List.countP_cons] at ih ⊢
    cases hl : gracht_list_lookup gracht_message_descriptor.header_id messages
        (int_cast ctx.message_id) with
    | none => simp [ih]
    | some r =>
      obtain ⟨node, d⟩ := r
      by_cases hs : d.status = GRACHT_MESSAGE_INPROGRESS ∨ d.status = GRACHT_MESSAGE_CREATED
      · have hs2 : d.status = GRACHT_MESSAGE_CREATED ∨ d.status = GRACHT_MESSAGE_INPROGRESS :=
          hs.symm
        simp [ih, hs, hs2]
      · have hs2 : ¬ (d.status = GRACHT_MESSAGE_CREATED ∨ d.status = GRACHT_MESSAGE_INPROGRESS) :=
          fun h => hs h.symm
        simp [ih, hs, hs2]

/-- The count `completed` never exceeds the number of contexts. -/
theorem completed_contexts_le (messages : List gracht_message_descriptor)
    (contexts : List gracht_message_context) :
    completed_contexts messages contexts ≤ contexts.length :=
  List.countP_le_length _

/-- C11 as amended: for every Pending-Call table, every list of N contexts and every
flags value, check_awaiter_condition returns 0 or -1, and it returns 0 if and
only if completed is not 0 and (completed == N or flags is Any); for N of at
least 1 this is the condition completed == N or (completed > 0 and flags is
Any). -/
theorem C11_check_awaiter_condition (c : gracht_client) (a : gracht_message_awaiter)
    (contexts : List gracht_message_context) :
    (check_awaiter_condition c a contexts = 0 ∨ check_awaiter_condition c a contexts = -1) ∧
    (check_awaiter_condition c a contexts = 0 ↔
      completed_contexts c.messages contexts ≠ 0 ∧
        (completed_contexts c.messages contexts = contexts.length ∨
          a.flags = GRACHT_AWAIT_ANY)) ∧
    (1 ≤ contexts.length →
      (check_awaiter_condition c a contexts = 0 ↔
        completed_contexts c.messages contexts = contexts.length ∨
          (0 < completed_contexts c.messages contexts ∧ a.flags = GRACHT_AWAIT_ANY))) := by
  have hmain : check_awaiter_condition c a contexts = 0 ↔
      completed_contexts c.messages contexts ≠ 0 ∧
        (completed_contexts c.messages contexts = contexts.length ∨
          a.flags = GRACHT_AWAIT_ANY) := by
    simp only [check_awaiter_condition, count_completed_eq, ne_eq, Nat.cast_eq_zero,
      Nat.cast_inj]
    by_cases h0 : completed_contexts c.messages contexts = 0
    · simp [h0]
    · by_cases h1 : completed_contexts c.messages contexts = contexts.length ∨
          a.flags = GRACHT_AWAIT_ANY
      · simp [h0, h1]
      · simp [h0, h1]
  refine ⟨?_, hmain, ?_⟩
  · simp only [check_awaiter_condition]
    split_ifs <;> simp
  · intro hN
    rw [hmain]
    constructor
    · rintro ⟨h0, h1 | h1⟩
      · exact Or.inl h1
      · exact Or.inr ⟨Nat.pos_of_ne_zero h0, h1⟩
    · rintro (h1 | ⟨h0, h1⟩)
      · exact ⟨by omega, Or.inl h1⟩
      · exact ⟨by omega, Or.inr h1⟩

/-- C11 as amended, on one context whose id has no table entry, in mode All. -/
theorem C11_check_awaiter_condition_witness :
    1 ≤ [gracht_message_context.mk 7 0].length ∧
    (check_awaiter_condition (sample_client 0) ⟨1, GRACHT_AWAIT_ALL, 0, [7]⟩ [⟨7, 0⟩] = 0 ↔
      completed_contexts (sample_client 0).messages [⟨7, 0⟩] =
          [gracht_message_context.mk 7 0].length ∨
        (0 < completed_contexts (sample_client 0).messages [⟨7, 0⟩] ∧
          (gracht_message_awaiter.mk 1 GRACHT_AWAIT_ALL 0 [7]).flags = GRACHT_AWAIT_ANY)) :=
  ⟨by decide,
   (C11_check_awaiter_condition (sample_client 0) ⟨1, GRACHT_AWAIT_ALL, 0, [7]⟩ [⟨7, 0⟩]).2.2
     (by decide)⟩

/-- C11 as stated fails for N = 0: with no context at all, completed is 0 and equals N,
yet check_awaiter_condition returns -1, in mode Any as in mode All. -/
theorem C11_no_context_counterexample :
    completed_contexts (sample_client 0).messages [] = ([] : List gracht_message_context).length ∧
    check_awaiter_condition (sample_client 0) ⟨1, GRACHT_AWAIT_ALL, 0, []⟩ [] = -1 ∧
    check_awaiter_condition (sample_client 0) ⟨1, GRACHT_AWAIT_ANY, 0, []⟩ [] = -1 ∧
    ¬ (check_awaiter_condition (sample_client 0) ⟨1, GRACHT_AWAIT_ALL, 0, []⟩ [] = 0 ↔
      completed_contexts (sample_client 0).messages [] =
          ([] : List gracht_message_context).length ∨
        (0 < completed_contexts (sample_client 0).messages [] ∧
          (gracht_message_awaiter.mk 1 GRACHT_AWAIT_ALL 0 []).flags = GRACHT_AWAIT_ANY)) := by
  decide

/-- C12: for every enqueued awaiter with flags Any and every received message id that
equals at least one of its target ids, mark_awaiters sets every target slot
equal to that id to 0, leaves the other slots as they were, and signals the
condition variable of the awaiter in that same call, however many other targets
remain uncleared. -/
theorem C12_any_mode_marking (c : gracht_client) (messageId : Nat) (i : Nat)
    (a : gracht_message_awaiter)
    (henq : c.awaiters.get? i = some a)
    (hany : a.flags = GRACHT_AWAIT_ANY)
    (hmatch : messageId ∈ a.ids) :
    (mark_awaiters c messageId).awaiters.get? i =
      some { addr := a.addr, flags := a.flags, event := a.event + 1,
             ids := a.ids.map (fun t => if t = messageId then 0 else t) } ∧
    (mark_awaiters c messageId).messages = c.messages := by
  have hpos : a.ids.countP (fun t => decide (t = 0 ∨ t = messageId)) ≠ 0 := by
    intro h
    rw [List.countP_eq_zero] at h
    exact absurd (h messageId hmatch) (by simp)
  refine ⟨?_, rfl⟩
  simp only [mark_awaiters, List.get?_eq_getElem?, List.getElem?_map] at henq ⊢
  rw [henq, Option.map_some', mark_awaiter_eq, if_pos ⟨hpos, Or.inr hany⟩]

/-- C12 on an Any awaiter of ids 5, 6 and 5 when message 5 is received: both slots
holding 5 are cleared, the slot holding 6 stays, and the awaiter is signalled. -/
theorem C12_any_mode_marking_witness :
    (sample_awaiting_client [⟨1, GRACHT_AWAIT_ANY, 0, [5, 6, 5]⟩]).awaiters.get? 0 =
      some ⟨1, GRACHT_AWAIT_ANY, 0, [5, 6, 5]⟩ ∧
    (mark_awaiters (sample_awaiting_client [⟨1, GRACHT_AWAIT_ANY, 0, [5, 6, 5]⟩]) 5).awaiters.get? 0 =
      some ⟨1, GRACHT_AWAIT_ANY, 1, [0, 6, 0]⟩ :=
  ⟨rfl,
   (C12_any_mode_marking (sample_awaiting_client [⟨1, GRACHT_AWAIT_ANY, 0, [5, 6, 5]⟩]) 5 0
      ⟨1, GRACHT_AWAIT_ANY, 0, [5, 6, 5]⟩ rfl rfl (by decide)).1⟩

/-- A store through a node pointer that keeps the key keeps the keys of the list. -/
theorem map_key_set {α : Type} (key : α → Int) (l : List α) :
    ∀ (n : Nat) (d d2 : α), l.get? n = some d → key d2 = key d →
      (l.set n d2).map key = l.map key := by
  induction l with
  | nil => intro n d d2 h; simp at h
  | cons x rest ih =>
    intro n d d2 h hk
    cases n with
    | zero =>
      simp only [List.get?_cons_zero, Option.some.injEq] at h
      subst h
      simp [hk]
    | succ n =>
      simp only [List.get?_cons_succ] at h
      simp [ih n d d2 h hk]

/-- When a node carries the id, a lookup of the id finds a node. -/
theorem gracht_list_lookup_of_mem {α : Type} (key : α → Int) (l : List α) (id : Int)
    (h : ∃ x ∈ l, key x = id) : ∃ n d, gracht_list_lookup key l id = some (n, d) := by
  cases hl : gracht_list_lookup key l id with
  | none =>
    obtain ⟨x, hx, hk⟩ := h
    exact absurd hk ((gracht_list_lookup_eq_none key l id).mp hl x hx)
  | some r => exact ⟨r.1, r.2, rfl⟩

/-- C14: for every successfully received Response whose id has an entry in the
Pending-Call table, wait_message returns 0; the descriptor found for the id has
afterwards the status Completed and a stored message whose first header.length
bytes are those of the received message (the bytes after them are as before);
every other entry is as it was and the keys of the table are unchanged, so the
entry stays in the table. -/
theorem C14_response_completes_descriptor {σ : Type} (abi : gracht_abi) (env : gracht_env σ)
    (sys : gracht_system σ) (c : gracht_client) (messageBuffer : Nat)
    (hrecv : (env.ops.recv sys.link messageBuffer 0).status = 0)
    (hkind : MESSAGE_FLAG_TYPE
      (abi.read_header (env.ops.recv sys.link messageBuffer 0).message).flags =
        MESSAGE_FLAG_RESPONSE)
    (hentry : ∃ x ∈ c.messages, x.header_id =
      int_cast (abi.read_header (env.ops.recv sys.link messageBuffer 0).message).id) :
    (gracht_client_wait_message abi env sys (some c) messageBuffer).ret = 0 ∧
    ∃ node d d2 c2,
      gracht_list_lookup gracht_message_descriptor.header_id c.messages
        (int_cast (abi.read_header (env.ops.recv sys.link messageBuffer 0).message).id) =
          some (node, d) ∧
      (gracht_client_wait_message abi env sys (some c) messageBuffer).client = some c2 ∧
      c2.messages = c.messages.set node d2 ∧
      d2.header_id = d.header_id ∧
      d2.status = GRACHT_MESSAGE_COMPLETED ∧
      (∀ j, j < (abi.read_header (env.ops.recv sys.link messageBuffer 0).message).length →
        d2.message j = (env.ops.recv sys.link messageBuffer 0).message j) ∧
      (∀ j, (abi.read_header (env.ops.recv sys.link messageBuffer 0).message).length ≤ j →
        d2.message j = d.message j) ∧
      c2.messages.map gracht_message_descriptor.header_id =
        c.messages.map gracht_message_descriptor.header_id := by
  obtain ⟨node, d, hl⟩ := gracht_list_lookup_of_mem gracht_message_descriptor.header_id
    c.messages _ hentry
  have hget := (gracht_list_lookup_eq_some _ _ _ node d hl).1
  rw [wait_message_response_present abi env sys c messageBuffer node d hrecv hkind hl]
  refine ⟨rfl, node, d, _, _, hl, rfl, rfl, rfl, rfl, ?_, ?_, ?_⟩
  · intro j hj
    simp only [memcpy, if_pos hj]
  · intro j hj
    simp only [memcpy, if_neg (Nat.not_lt.mpr hj)]
  · exact map_key_set gracht_message_descriptor.header_id c.messages node d _ hget rfl

/-- C14 on a table holding a Created entry for id 7 when the sample Response to id 7
is received. -/
theorem C14_response_completes_descriptor_witness :
    ((sample_env 0 0 0 sample_response none 0).ops.recv sample_sys.link 0 0).status = 0 ∧
    (gracht_client_wait_message sample_abi (sample_env 0 0 0 sample_response none 0)
      sample_sys (some (sample_table_client [(7, 0)])) 0).ret = 0 :=
  ⟨rfl,
   (C14_response_completes_descriptor sample_abi (sample_env 0 0 0 sample_response none 0)
      sample_sys (sample_table_client [(7, 0)]) 0 rfl (by decide)
      ⟨⟨7, 0, fun _ => 0⟩, by simp [sample_table_client], by decide⟩).1⟩

/-- C15: when recv returns a non-zero status, wait_message returns exactly that status
and does nothing more: the client (awaiters, Pending-Call table, registry) is
unchanged, errno is unchanged, and the only call made is recv, so no awaiter is
marked or signalled and no protocol action is invoked. -/
theorem C15_recv_failure_propagates {σ : Type} (abi : gracht_abi) (env : gracht_env σ)
    (sys : gracht_system σ) (c : gracht_client) (messageBuffer : Nat)
    (hrecv : (env.ops.recv sys.link messageBuffer 0).status ≠ 0) :
    (gracht_client_wait_message abi env sys (some c) messageBuffer).ret =
      (env.ops.recv sys.link messageBuffer 0).status ∧
    (gracht_client_wait_message abi env sys (some c) messageBuffer).client = some c ∧
    (gracht_client_wait_message abi env sys (some c) messageBuffer).sys.errno = sys.errno ∧
    (gracht_client_wait_message abi env sys (some c) messageBuffer).sys.link =
      (env.ops.recv sys.link messageBuffer 0).link ∧
    (gracht_client_wait_message abi env sys (some c) messageBuffer).sys.trace =
      sys.trace ++ [gracht_event.recv messageBuffer] := by
  simp only [gracht_client_wait_message, ne_eq, hrecv, not_false_eq_true, if_true, and_self]

/-- C15 on a recv that fails with status -3 while an awaiter of id 5 is enqueued and
the inbound buffer holds a Response to id 5. -/
theorem C15_recv_failure_propagates_witness :
    ((sample_env 0 0 (-3) (sample_inbound 5 3) none 0).ops.recv sample_sys.link 0 0).status ≠ 0 ∧
    (gracht_client_wait_message sample_abi (sample_env 0 0 (-3) (sample_inbound 5 3) none 0)
      sample_sys (some (sample_awaiting_client [⟨1, 0, 0, [5]⟩])) 0).ret = -3 :=
  ⟨by decide,
   (C15_recv_failure_propagates sample_abi (sample_env 0 0 (-3) (sample_inbound 5 3) none 0)
      sample_sys (sample_awaiting_client [⟨1, 0, 0, [5]⟩]) 0 (by decide)).1⟩

/-- C16: when the descriptor found for the context id has status Created or
InProgress, status returns 0, makes no store into any caller output slot, leaves
the client and so the descriptor in the Pending-Call table as they were, and
does not call free_buffer: the link state is unchanged and the only calls made
are mtx_lock and mtx_unlock. -/
theorem C16_status_not_terminal {σ : Type} (abi : gracht_abi) (env : gracht_env σ)
    (sys : gracht_system σ) (c : gracht_client) (ctx : gracht_message_context)
    (ps : Nat → gracht_param) (node : Nat) (d : gracht_message_descriptor)
    (hl : gracht_list_lookup gracht_message_descriptor.header_id c.messages
      (int_cast ctx.message_id) = some (node, d))
    (hstatus : d.status = GRACHT_MESSAGE_CREATED ∨ d.status = GRACHT_MESSAGE_INPROGRESS) :
    (gracht_client_status abi env sys (some c) (some ctx) (some ps)).ret = 0 ∧
    (gracht_client_status abi env sys (some c) (some ctx) (some ps)).writes = [] ∧
    (gracht_client_status abi env sys (some c) (some ctx) (some ps)).client = some c ∧
    (gracht_client_status abi env sys (some c) (some ctx) (some ps)).sys.link = sys.link ∧
    (gracht_client_status abi env sys (some c) (some ctx) (some ps)).sys.errno = sys.errno ∧
    (gracht_client_status abi env sys (some c) (some ctx) (some ps)).sys.trace =
      sys.trace ++ [gracht_event.mtx_lock, gracht_event.mtx_unlock] := by
  have hnot : ¬ (d.status = GRACHT_MESSAGE_COMPLETED ∨ d.status = GRACHT_MESSAGE_ERROR) := by
    rcases hstatus with h | h <;> rw [h] <;> decide
  simp only [gracht_client_status, hl, if_neg hnot, and_self]

/-- C16 on a table holding a Created entry for id 7. -/
theorem C16_status_not_terminal_witness :
    gracht_list_lookup gracht_message_descriptor.header_id
      (sample_table_client [(7, 0)]).messages
      (int_cast (gracht_message_context.mk 7 4096).message_id) = some (0, ⟨7, 0, fun _ => 0⟩) ∧
    (gracht_client_status sample_abi (sample_env 0 0 0 (fun _ => 0) none 0) sample_sys
      (some (sample_table_client [(7, 0)])) (some ⟨7, 4096⟩) (some sample_no_params)).ret = 0 ∧
    (gracht_client_status sample_abi (sample_env 0 0 0 (fun _ => 0) none 0) sample_sys
      (some (sample_table_client [(7, 0)])) (some ⟨7, 4096⟩) (some sample_no_params)).client =
      some (sample_table_client [(7, 0)]) :=
  ⟨rfl,
   (C16_status_not_terminal sample_abi (sample_env 0 0 0 (fun _ => 0) none 0) sample_sys
      (sample_table_client [(7, 0)]) ⟨7, 4096⟩ sample_no_params 0 ⟨7, 0, fun _ => 0⟩ rfl
      (Or.inl rfl)).1,
   (C16_status_not_terminal sample_abi (sample_env 0 0 0 (fun _ => 0) none 0) sample_sys
      (sample_table_client [(7, 0)]) ⟨7, 4096⟩ sample_no_params 0 ⟨7, 0, fun _ => 0⟩ rfl
      (Or.inl rfl)).2.2.1⟩

/-- C13 fails on the code when a target is already terminal at the time of the enqueue.
The table holds id 1 Completed and ids 2 and 3 Created; await_multiple over
ids 1, 2, 3 in mode All is enqueued and sleeps; the Responses to 2 and to 3 are
then received, both with return value 0, and all three descriptors are
Completed; yet the awaiter has not been signalled and its slot for id 1 is
still set, so no later message can wake it. When instead all three are Created
at the enqueue and the Responses to 1, 2 and 3 are received, the awaiter is
signalled once, by the last of them. -/
theorem C13_all_mode_never_woken :
    (gracht_client_await_multiple sample_abi (queue_env 1 (some 512))
      (queue_sys [sample_inbound 2 3, sample_inbound 3 3])
      (some (sample_table_client [(1, 2), (2, 0), (3, 0)]))
      (some [⟨1, 0⟩, ⟨2, 0⟩, ⟨3, 0⟩]) GRACHT_AWAIT_ALL).blocked = true ∧
    (dispatch_run sample_abi (queue_env 1 (some 512)) 2
      (gracht_client_await_multiple sample_abi (queue_env 1 (some 512))
        (queue_sys [sample_inbound 2 3, sample_inbound 3 3])
        (some (sample_table_client [(1, 2), (2, 0), (3, 0)]))
        (some [⟨1, 0⟩, ⟨2, 0⟩, ⟨3, 0⟩]) GRACHT_AWAIT_ALL).sys
      (gracht_client_await_multiple sample_abi (queue_env 1 (some 512))
        (queue_sys [sample_inbound 2 3, sample_inbound 3 3])
        (some (sample_table_client [(1, 2), (2, 0), (3, 0)]))
        (some [⟨1, 0⟩, ⟨2, 0⟩, ⟨3, 0⟩]) GRACHT_AWAIT_ALL).client).1 = [0, 0] ∧
    table_statuses (dispatch_run sample_abi (queue_env 1 (some 512)) 2
      (gracht_client_await_multiple sample_abi (queue_env 1 (some 512))
        (queue_sys [sample_inbound 2 3, sample_inbound 3 3])
        (some (sample_table_client [(1, 2), (2, 0), (3, 0)]))
        (some [⟨1, 0⟩, ⟨2, 0⟩, ⟨3, 0⟩]) GRACHT_AWAIT_ALL).sys
      (gracht_client_await_multiple sample_abi (queue_env 1 (some 512))
        (queue_sys [sample_inbound 2 3, sample_inbound 3 3])
        (some (sample_table_client [(1, 2), (2, 0), (3, 0)]))
        (some [⟨1, 0⟩, ⟨2, 0⟩, ⟨3, 0⟩]) GRACHT_AWAIT_ALL).client).2.2 =
      [GRACHT_MESSAGE_COMPLETED, GRACHT_MESSAGE_COMPLETED, GRACHT_MESSAGE_COMPLETED] ∧
    enqueued_awaiters (dispatch_run sample_abi (queue_env 1 (some 512)) 2
      (gracht_client_await_multiple sample_abi (queue_env 1 (some 512))
        (queue_sys [sample_inbound 2 3, sample_inbound 3 3])
        (some (sample_table_client [(1, 2), (2, 0), (3, 0)]))
        (some [⟨1, 0⟩, ⟨2, 0⟩, ⟨3, 0⟩]) GRACHT_AWAIT_ALL).sys
      (gracht_client_await_multiple sample_abi (queue_env 1 (some 512))
        (queue_sys [sample_inbound 2 3, sample_inbound 3 3])
        (some (sample_table_client [(1, 2), (2, 0), (3, 0)]))
        (some [⟨1, 0⟩, ⟨2, 0⟩, ⟨3, 0⟩]) GRACHT_AWAIT_ALL).client).2.2 =
      [⟨512, GRACHT_AWAIT_ALL, 0, [1, 0, 0]⟩] ∧
    enqueued_awaiters (dispatch_run sample_abi (queue_env 1 (some 512)) 2
      (gracht_client_await_multiple sample_abi (queue_env 1 (some 512))
        (queue_sys [sample_inbound 1 3, sample_inbound 2 3, sample_inbound 3 3])
        (some (sample_table_client [(1, 0), (2, 0), (3, 0)]))
        (some [⟨1, 0⟩, ⟨2, 0⟩, ⟨3, 0⟩]) GRACHT_AWAIT_ALL).sys
      (gracht_client_await_multiple sample_abi (queue_env 1 (some 512))
        (queue_sys [sample_inbound 1 3, sample_inbound 2 3, sample_inbound 3 3])
        (some (sample_table_client [(1, 0), (2, 0), (3, 0)]))
        (some [⟨1, 0⟩, ⟨2, 0⟩, ⟨3, 0⟩]) GRACHT_AWAIT_ALL).client).2.2 =
      [⟨512, GRACHT_AWAIT_ALL, 0, [0, 0, 3]⟩] ∧
    enqueued_awaiters (dispatch_run sample_abi (queue_env 1 (some 512)) 3
      (gracht_client_await_multiple sample_abi (queue_env 1 (some 512))
        (queue_sys [sample_inbound 1 3, sample_inbound 2 3, sample_inbound 3 3])
        (some (sample_table_client [(1, 0), (2, 0), (3, 0)]))
        (some [⟨1, 0⟩, ⟨2, 0⟩, ⟨3, 0⟩]) GRACHT_AWAIT_ALL).sys
      (gracht_client_await_multiple sample_abi (queue_env 1 (some 512))
        (queue_sys [sample_inbound 1 3, sample_inbound 2 3, sample_inbound 3 3])
        (some (sample_table_client [(1, 0), (2, 0), (3, 0)]))
        (some [⟨1, 0⟩, ⟨2, 0⟩, ⟨3, 0⟩]) GRACHT_AWAIT_ALL).client).2.2 =
      [⟨512, GRACHT_AWAIT_ALL, 1, [0, 0, 0]⟩] := by
  decide

/-- C20 fails on the code for the connection handle 0. Create with a connect that
returns 0 succeeds and yields a client whose handle is 0; shutdown of that
client returns 0 without calling destroy: after the calls of create, the calls
it makes are mtx_destroy and the release of the client only. With a connect
that returns 1, shutdown of the created client calls destroy first. -/
theorem C20_shutdown_skips_destroy_for_handle_zero :
    (gracht_client_create sample_abi (queue_env 0 (some 512)) (queue_sys []) (some (some 1))
      true).ret = 0 ∧
    ((gracht_client_create sample_abi (queue_env 0 (some 512)) (queue_sys []) (some (some 1))
      true).clientOut.map gracht_client.iod) = some 0 ∧
    (gracht_client_shutdown (queue_env 0 (some 512))
      (gracht_client_create sample_abi (queue_env 0 (some 512)) (queue_sys []) (some (some 1))
        true).sys
      (gracht_client_create sample_abi (queue_env 0 (some 512)) (queue_sys []) (some (some 1))
        true).clientOut).1 = 0 ∧
    (gracht_client_shutdown (queue_env 0 (some 512))
      (gracht_client_create sample_abi (queue_env 0 (some 512)) (queue_sys []) (some (some 1))
        true).sys
      (gracht_client_create sample_abi (queue_env 0 (some 512)) (queue_sys []) (some (some 1))
        true).clientOut).2.trace =
      [gracht_event.malloc 64, gracht_event.mtx_init, gracht_event.connect,
        gracht_event.mtx_destroy, gracht_event.free_client] ∧
    (gracht_client_shutdown (queue_env 1 (some 512))
      (gracht_client_create sample_abi (queue_env 1 (some 512)) (queue_sys []) (some (some 1))
        true).sys
      (gracht_client_create sample_abi (queue_env 1 (some 512)) (queue_sys []) (some (some 1))
        true).clientOut).2.trace =
      [gracht_event.malloc 64, gracht_event.mtx_init, gracht_event.connect,
        gracht_event.destroy, gracht_event.mtx_destroy, gracht_event.free_client] := by
  decide

/-- A lookup of the key of a node appended to a list without that key finds that node,
at the tail. -/
theorem gracht_list_lookup_append_fresh {α : Type} (key : α → Int) (l : List α) (d : α)
    (id : Int) (hfresh : ∀ x ∈ l, key x ≠ id) (hkey : key d = id) :
    gracht_list_lookup key (l ++ [d]) id = some (l.length, d) := by
  induction l with
  | nil => simp [gracht_list_lookup, hkey]
  | cons x rest ih =>
    have hx : key x ≠ id := hfresh x (List.mem_cons_self x rest)
    have hrest := ih (fun y hy => hfresh y (List.mem_cons_of_mem x hy))
    simp [gracht_list_lookup, hx, hrest]

/-- Unlinking the tail node gives back the list before the append. -/
theorem gracht_list_remove_appended {α : Type} (l : List α) (d : α) :
    gracht_list_remove (l ++ [d]) l.length = l := by
  induction l with
  | nil => rfl
  | cons x rest ih =>
    simp only [gracht_list_remove] at ih
    simp [gracht_list_remove, ih]

/-- C17 as amended: after a Sync-Request whose send failed (invoke returns the non-zero
status of send), the descriptor is in the Pending-Call table with status Error;
when no older entry carries the id, a subsequent status on that context returns
0 at once, leaves errno as it was and removes the entry; and what it returns,
stores and leaves behind is exactly what it returns, stores and leaves behind
for the same descriptor with status Completed. -/
theorem C17_status_after_failed_send {σ : Type} (abi : gracht_abi) (env : gracht_env σ)
    (sys : gracht_system σ) (c : gracht_client) (ctx : gracht_message_context)
    (m : gracht_message) (ps : Nat → gracht_param)
    (hsync : MESSAGE_FLAG_TYPE m.header.flags = MESSAGE_FLAG_SYNC)
    (hgb : (env.ops.get_buffer sys.link (invoke_buffer_length abi m)).status = 0)
    (hfresh : ∀ x ∈ c.messages, x.header_id ≠ int_cast c.current_message_id) :
    ∀ r1 : invoke_result σ,
      r1 = gracht_client_invoke abi env sys (some c) ctx (some m) →
      r1.ret ≠ 0 →
      ∃ c1 d,
        r1.client = some c1 ∧ c1.messages = c.messages ++ [d] ∧
        d.header_id = int_cast r1.context.message_id ∧
        d.status = GRACHT_MESSAGE_ERROR ∧
        (gracht_client_status abi env r1.sys r1.client (some r1.context) (some ps)).ret = 0 ∧
        (gracht_client_status abi env r1.sys r1.client (some r1.context) (some ps)).sys.errno =
          r1.sys.errno ∧
        (gracht_client_status abi env r1.sys r1.client (some r1.context) (some ps)).client =
          some { c1 with messages := c.messages } ∧
        gracht_client_status abi env r1.sys r1.client (some r1.context) (some ps) =
          gracht_client_status abi env r1.sys
            (some { c1 with
              messages := c.messages ++ [{ d with status := GRACHT_MESSAGE_COMPLETED }] })
            (some r1.context) (some ps) := by
  intro r1 h1 hret
  rw [invoke_sync_ok abi env sys c ctx m hsync hgb] at h1
  subst h1
  simp only [] at hret
  refine ⟨_, _, rfl, rfl, rfl, by simp only [if_neg hret], ?_⟩
  have hl := gracht_list_lookup_append_fresh gracht_message_descriptor.header_id c.messages
    { header_id := int_cast c.current_message_id
      status := GRACHT_MESSAGE_ERROR
      message := (env.ops.get_buffer sys.link (invoke_buffer_length abi m)).memory }
    (int_cast c.current_message_id) hfresh rfl
  have hl2 := gracht_list_lookup_append_fresh gracht_message_descriptor.header_id c.messages
    { header_id := int_cast c.current_message_id
      status := GRACHT_MESSAGE_COMPLETED
      message := (env.ops.get_buffer sys.link (invoke_buffer_length abi m)).memory }
    (int_cast c.current_message_id) hfresh rfl
  simp only [if_neg hret]
  rw [status_terminal abi env _ _ _ ps _ _ hl (Or.inr rfl),
    status_terminal abi env _ _ _ ps _ _ hl2 (Or.inl rfl)]
  simp only [gracht_list_remove_appended, and_self]

/-- C17 as amended, on the sample Sync-Request with a send that fails with status 5. -/
theorem C17_status_after_failed_send_witness :
    MESSAGE_FLAG_TYPE sample_request.header.flags = MESSAGE_FLAG_SYNC ∧
    (gracht_client_invoke sample_abi (sample_env 0 5 0 (fun _ => 0) none 0) sample_sys
      (some (sample_client 7)) ⟨0, 0⟩ (some sample_request)).ret ≠ 0 ∧
    ∃ c1 d,
      (gracht_client_invoke sample_abi (sample_env 0 5 0 (fun _ => 0) none 0) sample_sys
        (some (sample_client 7)) ⟨0, 0⟩ (some sample_request)).client = some c1 ∧
      c1.messages = (sample_client 7).messages ++ [d] ∧
      d.header_id = int_cast
        (gracht_client_invoke sample_abi (sample_env 0 5 0 (fun _ => 0) none 0) sample_sys
          (some (sample_client 7)) ⟨0, 0⟩ (some sample_request)).context.message_id ∧
      d.status = GRACHT_MESSAGE_ERROR :=
  ⟨by decide, by decide,
   (C17_status_after_failed_send sample_abi (sample_env 0 5 0 (fun _ => 0) none 0) sample_sys
      (sample_client 7) ⟨0, 0⟩ sample_request sample_no_params (by decide) rfl
      (by simp [sample_client]) _ rfl (by decide)).imp
     (fun _ h => h.imp (fun _ h2 => ⟨h2.1, h2.2.1, h2.2.2.1, h2.2.2.2.1⟩))⟩

/-- C17 as stated fails: the status that follows a Sync-Request whose send failed with
status 5 finds the descriptor with status Error, and its return value, errno,
stores, calls and remaining table are the same as those of the status that
follows the same Sync-Request when send succeeded: the caller cannot tell the
failure from the result of status. -/
theorem C17_status_hides_failure_counterexample :
    (gracht_client_invoke sample_abi (sample_env 0 5 0 (fun _ => 0) none 0) sample_sys
      (some (sample_client 7)) ⟨0, 0⟩ (some sample_request)).ret = 5 ∧
    table_statuses (gracht_client_invoke sample_abi (sample_env 0 5 0 (fun _ => 0) none 0)
      sample_sys (some (sample_client 7)) ⟨0, 0⟩ (some sample_request)).client =
      [GRACHT_MESSAGE_ERROR] ∧
    table_statuses (gracht_client_invoke sample_abi (sample_env 0 0 0 (fun _ => 0) none 0)
      sample_sys (some (sample_client 7)) ⟨0, 0⟩ (some sample_request)).client =
      [GRACHT_MESSAGE_COMPLETED] ∧
    (gracht_client_status sample_abi (sample_env 0 5 0 (fun _ => 0) none 0)
      (gracht_client_invoke sample_abi (sample_env 0 5 0 (fun _ => 0) none 0) sample_sys
        (some (sample_client 7)) ⟨0, 0⟩ (some sample_request)).sys
      (gracht_client_invoke sample_abi (sample_env 0 5 0 (fun _ => 0) none 0) sample_sys
        (some (sample_client 7)) ⟨0, 0⟩ (some sample_request)).client
      (some (gracht_client_invoke sample_abi (sample_env 0 5 0 (fun _ => 0) none 0) sample_sys
        (some (sample_client 7)) ⟨0, 0⟩ (some sample_request)).context)
      (some (fun i => sample_request.params i))).ret = 0 ∧
    (gracht_client_status sample_abi (sample_env 0 0 0 (fun _ => 0) none 0)
      (gracht_client_invoke sample_abi (sample_env 0 0 0 (fun _ => 0) none 0) sample_sys
        (some (sample_client 7)) ⟨0, 0⟩ (some sample_request)).sys
      (gracht_client_invoke sample_abi (sample_env 0 0 0 (fun _ => 0) none 0) sample_sys
        (some (sample_client 7)) ⟨0, 0⟩ (some sample_request)).client
      (some (gracht_client_invoke sample_abi (sample_env 0 0 0 (fun _ => 0) none 0) sample_sys
        (some (sample_client 7)) ⟨0, 0⟩ (some sample_request)).context)
      (some (fun i => sample_request.params i))).ret = 0 ∧
    (gracht_client_status sample_abi (sample_env 0 5 0 (fun _ => 0) none 0)
      (gracht_client_invoke sample_abi (sample_env 0 5 0 (fun _ => 0) none 0) sample_sys
        (some (sample_client 7)) ⟨0, 0⟩ (some sample_request)).sys
      (gracht_client_invoke sample_abi (sample_env 0 5 0 (fun _ => 0) none 0) sample_sys
        (some (sample_client 7)) ⟨0, 0⟩ (some sample_request)).client
      (some (gracht_client_invoke sample_abi (sample_env 0 5 0 (fun _ => 0) none 0) sample_sys
        (some (sample_client 7)) ⟨0, 0⟩ (some sample_request)).context)
      (some (fun i => sample_request.params i))).writes =
    (gracht_client_status sample_abi (sample_env 0 0 0 (fun _ => 0) none 0)
      (gracht_client_invoke sample_abi (sample_env 0 0 0 (fun _ => 0) none 0) sample_sys
        (some (sample_client 7)) ⟨0, 0⟩ (some sample_request)).sys
      (gracht_client_invoke sample_abi (sample_env 0 0 0 (fun _ => 0) none 0) sample_sys
        (some (sample_client 7)) ⟨0, 0⟩ (some sample_request)).client
      (some (gracht_client_invoke sample_abi (sample_env 0 0 0 (fun _ => 0) none 0) sample_sys
        (some (sample_client 7)) ⟨0, 0⟩ (some sample_request)).context)
      (some (fun i => sample_request.params i))).writes ∧
    (gracht_client_status sample_abi (sample_env 0 5 0 (fun _ => 0) none 0)
      (gracht_client_invoke sample_abi (sample_env 0 5 0 (fun _ => 0) none 0) sample_sys
        (some (sample_client 7)) ⟨0, 0⟩ (some sample_request)).sys
      (gracht_client_invoke sample_abi (sample_env 0 5 0 (fun _ => 0) none 0) sample_sys
        (some (sample_client 7)) ⟨0, 0⟩ (some sample_request)).client
      (some (gracht_client_invoke sample_abi (sample_env 0 5 0 (fun _ => 0) none 0) sample_sys
        (some (sample_client 7)) ⟨0, 0⟩ (some sample_request)).context)
      (some (fun i => sample_request.params i))).sys.errno =
    (gracht_client_status sample_abi (sample_env 0 0 0 (fun _ => 0) none 0)
      (gracht_client_invoke sample_abi (sample_env 0 0 0 (fun _ => 0) none 0) sample_sys
        (some (sample_client 7)) ⟨0, 0⟩ (some sample_request)).sys
      (gracht_client_invoke sample_abi (sample_env 0 0 0 (fun _ => 0) none 0) sample_sys
        (some (sample_client 7)) ⟨0, 0⟩ (some sample_request)).client
      (some (gracht_client_invoke sample_abi (sample_env 0 0 0 (fun _ => 0) none 0) sample_sys
        (some (sample_client 7)) ⟨0, 0⟩ (some sample_request)).context)
      (some (fun i => sample_request.params i))).sys.errno ∧
    (gracht_client_status sample_abi (sample_env 0 5 0 (fun _ => 0) none 0)
      (gracht_client_invoke sample_abi (sample_env 0 5 0 (fun _ => 0) none 0) sample_sys
        (some (sample_client 7)) ⟨0, 0⟩ (some sample_request)).sys
      (gracht_client_invoke sample_abi (sample_env 0 5 0 (fun _ => 0) none 0) sample_sys
        (some (sample_client 7)) ⟨0, 0⟩ (some sample_request)).client
      (some (gracht_client_invoke sample_abi (sample_env 0 5 0 (fun _ => 0) none 0) sample_sys
        (some (sample_client 7)) ⟨0, 0⟩ (some sample_request)).context)
      (some (fun i => sample_request.params i))).sys.trace =
    (gracht_client_status sample_abi (sample_env 0 0 0 (fun _ => 0) none 0)
      (gracht_client_invoke sample_abi (sample_env 0 0 0 (fun _ => 0) none 0) sample_sys
        (some (sample_client 7)) ⟨0, 0⟩ (some sample_request)).sys
      (gracht_client_invoke sample_abi (sample_env 0 0 0 (fun _ => 0) none 0) sample_sys
        (some (sample_client 7)) ⟨0, 0⟩ (some sample_request)).client
      (some (gracht_client_invoke sample_abi (sample_env 0 0 0 (fun _ => 0) none 0) sample_sys
        (some (sample_client 7)) ⟨0, 0⟩ (some sample_request)).context)
      (some (fun i => sample_request.params i))).sys.trace := by
  decide

/-- Invoke of a Sync-Request whose buffer request fails, in full. -/
theorem invoke_sync_no_buffer {σ : Type} (abi : gracht_abi) (env : gracht_env σ)
    (sys : gracht_system σ) (c : gracht_client) (ctx : gracht_message_context)
    (m : gracht_message)
    (hsync : MESSAGE_FLAG_TYPE m.header.flags = MESSAGE_FLAG_SYNC)
    (hgb : (env.ops.get_buffer sys.link (invoke_buffer_length abi m)).status ≠ 0) :
    gracht_client_invoke abi env sys (some c) ctx (some m) =
      { ret := -1
        sys :=
          { link := (env.ops.get_buffer sys.link (invoke_buffer_length abi m)).link
            errno := sys.errno
            trace := sys.trace ++ [gracht_event.get_buffer (invoke_buffer_length abi m)] }
        client := some
          { iod := c.iod
            current_message_id := (c.current_message_id + 1) % 2 ^ 32
            protocols := c.protocols
            awaiters := c.awaiters
            messages := c.messages }
        context :=
          ⟨c.current_message_id, (env.ops.get_buffer sys.link (invoke_buffer_length abi m)).buffer⟩
        message := some (with_id c m) } := by
  have hsync2 : MESSAGE_FLAG_TYPE (with_id c m).header.flags = MESSAGE_FLAG_SYNC := hsync
  have hgb2 : (env.ops.get_buffer sys.link (invoke_buffer_length abi (with_id c m))).status ≠ 0 :=
    hgb
  unfold gracht_client_invoke
  simp only [get_message_id]
  change (if MESSAGE_FLAG_TYPE (with_id c m).header.flags = MESSAGE_FLAG_SYNC then _ else _) = _
  rw [if_pos hsync2]
  change (if (env.ops.get_buffer sys.link (invoke_buffer_length abi (with_id c m))).status ≠ 0
    then _ else _) = _
  rw [if_pos hgb2]
  rfl

/-- C18 as amended: a Sync-Request invoke whose get_buffer fails returns -1, does not
call send (the only call made is get_buffer), leaves errno as it was and leaves
the Pending-Call table, the Awaiter set, the Protocol registry and the
connection handle exactly as they were, while the id counter has advanced by
one modulo 2^32; an await whose awaiter allocation fails returns -1 with errno
ENOMEM and leaves the whole client unchanged. -/
theorem C18_resource_exhaustion {σ : Type} (abi : gracht_abi) (env : gracht_env σ)
    (sys : gracht_system σ) (c : gracht_client) (ctx : gracht_message_context)
    (m : gracht_message) :
    (MESSAGE_FLAG_TYPE m.header.flags = MESSAGE_FLAG_SYNC →
      (env.ops.get_buffer sys.link (invoke_buffer_length abi m)).status ≠ 0 →
      (gracht_client_invoke abi env sys (some c) ctx (some m)).ret = -1 ∧
      (gracht_client_invoke abi env sys (some c) ctx (some m)).sys.trace =
        sys.trace ++ [gracht_event.get_buffer (invoke_buffer_length abi m)] ∧
      (gracht_client_invoke abi env sys (some c) ctx (some m)).sys.link =
        (env.ops.get_buffer sys.link (invoke_buffer_length abi m)).link ∧
      (gracht_client_invoke abi env sys (some c) ctx (some m)).sys.errno = sys.errno ∧
      (gracht_client_invoke abi env sys (some c) ctx (some m)).client =
        some { c with current_message_id := (c.current_message_id + 1) % 2 ^ 32 }) ∧
    ((env.malloc sys.link (abi.sizeof_awaiter + 4)).1 = none →
      gracht_client_await abi env sys (some c) (some ctx) =
        await_result.returned (-1)
          { link := (env.malloc sys.link (abi.sizeof_awaiter + 4)).2
            errno := ENOMEM
            trace := sys.trace ++ [gracht_event.malloc (abi.sizeof_awaiter + 4)] }
          (some c)) := by
  constructor
  · intro hsync hgb
    rw [invoke_sync_no_buffer abi env sys c ctx m hsync hgb]
    exact ⟨rfl, rfl, rfl, rfl, rfl⟩
  · intro hm
    simp only [gracht_client_await, hm]

/-- C18 as amended, on the sample Sync-Request with a get_buffer that fails, and on an
await with an allocator that fails. -/
theorem C18_resource_exhaustion_witness :
    (MESSAGE_FLAG_TYPE sample_request.header.flags = MESSAGE_FLAG_SYNC ∧
      ((sample_env (-1) 0 0 (fun _ => 0) none 0).ops.get_buffer sample_sys.link
        (invoke_buffer_length sample_abi sample_request)).status ≠ 0 ∧
      (gracht_client_invoke sample_abi (sample_env (-1) 0 0 (fun _ => 0) none 0) sample_sys
        (some (sample_client 7)) ⟨0, 0⟩ (some sample_request)).ret = -1) ∧
    (((sample_env (-1) 0 0 (fun _ => 0) none 0).malloc sample_sys.link
        (sample_abi.sizeof_awaiter + 4)).1 = none ∧
      gracht_client_await sample_abi (sample_env (-1) 0 0 (fun _ => 0) none 0) sample_sys
        (some (sample_client 7)) (some ⟨3, 0⟩) =
        await_result.returned (-1)
          { link := ((sample_env (-1) 0 0 (fun _ => 0) none 0).malloc sample_sys.link
              (sample_abi.sizeof_awaiter + 4)).2
            errno := ENOMEM
            trace := sample_sys.trace ++ [gracht_event.malloc (sample_abi.sizeof_awaiter + 4)] }
          (some (sample_client 7))) :=
  ⟨⟨by decide, by decide,
    ((C18_resource_exhaustion sample_abi (sample_env (-1) 0 0 (fun _ => 0) none 0) sample_sys
      (sample_client 7) ⟨0, 0⟩ sample_request).1 (by decide) (by decide)).1⟩,
   ⟨rfl,
    (C18_resource_exhaustion sample_abi (sample_env (-1) 0 0 (fun _ => 0) none 0) sample_sys
      (sample_client 7) ⟨3, 0⟩ sample_request).2 rfl⟩⟩

/-- C18 as stated fails: a Sync-Request invoke whose get_buffer fails on a client whose
id counter holds 7 returns -1 and leaves the counter at 8. -/
theorem C18_counter_advanced_counterexample :
    MESSAGE_FLAG_TYPE sample_request.header.flags = MESSAGE_FLAG_SYNC ∧
    ((sample_env (-1) 0 0 (fun _ => 0) none 0).ops.get_buffer sample_sys.link
      (invoke_buffer_length sample_abi sample_request)).status ≠ 0 ∧
    (sample_client 7).current_message_id = 7 ∧
    (gracht_client_invoke sample_abi (sample_env (-1) 0 0 (fun _ => 0) none 0) sample_sys
      (some (sample_client 7)) ⟨0, 0⟩ (some sample_request)).ret = -1 ∧
    ((gracht_client_invoke sample_abi (sample_env (-1) 0 0 (fun _ => 0) none 0) sample_sys
      (some (sample_client 7)) ⟨0, 0⟩ (some sample_request)).client.map
        gracht_client.current_message_id) = some 8 := by
  decide

/-- C19 as amended: create returns -1 with errno EINVAL, without any call, when the
config, its link or the output pointer is null. Otherwise it allocates the
client: when the allocation fails it returns -1 with errno ENOMEM without
calling connect and without writing the output pointer; when connect returns a
negative value it returns -1, tears the client down (mtx_destroy and release,
no destroy) and does not write the output pointer; otherwise it returns 0 and
yields a client whose id counter is 0, whose Pending-Call table, Awaiter set
and Protocol registry are empty, and whose connection handle is the value
connect returned. -/
theorem C19_create {σ : Type} (abi : gracht_abi) (env : gracht_env σ) (sys : gracht_system σ)
    (config : Option (Option Nat)) (clientOut : Bool) :
    ((config = none ∨ config = some none ∨ clientOut = false) →
      gracht_client_create abi env sys config clientOut =
        { ret := -1, sys := { sys with errno := EINVAL }, clientOut := none }) ∧
    (∀ link, config = some (some link) → clientOut = true →
      ((env.malloc sys.link abi.sizeof_client).1 = none →
        gracht_client_create abi env sys config clientOut =
          { ret := -1
            sys :=
              { link := (env.malloc sys.link abi.sizeof_client).2
                errno := ENOMEM
                trace := sys.trace ++ [gracht_event.malloc abi.sizeof_client] }
            clientOut := none }) ∧
      (∀ p, (env.malloc sys.link abi.sizeof_client).1 = some p →
        ((env.ops.connect (env.malloc sys.link abi.sizeof_client).2).1 < 0 →
          gracht_client_create abi env sys config clientOut =
            { ret := -1
              sys :=
                { link := (env.ops.connect (env.malloc sys.link abi.sizeof_client).2).2
                  errno := sys.errno
                  trace := sys.trace ++ [gracht_event.malloc abi.sizeof_client] ++
                    [gracht_event.mtx_init, gracht_event.connect] ++
                    [gracht_event.mtx_destroy, gracht_event.free_client] }
              clientOut := none }) ∧
        (0 ≤ (env.ops.connect (env.malloc sys.link abi.sizeof_client).2).1 →
          gracht_client_create abi env sys config clientOut =
            { ret := 0
              sys :=
                { link := (env.ops.connect (env.malloc sys.link abi.sizeof_client).2).2
                  errno := sys.errno
                  trace := sys.trace ++ [gracht_event.malloc abi.sizeof_client] ++
                    [gracht_event.mtx_init, gracht_event.connect] }
              clientOut := some
                { iod := (env.ops.connect (env.malloc sys.link abi.sizeof_client).2).1
                  current_message_id := 0
                  protocols := []
                  awaiters := []
                  messages := [] } }))) := by
  constructor
  · rintro (h | h | h)
    · subst h; rfl
    · subst h; cases clientOut <;> rfl
    · subst h
      cases config with
      | none => rfl
      | some l => cases l <;> rfl
  · intro link hc ho
    subst hc
    subst ho
    refine ⟨?_, ?_⟩
    · intro hm
      simp only [gracht_client_create, hm]
    · intro p hm
      refine ⟨?_, ?_⟩
      · intro hneg
        have hnot : ¬ (env.ops.connect (env.malloc sys.link abi.sizeof_client).2).1 > 0 := by
          omega
        simp only [gracht_client_create, hm, hneg, if_true, gracht_client_shutdown, hnot,
          if_false]
      · intro hpos
        have hnot : ¬ (env.ops.connect (env.malloc sys.link abi.sizeof_client).2).1 < 0 := by
          omega
        simp only [gracht_client_create, hm, hnot, if_false]

/-- C19 as amended, on a connect that returns 3 with an allocator that hands out
address 512. -/
theorem C19_create_witness :
    ((queue_env 3 (some 512)).malloc (queue_sys []).link sample_abi.sizeof_client).1 = some 512 ∧
    0 ≤ ((queue_env 3 (some 512)).ops.connect
      ((queue_env 3 (some 512)).malloc (queue_sys []).link sample_abi.sizeof_client).2).1 ∧
    (gracht_client_create sample_abi (queue_env 3 (some 512)) (queue_sys []) (some (some 1))
      true).ret = 0 :=
  ⟨rfl, by decide,
   congrArg create_result.ret
     ((((C19_create sample_abi (queue_env 3 (some 512)) (queue_sys []) (some (some 1)) true).2
       1 rfl rfl).2 512 rfl).2 (by decide))⟩

/-- C19 as stated fails: with a non-null config, link and output pointer and a connect
that would return 3, create returns -1 with errno ENOMEM when the allocation of
the client fails; it neither returns 0 nor yields a client, and connect is not
called. -/
theorem C19_allocation_failure_counterexample :
    (gracht_client_create sample_abi (queue_env 3 none) (queue_sys []) (some (some 1))
      true).ret = -1 ∧
    (gracht_client_create sample_abi (queue_env 3 none) (queue_sys []) (some (some 1))
      true).sys.errno = ENOMEM ∧
    (gracht_client_create sample_abi (queue_env 3 none) (queue_sys []) (some (some 1))
      true).sys.trace = [gracht_event.malloc 64] ∧
    ((gracht_client_create sample_abi (queue_env 3 none) (queue_sys []) (some (some 1))
      true).clientOut.map gracht_client.iod) = none ∧
    ¬ ((queue_env 3 none).ops.connect (queue_sys []).link).1 < 0 := by
  decide

/-- C26: for every enqueued awaiter whose flags are not Any and that has at least one
target id, mark_awaiters sets every target slot equal to the message id to 0
and leaves the other slots; it signals the awaiter (once) if and only if all of
its target slots are 0 afterwards, and when some target slot remains non-zero
the awaiter is not signalled. -/
theorem C26_all_mode_marking (c : gracht_client) (messageId : Nat) (i : Nat)
    (a : gracht_message_awaiter)
    (henq : c.awaiters.get? i = some a)
    (hall : a.flags ≠ GRACHT_AWAIT_ANY)
    (htargets : a.ids ≠ []) :
    ∃ a2, (mark_awaiters c messageId).awaiters.get? i = some a2 ∧
      a2.addr = a.addr ∧ a2.flags = a.flags ∧
      a2.ids = a.ids.map (fun t => if t = messageId then 0 else t) ∧
      (a2.event = a.event + 1 ↔ ∀ t ∈ a2.ids, t = 0) ∧
      ((∃ t ∈ a2.ids, t ≠ 0) → a2.event = a.event) := by
  have hall0 : (∀ t ∈ a.ids.map (fun t => if t = messageId then 0 else t), t = 0) ↔
      a.ids.countP (fun t => decide (t = 0 ∨ t = messageId)) = a.ids.length := by
    rw [List.countP_eq_length]
    simp only [List.mem_map, forall_exists_index, and_imp, forall_apply_eq_imp_iff₂,
      decide_eq_true_eq]
    constructor
    · intro h t ht
      have := h t ht
      by_cases hm : t = messageId
      · exact Or.inr hm
      · rw [if_neg hm] at this
        exact Or.inl this
    · intro h t ht
      rcases h t ht with h0 | hm
      · subst h0
        split_ifs <;> rfl
      · rw [if_pos hm]
  have hlen : a.ids.length ≠ 0 := by
    intro h
    exact htargets (List.length_eq_zero.mp h)
  have hget : (mark_awaiters c messageId).awaiters.get? i = some (mark_awaiter messageId a) := by
    simp only [mark_awaiters, List.get?_eq_getElem?, List.getElem?_map] at henq ⊢
    rw [henq, Option.map_some']
  refine ⟨mark_awaiter messageId a, hget, ?_⟩
  rw [mark_awaiter_eq]
  by_cases hcount : a.ids.countP (fun t => decide (t = 0 ∨ t = messageId)) = a.ids.length
  · have hpos : a.ids.countP (fun t => decide (t = 0 ∨ t = messageId)) ≠ 0 := by
      rw [hcount]; exact hlen
    rw [if_pos ⟨hpos, Or.inl hcount⟩]
    refine ⟨rfl, rfl, rfl, ?_, ?_⟩
    · exact ⟨fun _ => hall0.mpr hcount, fun _ => rfl⟩
    · rintro ⟨t, ht, hne⟩
      exact absurd (hall0.mpr hcount t ht) hne
  · have hno : ¬ (a.ids.countP (fun t => decide (t = 0 ∨ t = messageId)) ≠ 0 ∧
        (a.ids.countP (fun t => decide (t = 0 ∨ t = messageId)) = a.ids.length ∨
          a.flags = GRACHT_AWAIT_ANY)) := by
      rintro ⟨_, h | h⟩
      · exact hcount h
      · exact hall h
    rw [if_neg hno]
    refine ⟨rfl, rfl, rfl, ?_, fun _ => rfl⟩
    constructor
    · intro h
      simp only [] at h
      omega
    · intro h
      exact absurd (hall0.mp h) hcount

/-- C26 on an All awaiter of ids 5 and 6: message 5 clears one slot without a signal,
and on the awaiter so left message 6 clears the last slot and signals. -/
theorem C26_all_mode_marking_witness :
    (∃ a2, (mark_awaiters (sample_awaiting_client [⟨1, GRACHT_AWAIT_ALL, 0, [5, 6]⟩]) 5).awaiters.get?
        0 = some a2 ∧ a2.ids = [0, 6] ∧ a2.event = 0) ∧
    (∃ a2, (mark_awaiters (sample_awaiting_client [⟨1, GRACHT_AWAIT_ALL, 0, [0, 6]⟩]) 6).awaiters.get?
        0 = some a2 ∧ a2.ids = [0, 0] ∧ a2.event = 1) :=
  ⟨(C26_all_mode_marking (sample_awaiting_client [⟨1, GRACHT_AWAIT_ALL, 0, [5, 6]⟩]) 5 0
      ⟨1, GRACHT_AWAIT_ALL, 0, [5, 6]⟩ rfl (by decide) (by decide)).imp
      (fun _ h => ⟨h.1, h.2.2.2.1, h.2.2.2.2.2 ⟨6, by rw [h.2.2.2.1]; decide, by decide⟩⟩),
   (C26_all_mode_marking (sample_awaiting_client [⟨1, GRACHT_AWAIT_ALL, 0, [0, 6]⟩]) 6 0
      ⟨1, GRACHT_AWAIT_ALL, 0, [0, 6]⟩ rfl (by decide) (by decide)).imp
      (fun _ h => ⟨h.1, h.2.2.2.1, h.2.2.2.2.1.mpr (by rw [h.2.2.2.1]; decide)⟩)⟩

/-- The client that a successful create yields has its id counter at 0. -/
theorem create_counter_zero {σ : Type} (abi : gracht_abi) (env : gracht_env σ)
    (sys : gracht_system σ) (config : Option (Option Nat)) (clientOut : Bool)
    (c : gracht_client)
    (h : (gracht_client_create abi env sys config clientOut).clientOut = some c) :
    c.current_message_id = 0 ∧ c.messages = [] ∧ c.awaiters = [] ∧ c.protocols = [] := by
  cases config with
  | none => simp [gracht_client_create] at h
  | some l =>
    cases l with
    | none => simp [gracht_client_create] at h
    | some link =>
      cases clientOut with
      | false => simp [gracht_client_create] at h
      | true =>
        simp only [gracht_client_create] at h
        cases hm : (env.malloc sys.link abi.sizeof_client).1 with
        | none =>
          rw [hm] at h
          simp at h
        | some p =>
          rw [hm] at h
          by_cases hneg : (env.ops.connect (env.malloc sys.link abi.sizeof_client).2).1 < 0
          · simp [hneg] at h
          · simp only [hneg, if_false, Option.some.injEq] at h
            subst h
            exact ⟨rfl, rfl, rfl, rfl⟩

/-- C30: the first message id issued by a freshly created client is 0, the value that
mark_awaiters takes for a cleared slot: for every enqueued awaiter whose only
target id is 0, and for every Any awaiter with a 0 among its targets, and for
every received message id, also one that matches none of its targets,
mark_awaiters signals the awaiter. -/
theorem C30_id_zero_is_cleared_marker {σ : Type} (abi : gracht_abi) (env : gracht_env σ)
    (sys sys2 : gracht_system σ) (config : Option (Option Nat)) (clientOut : Bool)
    (ctx : gracht_message_context) (m : gracht_message) (c2 : gracht_client)
    (messageId : Nat) (i : Nat) (a : gracht_message_awaiter) :
    (∀ c, (gracht_client_create abi env sys config clientOut).clientOut = some c →
      ∃ m2, (gracht_client_invoke abi env sys2 (some c) ctx (some m)).message = some m2 ∧
        m2.header.id = 0) ∧
    (c2.awaiters.get? i = some a →
      (a.ids = [0] ∨ (a.flags = GRACHT_AWAIT_ANY ∧ 0 ∈ a.ids)) →
      (mark_awaiters c2 messageId).awaiters.get? i =
        some { addr := a.addr, flags := a.flags, event := a.event + 1,
               ids := a.ids.map (fun t => if t = messageId then 0 else t) }) := by
  constructor
  · intro c hc
    obtain ⟨_, m2, _, hm2, _, hid⟩ := invoke_assigns_id abi env sys2 c ctx m
    exact ⟨m2, hm2, by rw [hid, (create_counter_zero abi env sys config clientOut c hc).1]⟩
  · intro henq hzero
    have hget : (mark_awaiters c2 messageId).awaiters.get? i =
        some (mark_awaiter messageId a) := by
      simp only [mark_awaiters, List.get?_eq_getElem?, List.getElem?_map] at henq ⊢
      rw [henq, Option.map_some']
    rw [hget, mark_awaiter_eq]
    have hmem : 0 ∈ a.ids := by
      rcases hzero with h | h
      · rw [h]; exact List.mem_singleton_self 0
      · exact h.2
    have hpos : a.ids.countP (fun t => decide (t = 0 ∨ t = messageId)) ≠ 0 := by
      intro h
      rw [List.countP_eq_zero] at h
      exact absurd (h 0 hmem) (by simp)
    have hsig : a.ids.countP (fun t => decide (t = 0 ∨ t = messageId)) = a.ids.length ∨
        a.flags = GRACHT_AWAIT_ANY := by
      rcases hzero with h | h
      · left
        rw [h]
        simp
      · exact Or.inr h.1
    rw [if_pos ⟨hpos, hsig⟩]

/-- C30 on a freshly created client and on an All awaiter whose only target is 0 when
message 9 is received. -/
theorem C30_id_zero_is_cleared_marker_witness :
    (gracht_client_create sample_abi (queue_env 3 (some 512)) (queue_sys []) (some (some 1))
      true).clientOut = some ⟨3, 0, [], [], []⟩ ∧
    (sample_awaiting_client [⟨1, GRACHT_AWAIT_ALL, 0, [0]⟩]).awaiters.get? 0 =
      some ⟨1, GRACHT_AWAIT_ALL, 0, [0]⟩ ∧
    (mark_awaiters (sample_awaiting_client [⟨1, GRACHT_AWAIT_ALL, 0, [0]⟩]) 9).awaiters.get? 0 =
      some ⟨1, GRACHT_AWAIT_ALL, 1, [0]⟩ :=
  ⟨rfl, rfl,
   (C30_id_zero_is_cleared_marker sample_abi (queue_env 3 (some 512)) (queue_sys [])
      (queue_sys []) (some (some 1)) true ⟨0, 0⟩ (sample_message 0)
      (sample_awaiting_client [⟨1, GRACHT_AWAIT_ALL, 0, [0]⟩]) 9 0
      ⟨1, GRACHT_AWAIT_ALL, 0, [0]⟩).2 rfl (Or.inl rfl)⟩

/-- One turn of the unpacking loop makes the store described for its index. -/
theorem unpack_parameters_step (abi : gracht_abi) (stored : Memory) (ps : Nat → gracht_param)
    (base n i : Nat) :
    unpack_parameters abi stored ps (n + 1) i (base + cursor_at abi stored ps i) =
      (expected_store abi stored ps base i).toList ++
        unpack_parameters abi stored ps n (i + 1) (base + cursor_at abi stored ps (i + 1)) := by
  by_cases hv : (ps i).type = GRACHT_PARAM_VALUE
  · have hnb : ¬ (ps i).type = GRACHT_PARAM_BUFFER := by rw [hv]; decide
    have hcur : cursor_at abi stored ps (i + 1) = cursor_at abi stored ps i := by
      simp only [cursor_at, if_neg hnb]
    rw [hcur]
    simp only [unpack_parameters, expected_store, if_pos hv]
    by_cases h1 : (ps i).length = 1
    · simp [h1]
    · by_cases h2 : (ps i).length = 2
      · simp [h2]
      · by_cases h4 : (ps i).length = 4
        · simp [h4]
        · by_cases h8 : (ps i).length = 8
          · simp [h8]
          · simp [h1, h2, h4, h8]
  · by_cases hb : (ps i).type = GRACHT_PARAM_BUFFER
    · have hcur : cursor_at abi stored ps (i + 1) = cursor_at abi stored ps i +
          (abi.read_param (mem_offset stored (abi.sizeof_message + i * abi.sizeof_param))).length := by
        simp only [cursor_at, if_pos hb]
      rw [hcur]
      simp only [unpack_parameters, expected_store, if_neg hv, if_pos hb,
        Option.toList, List.singleton_append, Nat.add_assoc]
    · have hcur : cursor_at abi stored ps (i + 1) = cursor_at abi stored ps i := by
        simp only [cursor_at, if_neg hb]
      rw [hcur]
      simp only [unpack_parameters, expected_store, if_neg hv, if_neg hb, Option.toList,
        List.nil_append]

/-- The unpacking loop in closed form: from index `i` on, with the cursor where the
description puts it, the stores made are those described for the indices
`i, i + 1, ..., i + n - 1`, in order. -/
theorem unpack_parameters_from (abi : gracht_abi) (stored : Memory) (ps : Nat → gracht_param)
    (base : Nat) :
    ∀ n i, unpack_parameters abi stored ps n i (base + cursor_at abi stored ps i) =
      (List.range' i n).filterMap (expected_store abi stored ps base) := by
  intro n
  induction n with
  | zero => intro i; rfl
  | succ n ih =>
    intro i
    rw [unpack_parameters_step, ih (i + 1), List.range'_succ, List.filterMap_cons]
    cases expected_store abi stored ps base i <;> rfl

/-- The whole unpacking loop of status in closed form. -/
theorem unpack_parameters_closed (abi : gracht_abi) (stored : Memory) (ps : Nat → gracht_param)
    (base n : Nat) :
    unpack_parameters abi stored ps n 0 base =
      (List.range n).filterMap (expected_store abi stored ps base) := by
  have h := unpack_parameters_from abi stored ps base n 0
  simp only [cursor_at, Nat.add_zero] at h
  rw [h, List.range_eq_range']

/-- C23: when status unpacks an entry (the descriptor found is Completed or Error), for
every index below the parameter count of the stored message whose caller slot
is of type Value with declared width 1, 2, 4 or 8, the store made into that
slot is an integer of that width equal to the stored value of the parameter
modulo 2^(8 width). -/
theorem C23_value_truncation {σ : Type} (abi : gracht_abi) (env : gracht_env σ)
    (sys : gracht_system σ) (c : gracht_client) (ctx : gracht_message_context)
    (ps : Nat → gracht_param) (node : Nat) (d : gracht_message_descriptor) (i : Nat)
    (hl : gracht_list_lookup gracht_message_descriptor.header_id c.messages
      (int_cast ctx.message_id) = some (node, d))
    (hterm : d.status = GRACHT_MESSAGE_COMPLETED ∨ d.status = GRACHT_MESSAGE_ERROR)
    (hi : i < (abi.read_header d.message).param_in)
    (hvalue : (ps i).type = GRACHT_PARAM_VALUE)
    (hwidth : (ps i).length = 1 ∨ (ps i).length = 2 ∨ (ps i).length = 4 ∨ (ps i).length = 8) :
    param_write.value (ps i).data (ps i).length
      ((abi.read_param (mem_offset d.message (abi.sizeof_message + i * abi.sizeof_param))).data %
        2 ^ (8 * (ps i).length)) ∈
      (gracht_client_status abi env sys (some c) (some ctx) (some ps)).writes := by
  rw [status_terminal abi env sys c ctx ps node d hl hterm]
  simp only []
  rw [unpack_parameters_closed, List.mem_filterMap]
  exact ⟨i, List.mem_range.mpr hi, by simp only [expected_store, if_pos hvalue, if_pos hwidth]⟩

/-- C23 on the stored sample Response: the 4 byte slot receives 0xDEADBEEF. -/
theorem C23_value_truncation_witness :
    gracht_list_lookup gracht_message_descriptor.header_id sample_completed_client.messages
      (int_cast (gracht_message_context.mk 7 4096).message_id) =
        some (0, ⟨7, GRACHT_MESSAGE_COMPLETED, sample_response⟩) ∧
    0 < (sample_abi.read_header sample_response).param_in ∧
    param_write.value 1000 4 3735928559 ∈
      (gracht_client_status sample_abi (sample_env 0 0 0 (fun _ => 0) none 0) sample_sys
        (some sample_completed_client) (some ⟨7, 4096⟩)
        (some (fun i => sample_request.params i))).writes :=
  ⟨rfl, by decide,
   C23_value_truncation sample_abi (sample_env 0 0 0 (fun _ => 0) none 0) sample_sys
      sample_completed_client ⟨7, 4096⟩ (fun i => sample_request.params i) 0
      ⟨7, GRACHT_MESSAGE_COMPLETED, sample_response⟩ 0 rfl (Or.inl rfl) (by decide) rfl
      (Or.inr (Or.inr (Or.inl rfl)))⟩

/-- C24: when status unpacks an entry, the stores made are those described, index by
index below the parameter count of the stored message, with a cursor that
starts immediately after the stored parameter descriptors: the bytes stored
into a caller slot of type Buffer are the stored bytes at the cursor offset
equal to the sum of the stored lengths of the preceding Buffer parameters, as
many as the stored length of that parameter; a Buffer parameter advances the
cursor by its stored length and any other parameter does not advance it. -/
theorem C24_buffer_cursor {σ : Type} (abi : gracht_abi) (env : gracht_env σ)
    (sys : gracht_system σ) (c : gracht_client) (ctx : gracht_message_context)
    (ps : Nat → gracht_param) (node : Nat) (d : gracht_message_descriptor)
    (hl : gracht_list_lookup gracht_message_descriptor.header_id c.messages
      (int_cast ctx.message_id) = some (node, d))
    (hterm : d.status = GRACHT_MESSAGE_COMPLETED ∨ d.status = GRACHT_MESSAGE_ERROR) :
    (gracht_client_status abi env sys (some c) (some ctx) (some ps)).writes =
      (List.range (abi.read_header d.message).param_in).filterMap
        (expected_store abi d.message ps
          (abi.sizeof_message + (abi.read_header d.message).param_in * abi.sizeof_param)) ∧
    (∀ i, i < (abi.read_header d.message).param_in → (ps i).type = GRACHT_PARAM_BUFFER →
      param_write.buffer (ps i).data
        (mem_read d.message
          (abi.sizeof_message + (abi.read_header d.message).param_in * abi.sizeof_param +
            cursor_at abi d.message ps i)
          (abi.read_param
            (mem_offset d.message (abi.sizeof_message + i * abi.sizeof_param))).length) ∈
        (gracht_client_status abi env sys (some c) (some ctx) (some ps)).writes) ∧
    cursor_at abi d.message ps 0 = 0 ∧
    (∀ i, (ps i).type = GRACHT_PARAM_BUFFER →
      cursor_at abi d.message ps (i + 1) = cursor_at abi d.message ps i +
        (abi.read_param (mem_offset d.message (abi.sizeof_message + i * abi.sizeof_param))).length) ∧
    (∀ i, (ps i).type ≠ GRACHT_PARAM_BUFFER →
      cursor_at abi d.message ps (i + 1) = cursor_at abi d.message ps i) := by
  have hne : ¬ GRACHT_PARAM_BUFFER = GRACHT_PARAM_VALUE := by decide
  rw [status_terminal abi env sys c ctx ps node d hl hterm]
  simp only []
  rw [unpack_parameters_closed]
  refine ⟨rfl, ?_, rfl, ?_, ?_⟩
  · intro i hi hb
    rw [List.mem_filterMap]
    refine ⟨i, List.mem_range.mpr hi, ?_⟩
    have hv : ¬ (ps i).type = GRACHT_PARAM_VALUE := by rw [hb]; exact hne
    simp only [expected_store, if_neg hv, if_pos hb]
  · intro i hb
    simp only [cursor_at, if_pos hb]
  · intro i hb
    simp only [cursor_at, if_neg hb]

/-- C24 on the stored sample Response: the Buffer slot, second after a Value slot, receives
the 16 bytes found right after the two stored parameter descriptors. -/
theorem C24_buffer_cursor_witness :
    gracht_list_lookup gracht_message_descriptor.header_id sample_completed_client.messages
      (int_cast (gracht_message_context.mk 7 4096).message_id) =
        some (0, ⟨7, GRACHT_MESSAGE_COMPLETED, sample_response⟩) ∧
    (gracht_client_status sample_abi (sample_env 0 0 0 (fun _ => 0) none 0) sample_sys
      (some sample_completed_client) (some ⟨7, 4096⟩)
      (some (fun i => sample_request.params i))).writes =
      (List.range (sample_abi.read_header sample_response).param_in).filterMap
        (expected_store sample_abi sample_response (fun i => sample_request.params i)
          (sample_abi.sizeof_message +
            (sample_abi.read_header sample_response).param_in * sample_abi.sizeof_param)) ∧
    (List.range (sample_abi.read_header sample_response).param_in).filterMap
        (expected_store sample_abi sample_response (fun i => sample_request.params i)
          (sample_abi.sizeof_message +
            (sample_abi.read_header sample_response).param_in * sample_abi.sizeof_param)) =
      [param_write.value 1000 4 3735928559,
       param_write.buffer 2000 [1, 2, 3, 4, 5, 6, 7, 8, 9, 10, 11, 12, 13, 14, 15, 16]] :=
  ⟨rfl,
   (C24_buffer_cursor sample_abi (sample_env 0 0 0 (fun _ => 0) none 0) sample_sys
      sample_completed_client ⟨7, 4096⟩ (fun i => sample_request.params i) 0
      ⟨7, GRACHT_MESSAGE_COMPLETED, sample_response⟩ rfl (Or.inl rfl)).1,
   by decide⟩

/-- A sum accumulated with a reduction modulo `M` at every addition is the plain sum
modulo `M`. -/
theorem foldl_add_mod (M : Nat) (p : Nat → Prop) [DecidablePred p] (f : Nat → Nat)
    (l : List Nat) :
    ∀ acc : Nat,
      (l.foldl (fun b i => if p i then (b + f i) % M else b) acc) % M =
        (acc + (l.map (fun i => if p i then f i else 0)).sum) % M := by
  induction l with
  | nil => intro acc; simp
  | cons i rest ih =>
    intro acc
    simp only [List.foldl_cons, List.map_cons, List.sum_cons]
    rw [ih]
    by_cases hp : p i
    · simp only [if_pos hp]
      rw [Nat.mod_add_mod, Nat.add_assoc]
    · simp only [if_neg hp, Nat.zero_add]

/-- A sum accumulated modulo `M` from a start below `M` stays below `M`. -/
theorem foldl_add_mod_lt (M : Nat) (hM : 0 < M) (p : Nat → Prop) [DecidablePred p]
    (f : Nat → Nat) (l : List Nat) :
    ∀ acc : Nat, acc < M →
      l.foldl (fun b i => if p i then (b + f i) % M else b) acc < M := by
  induction l with
  | nil => intro acc h; exact h
  | cons i rest ih =>
    intro acc h
    simp only [List.foldl_cons]
    apply ih
    by_cases hp : p i
    · simp only [if_pos hp]
      exact Nat.mod_lt _ hM
    · simp only [if_neg hp]
      exact h

/-- The element right after a prefix of a list. -/
theorem get?_append_length {α : Type} (l : List α) (x : α) (r : List α) :
    (l ++ x :: r).get? l.length = some x := by
  induction l with
  | nil => rfl
  | cons y rest ih => simpa using ih

/-- The size computed by invoke, as a sum reduced modulo 2^(width of size_t). -/
theorem invoke_buffer_length_eq (abi : gracht_abi) (m : gracht_message) :
    invoke_buffer_length abi m =
      (abi.sizeof_descriptor + m.header.param_out * abi.sizeof_param +
        declared_buffer_bytes m) % 2 ^ abi.size_bits := by
  have hM : 0 < 2 ^ abi.size_bits := Nat.two_pow_pos abi.size_bits
  have hlt := foldl_add_mod_lt (2 ^ abi.size_bits) hM
    (fun i => (m.params (m.header.param_in + i)).type = GRACHT_PARAM_BUFFER)
    (fun i => (m.params (m.header.param_in + i)).length)
    (List.range m.header.param_out)
    ((abi.sizeof_descriptor + (m.header.param_out * abi.sizeof_param) % 2 ^ abi.size_bits)
      % 2 ^ abi.size_bits) (Nat.mod_lt _ hM)
  have hmod := foldl_add_mod (2 ^ abi.size_bits)
    (fun i => (m.params (m.header.param_in + i)).type = GRACHT_PARAM_BUFFER)
    (fun i => (m.params (m.header.param_in + i)).length)
    (List.range m.header.param_out)
    ((abi.sizeof_descriptor + (m.header.param_out * abi.sizeof_param) % 2 ^ abi.size_bits)
      % 2 ^ abi.size_bits)
  rw [Nat.mod_eq_of_lt hlt] at hmod
  unfold invoke_buffer_length declared_buffer_bytes
  rw [hmod, Nat.mod_add_mod,
    Nat.add_right_comm abi.sizeof_descriptor ((m.header.param_out * abi.sizeof_param) % _) _,
    Nat.add_mod_mod, Nat.add_right_comm abi.sizeof_descriptor _ (m.header.param_out * _)]

/-- C25 as amended: for every Sync-Request, the size that invoke requests from
get_buffer is sizeof(descriptor) + param_out * sizeof(param) + the sum of the
declared lengths of the output parameters of type Buffer, reduced modulo
2^(width of size_t); it is exactly that sum whenever the sum is below
2^(width of size_t). Output parameters of type Value and input parameters add
nothing to it. -/
theorem C25_descriptor_size {σ : Type} (abi : gracht_abi) (env : gracht_env σ)
    (sys : gracht_system σ) (c : gracht_client) (ctx : gracht_message_context)
    (m : gracht_message) :
    invoke_buffer_length abi m =
      (abi.sizeof_descriptor + m.header.param_out * abi.sizeof_param +
        declared_buffer_bytes m) % 2 ^ abi.size_bits ∧
    (abi.sizeof_descriptor + m.header.param_out * abi.sizeof_param + declared_buffer_bytes m <
        2 ^ abi.size_bits →
      invoke_buffer_length abi m =
        abi.sizeof_descriptor + m.header.param_out * abi.sizeof_param +
          declared_buffer_bytes m) ∧
    (MESSAGE_FLAG_TYPE m.header.flags = MESSAGE_FLAG_SYNC →
      (gracht_client_invoke abi env sys (some c) ctx (some m)).sys.trace.get? sys.trace.length =
        some (gracht_event.get_buffer (invoke_buffer_length abi m))) := by
  refine ⟨invoke_buffer_length_eq abi m, ?_, ?_⟩
  · intro h
    rw [invoke_buffer_length_eq, Nat.mod_eq_of_lt h]
  · intro hsync
    by_cases hgb : (env.ops.get_buffer sys.link (invoke_buffer_length abi m)).status = 0
    · rw [invoke_sync_ok abi env sys c ctx m hsync hgb]
      simp only [List.append_assoc]
      exact get?_append_length _ _ _
    · rw [invoke_sync_no_buffer abi env sys c ctx m hsync hgb]
      exact get?_append_length _ _ _

/-- C25 as amended, on the sample request: 24 + 2 * 12 + 16 bytes are requested. -/
theorem C25_descriptor_size_witness :
    sample_abi.sizeof_descriptor + sample_request.header.param_out * sample_abi.sizeof_param +
      declared_buffer_bytes sample_request < 2 ^ sample_abi.size_bits ∧
    invoke_buffer_length sample_abi sample_request = 64 :=
  ⟨by decide,
   (C25_descriptor_size sample_abi (sample_env 0 0 0 (fun _ => 0) none 0) sample_sys
      (sample_client 7) ⟨0, 0⟩ sample_request).2.1 (by decide)⟩

/-- C25 as stated fails when the sum does not fit size_t: for a Sync-Request with one
output Buffer of declared length 2^32 - 1, under a 32 bit size_t, invoke requests
35 bytes from get_buffer, not 24 + 12 + 4294967295. -/
theorem C25_size_wraps_counterexample :
    MESSAGE_FLAG_TYPE sample_huge_request.header.flags = MESSAGE_FLAG_SYNC ∧
    sample_abi.sizeof_descriptor +
      sample_huge_request.header.param_out * sample_abi.sizeof_param +
      declared_buffer_bytes sample_huge_request = 4294967331 ∧
    (gracht_client_invoke sample_abi (sample_env 0 0 0 (fun _ => 0) none 0) sample_sys
      (some (sample_client 7)) ⟨0, 0⟩ (some sample_huge_request)).sys.trace.get? 0 =
      some (gracht_event.get_buffer 35) ∧
    invoke_buffer_length sample_abi sample_huge_request ≠
      sample_abi.sizeof_descriptor +
        sample_huge_request.header.param_out * sample_abi.sizeof_param +
        declared_buffer_bytes sample_huge_request := by
  decide

/-- C21 fails on the code on three failure returns, none of which sets errno. With errno
at 0 before the call: wait_message that receives a Response whose id has no
table entry returns -1; invoke of a Sync-Request whose get_buffer fails returns
-1; create whose connect returns -1 returns -1; after each of them errno is
still 0, which is none of EINVAL, ENOMEM and EALREADY. -/
theorem C21_failure_returns_without_errno :
    ((gracht_client_wait_message sample_abi (sample_env 0 0 0 (sample_inbound 5 3) none 0)
        sample_sys (some (sample_client 9)) 0).ret = -1 ∧
      (gracht_client_wait_message sample_abi (sample_env 0 0 0 (sample_inbound 5 3) none 0)
        sample_sys (some (sample_client 9)) 0).sys.errno = 0) ∧
    ((gracht_client_invoke sample_abi (sample_env (-1) 0 0 (fun _ => 0) none 0) sample_sys
        (some (sample_client 7)) ⟨0, 0⟩ (some sample_request)).ret = -1 ∧
      (gracht_client_invoke sample_abi (sample_env (-1) 0 0 (fun _ => 0) none 0) sample_sys
        (some (sample_client 7)) ⟨0, 0⟩ (some sample_request)).sys.errno = 0) ∧
    ((gracht_client_create sample_abi (queue_env (-1) (some 512)) (queue_sys [])
        (some (some 1)) true).ret = -1 ∧
      (gracht_client_create sample_abi (queue_env (-1) (some 512)) (queue_sys [])
        (some (some 1)) true).sys.errno = 0) ∧
    sample_sys.errno = 0 ∧ (queue_sys []).errno = 0 ∧
    (0 : Int) ≠ EINVAL ∧ (0 : Int) ≠ ENOMEM ∧ (0 : Int) ≠ EALREADY := by
  decide

/-- C22 fails on the code in wait_message and in invoke. For every received Response
whose id has a table entry, the accesses of wait_message are recv, mtx_lock, the
walk of the awaiters, mtx_unlock, and then, with the mutex released, the lookup
in the Pending-Call table and the store of Completed: they break the locking
discipline. For every Sync-Request that is registered, the accesses of invoke
end, after mtx_unlock and send, with the store of the descriptor status: they
break it too. The accesses of status keep the discipline for every input. -/
theorem C22_accesses_outside_the_mutex {σ : Type} (abi : gracht_abi) (env : gracht_env σ)
    (sys : gracht_system σ) (c : gracht_client) (messageBuffer : Nat)
    (ctx : Option gracht_message_context) (m : gracht_message)
    (ps : Option (Nat → gracht_param)) :
    ((env.ops.recv sys.link messageBuffer 0).status = 0 →
      MESSAGE_FLAG_TYPE (abi.read_header (env.ops.recv sys.link messageBuffer 0).message).flags =
        MESSAGE_FLAG_RESPONSE →
      (∃ x ∈ c.messages, x.header_id =
        int_cast (abi.read_header (env.ops.recv sys.link messageBuffer 0).message).id) →
      gracht_client_wait_message_accesses abi env sys (some c) messageBuffer =
        [access_event.call (gracht_event.recv messageBuffer),
         access_event.call gracht_event.mtx_lock,
         access_event.awaiters_access,
         access_event.call gracht_event.mtx_unlock,
         access_event.messages_access,
         access_event.status_write] ∧
      lock_disciplined false
        (gracht_client_wait_message_accesses abi env sys (some c) messageBuffer) = false) ∧
    (MESSAGE_FLAG_TYPE m.header.flags = MESSAGE_FLAG_SYNC →
      (env.ops.get_buffer sys.link (invoke_buffer_length abi m)).status = 0 →
      lock_disciplined false
        (gracht_client_invoke_accesses abi env sys (some c) (some m)) = false) ∧
    lock_disciplined false (gracht_client_status_accesses (some c) ctx ps) = true := by
  refine ⟨?_, ?_, ?_⟩
  · intro hrecv hkind hentry
    obtain ⟨node, d, hl⟩ := gracht_list_lookup_of_mem gracht_message_descriptor.header_id
      c.messages _ hentry
    have hne : ¬ MESSAGE_FLAG_RESPONSE = MESSAGE_FLAG_EVENT := by decide
    have hacc : gracht_client_wait_message_accesses abi env sys (some c) messageBuffer =
        [access_event.call (gracht_event.recv messageBuffer),
         access_event.call gracht_event.mtx_lock,
         access_event.awaiters_access,
         access_event.call gracht_event.mtx_unlock,
         access_event.messages_access,
         access_event.status_write] := by
      simp only [gracht_client_wait_message_accesses, hrecv, hkind, hne, hl, ne_eq,
        not_true_eq_false, if_false, if_true, List.cons_append, List.nil_append]
    rw [hacc]
    exact ⟨rfl, rfl⟩
  · intro hsync hgb
    simp only [gracht_client_invoke_accesses, hsync, hgb, ne_eq, not_true_eq_false, if_false,
      if_true]
    rfl
  · cases ctx with
    | none => rfl
    | some cx =>
      cases ps with
      | none => rfl
      | some p =>
        simp only [gracht_client_status_accesses]
        cases hl : gracht_list_lookup gracht_message_descriptor.header_id c.messages
            (int_cast cx.message_id) with
        | none => rfl
        | some r =>
          obtain ⟨node, d⟩ := r
          simp only []
          split_ifs <;> rfl

/-- C22 on the sample table with a Created entry for id 7 when the sample Response to
id 7 is received, and on the sample Sync-Request: the calls among the accesses
are the calls of the two operations, and both sequences break the discipline. -/
theorem C22_accesses_outside_the_mutex_witness :
    ((sample_env 0 0 0 sample_response none 0).ops.recv sample_sys.link 0 0).status = 0 ∧
    access_calls (gracht_client_wait_message_accesses sample_abi
        (sample_env 0 0 0 sample_response none 0) sample_sys
        (some (sample_table_client [(7, 0)])) 0) =
      (gracht_client_wait_message sample_abi (sample_env 0 0 0 sample_response none 0)
        sample_sys (some (sample_table_client [(7, 0)])) 0).sys.trace ∧
    access_calls (gracht_client_invoke_accesses sample_abi
        (sample_env 0 0 0 sample_response none 0) sample_sys
        (some (sample_client 7)) (some sample_request)) =
      (gracht_client_invoke sample_abi (sample_env 0 0 0 sample_response none 0) sample_sys
        (some (sample_client 7)) ⟨0, 0⟩ (some sample_request)).sys.trace ∧
    lock_disciplined false (gracht_client_wait_message_accesses sample_abi
        (sample_env 0 0 0 sample_response none 0) sample_sys
        (some (sample_table_client [(7, 0)])) 0) = false ∧
    lock_disciplined false (gracht_client_invoke_accesses sample_abi
        (sample_env 0 0 0 sample_response none 0) sample_sys
        (some (sample_client 7)) (some sample_request)) = false :=
  ⟨rfl, by decide, by decide,
   ((C22_accesses_outside_the_mutex sample_abi (sample_env 0 0 0 sample_response none 0)
      sample_sys (sample_table_client [(7, 0)]) 0 none sample_request none).1 rfl (by decide)
      ⟨⟨7, 0, fun _ => 0⟩, by simp [sample_table_client], by decide⟩).2,
   (C22_accesses_outside_the_mutex sample_abi (sample_env 0 0 0 sample_response none 0)
      sample_sys (sample_client 7) 0 none sample_request none).2.1 (by decide) rfl⟩

/-- What an invoke with non-null client and message does to the client, whatever the path:
the counter advances by one, the message carries the old counter value, and the
Pending-Call table is as before or has one more descriptor at its tail, keyed by
the id issued, with status Completed or Error. -/
theorem invoke_effect {σ : Type} (abi : gracht_abi) (env : gracht_env σ)
    (sys : gracht_system σ) (c : gracht_client) (ctx : gracht_message_context)
    (m : gracht_message) :
    ∃ c2, (gracht_client_invoke abi env sys (some c) ctx (some m)).client = some c2 ∧
      issued_id (gracht_client_invoke abi env sys (some c) ctx (some m)) =
        c.current_message_id ∧
      c2.current_message_id = (c.current_message_id + 1) % 2 ^ 32 ∧
      c2.awaiters = c.awaiters ∧
      (c2.messages = c.messages ∨
        ∃ d, c2.messages = c.messages ++ [d] ∧
          d.header_id = int_cast c.current_message_id ∧
          (d.status = GRACHT_MESSAGE_COMPLETED ∨ d.status = GRACHT_MESSAGE_ERROR)) := by
  by_cases hsync : MESSAGE_FLAG_TYPE m.header.flags = MESSAGE_FLAG_SYNC
  · by_cases hgb : (env.ops.get_buffer sys.link (invoke_buffer_length abi m)).status = 0
    · rw [invoke_sync_ok abi env sys c ctx m hsync hgb]
      refine ⟨_, rfl, rfl, rfl, rfl, Or.inr ⟨_, rfl, rfl, ?_⟩⟩
      simp only []
      split_ifs
      · exact Or.inl rfl
      · exact Or.inr rfl
    · rw [invoke_sync_no_buffer abi env sys c ctx m hsync hgb]
      exact ⟨_, rfl, rfl, rfl, rfl, Or.inl rfl⟩
  · rw [invoke_not_sync abi env sys c ctx m hsync]
    exact ⟨_, rfl, rfl, rfl, rfl, Or.inl rfl⟩

/-- What a status query with non-null arguments does to the client, whatever the path: the
Pending-Call table is as before, or the descriptor found for the id is unlinked. -/
theorem status_effect {σ : Type} (abi : gracht_abi) (env : gracht_env σ)
    (sys : gracht_system σ) (c : gracht_client) (ctx : gracht_message_context)
    (ps : Nat → gracht_param) :
    ∃ c2, (gracht_client_status abi env sys (some c) (some ctx) (some ps)).client = some c2 ∧
      c2.current_message_id = c.current_message_id ∧
      c2.awaiters = c.awaiters ∧
      (c2.messages = c.messages ∨
        ∃ node d, gracht_list_lookup gracht_message_descriptor.header_id c.messages
            (int_cast ctx.message_id) = some (node, d) ∧
          c2.messages = gracht_list_remove c.messages node) := by
  cases hl : gracht_list_lookup gracht_message_descriptor.header_id c.messages
      (int_cast ctx.message_id) with
  | none =>
    simp only [gracht_client_status, hl]
    exact ⟨_, rfl, rfl, rfl, Or.inl rfl⟩
  | some r =>
    obtain ⟨node, d⟩ := r
    by_cases hterm : d.status = GRACHT_MESSAGE_COMPLETED ∨ d.status = GRACHT_MESSAGE_ERROR
    · rw [status_terminal abi env sys c ctx ps node d hl hterm]
      exact ⟨_, rfl, rfl, rfl, Or.inr ⟨node, d, rfl, rfl⟩⟩
    · simp only [gracht_client_status, hl, if_neg hterm]
      exact ⟨_, rfl, rfl, rfl, Or.inl rfl⟩

/-- What wait_message on a non-null client does to the client, whatever the path: the
Pending-Call table is as before, or the descriptor found for the received id is
overwritten in place by one with the same key and status Completed. -/
theorem wait_message_effect {σ : Type} (abi : gracht_abi) (env : gracht_env σ)
    (sys : gracht_system σ) (c : gracht_client) (messageBuffer : Nat) :
    ∃ c2, (gracht_client_wait_message abi env sys (some c) messageBuffer).client = some c2 ∧
      c2.current_message_id = c.current_message_id ∧
      (c2.messages = c.messages ∨
        ∃ node d d2, gracht_list_lookup gracht_message_descriptor.header_id c.messages
            (int_cast (abi.read_header (env.ops.recv sys.link messageBuffer 0).message).id) =
              some (node, d) ∧
          d2.header_id = d.header_id ∧ d2.status = GRACHT_MESSAGE_COMPLETED ∧
          c2.messages = c.messages.set node d2) := by
  by_cases hrecv : (env.ops.recv sys.link messageBuffer 0).status = 0
  · by_cases hev : MESSAGE_FLAG_TYPE
        (abi.read_header (env.ops.recv sys.link messageBuffer 0).message).flags =
          MESSAGE_FLAG_EVENT
    · rw [wait_message_event abi env sys c messageBuffer hrecv hev]
      exact ⟨_, rfl, rfl, Or.inl rfl⟩
    · by_cases hresp : MESSAGE_FLAG_TYPE
          (abi.read_header (env.ops.recv sys.link messageBuffer 0).message).flags =
            MESSAGE_FLAG_RESPONSE
      · cases hl : gracht_list_lookup gracht_message_descriptor.header_id c.messages
            (int_cast (abi.read_header (env.ops.recv sys.link messageBuffer 0).message).id) with
        | none =>
          rw [wait_message_response_absent abi env sys c messageBuffer hrecv hresp
            ((gracht_list_lookup_eq_none _ _ _).mp hl)]
          exact ⟨_, rfl, rfl, Or.inl rfl⟩
        | some r =>
          obtain ⟨node, d⟩ := r
          rw [wait_message_response_present abi env sys c messageBuffer node d hrecv hresp hl]
          exact ⟨_, rfl, rfl, Or.inr ⟨node, d,
            { header_id := d.header_id
              status := GRACHT_MESSAGE_COMPLETED
              message := memcpy d.message (env.ops.recv sys.link messageBuffer 0).message
                (abi.read_header (env.ops.recv sys.link messageBuffer 0).message).length },
            rfl, rfl, rfl, rfl⟩⟩
      · simp only [gracht_client_wait_message, hrecv, hev, hresp, ne_eq, not_true_eq_false,
          if_false, mark_awaiters]
        exact ⟨_, rfl, rfl, Or.inl rfl⟩
  · simp only [gracht_client_wait_message, ne_eq, hrecv, not_false_eq_true, if_true]
    exact ⟨_, rfl, rfl, Or.inl rfl⟩

/-- The cast of a 32 bit id to int loses nothing. -/
theorem int_cast_injective (i j : Nat) (hi : i < 2 ^ 32) (hj : j < 2 ^ 32)
    (h : int_cast i = int_cast j) : i = j := by
  unfold int_cast at h
  rw [Nat.mod_eq_of_lt hi, Nat.mod_eq_of_lt hj] at h
  split_ifs at h <;> omega

/-- Unlinking the node at a position of a list of distinct keys strikes its key. -/
theorem eraseIdx_map_eq_filter (f : Nat → Int) (live : List Nat) :
    ∀ (n : Nat) (k : Int), (live.map f).Nodup → (live.map f).get? n = some k →
      (live.map f).eraseIdx n = (live.filter (fun j => decide (f j ≠ k))).map f := by
  induction live with
  | nil => intro n k _ h; simp at h
  | cons a rest ih =>
    intro n k hnd hget
    rw [List.map_cons, List.nodup_cons] at hnd
    cases n with
    | zero =>
      simp only [List.map_cons, List.get?_cons_zero, Option.some.injEq] at hget
      subst hget
      have hkeep : rest.filter (fun j => decide (f j ≠ f a)) = rest := by
        rw [List.filter_eq_self]
        intro j hj
        simp only [ne_eq, decide_not, Bool.not_eq_true', decide_eq_false_iff_not]
        intro hja
        exact hnd.1 (List.mem_map.mpr ⟨j, hj, hja⟩)
      have hdrop : (a :: rest).filter (fun j => decide (f j ≠ f a)) = rest := by
        rw [List.filter_cons_of_neg (by simp), hkeep]
      rw [hdrop]
      rfl
    | succ n =>
      simp only [List.map_cons, List.get?_cons_succ] at hget
      have hmem : k ∈ rest.map f := List.get?_mem hget
      have hne : f a ≠ k := fun h => hnd.1 (h ▸ hmem)
      have hrest := ih n k hnd.2 hget
      have hkeepa : (a :: rest).filter (fun j => decide (f j ≠ k)) =
          a :: rest.filter (fun j => decide (f j ≠ k)) := by
        rw [List.filter_cons_of_pos (by simpa using hne)]
      rw [hkeepa, List.map_cons, List.map_cons, List.eraseIdx_cons_succ, hrest]

/-- The keys after a node is unlinked. -/
theorem map_key_remove {α : Type} (key : α → Int) (l : List α) (n : Nat) :
    (gracht_list_remove l n).map key = (l.map key).eraseIdx n := by
  induction l generalizing n with
  | nil => rfl
  | cons x rest ih =>
    cases n with
    | zero => rfl
    | succ n =>
      simp only [gracht_list_remove] at ih
      simp [gracht_list_remove, ih]

/-- Unlinking a node of the list shortens it. -/
theorem length_remove_lt {α : Type} (l : List α) (n : Nat) (d : α) (h : l.get? n = some d) :
    (gracht_list_remove l n).length < l.length := by
  have hn : n < l.length := by
    rw [List.get?_eq_getElem?] at h
    exact (List.getElem?_eq_some_iff.mp h).1
  simp only [gracht_list_remove, List.length_eraseIdx, hn, if_true]
  omega

/-- One call keeps every descriptor of the table Completed or Error. -/
theorem run_step_all_terminal {σ : Type} (abi : gracht_abi) (env : gracht_env σ)
    (s : run_state σ) (op : client_op) (h : all_terminal s.client) :
    all_terminal (run_step abi env s op).client := by
  cases op with
  | invoke ctx m =>
    obtain ⟨c2, hc2, _, _, _, hmsgs⟩ := invoke_effect abi env s.sys s.client ctx m
    simp only [run_step, hc2, Option.getD_some]
    intro d hd
    rcases hmsgs with hsame | ⟨d0, happ, _, hterm⟩
    · rw [hsame] at hd; exact h d hd
    · rw [happ, List.mem_append, List.mem_singleton] at hd
      rcases hd with hd | hd
      · exact h d hd
      · rw [hd]; exact hterm
  | status ctx ps =>
    obtain ⟨c2, hc2, _, _, hmsgs⟩ := status_effect abi env s.sys s.client ctx ps
    simp only [run_step, hc2, Option.getD_some]
    intro d hd
    rcases hmsgs with hsame | ⟨node, d0, _, hrem⟩
    · rw [hsame] at hd; exact h d hd
    · rw [hrem] at hd
      exact h d (List.mem_of_mem_eraseIdx hd)
  | wait_message messageBuffer =>
    obtain ⟨c2, hc2, _, hmsgs⟩ := wait_message_effect abi env s.sys s.client messageBuffer
    simp only [run_step, hc2, Option.getD_some]
    intro d hd
    rcases hmsgs with hsame | ⟨node, d0, d2, _, _, hdone, hset⟩
    · rw [hsame] at hd; exact h d hd
    · rw [hset] at hd
      rcases List.mem_or_eq_of_mem_set hd with hd | hd
      · exact h d hd
      · rw [hd]; exact Or.inl hdone

/-- A run keeps every descriptor of the table Completed or Error. -/
theorem run_ops_all_terminal {σ : Type} (abi : gracht_abi) (env : gracht_env σ)
    (ops : List client_op) :
    ∀ s : run_state σ, all_terminal s.client → all_terminal (run_ops abi env s ops).client := by
  induction ops with
  | nil => intro s h; exact h
  | cons op rest ih =>
    intro s h
    exact ih (run_step abi env s op) (run_step_all_terminal abi env s op h)

/-- One call keeps the invariant of the Pending-Call table, as long as the counter does
not wrap and every descriptor of the table is Completed or Error. -/
theorem run_step_invariant {σ : Type} (abi : gracht_abi) (env : gracht_env σ)
    (s : run_state σ) (op : client_op) (h : run_invariant s) (hterm : all_terminal s.client)
    (hroom : s.client.current_message_id + count_invokes [op] < 2 ^ 32) :
    run_invariant (run_step abi env s op) := by
  obtain ⟨hlt, hissued, hkeys, hsorted, hlive⟩ := h
  cases op with
  | invoke ctx m =>
    simp only [count_invokes] at hroom
    have hcnt : (s.client.current_message_id + 1) % 2 ^ 32 = s.client.current_message_id + 1 :=
      Nat.mod_eq_of_lt (by omega)
    by_cases hreg : MESSAGE_FLAG_TYPE m.header.flags = MESSAGE_FLAG_SYNC ∧
        (env.ops.get_buffer s.sys.link (invoke_buffer_length abi m)).status = 0
    · simp only [run_step, if_pos hreg]
      rw [invoke_sync_ok abi env s.sys s.client ctx m hreg.1 hreg.2]
      simp only [Option.getD_some, issued_id, with_id, hcnt]
      refine ⟨?_, ?_, ?_, ?_, ?_⟩
      · simp only []; omega
      · simp only []
        rw [List.range_succ, hissued]
      · simp only []
        rw [List.map_append, List.map_append, hkeys]
        rfl
      · simp only []
        rw [List.pairwise_append]
        refine ⟨hsorted, List.pairwise_singleton _ _, ?_⟩
        intro a ha b hb
        rw [List.mem_singleton] at hb
        subst hb
        exact hlive a ha
      · intro i hi
        simp only [List.mem_append, List.mem_singleton] at hi
        simp only []
        rcases hi with hi | hi
        · have := hlive i hi
          omega
        · omega
    · simp only [run_step, if_neg hreg]
      have hsame : ∃ r, gracht_client_invoke abi env s.sys (some s.client) ctx (some m) = r ∧
          r.client = some { iod := s.client.iod
                            current_message_id := (s.client.current_message_id + 1) % 2 ^ 32
                            protocols := s.client.protocols
                            awaiters := s.client.awaiters
                            messages := s.client.messages } ∧
          r.message = some (with_id s.client m) := by
        by_cases hsync : MESSAGE_FLAG_TYPE m.header.flags = MESSAGE_FLAG_SYNC
        · have hgb : (env.ops.get_buffer s.sys.link (invoke_buffer_length abi m)).status ≠ 0 :=
            fun hgb => hreg ⟨hsync, hgb⟩
          exact ⟨_, invoke_sync_no_buffer abi env s.sys s.client ctx m hsync hgb, rfl, rfl⟩
        · exact ⟨_, invoke_not_sync abi env s.sys s.client ctx m hsync, rfl, rfl⟩
      obtain ⟨r, hr, hrc, hrm⟩ := hsame
      rw [hr]
      simp only [hrc, Option.getD_some, issued_id, hrm, with_id, hcnt]
      refine ⟨?_, ?_, hkeys, hsorted, ?_⟩
      · simp only []; omega
      · simp only []
        rw [List.range_succ, hissued]
      · intro i hi
        simp only [] at hi ⊢
        have := hlive i hi
        omega
  | status ctx ps =>
    cases hl : gracht_list_lookup gracht_message_descriptor.header_id s.client.messages
        (int_cast ctx.message_id) with
    | none =>
      have hne : ¬ ((-1 : Int) = 0) := by decide
      simp only [run_step]
      rw [status_absent abi env s.sys s.client ctx ps
        ((gracht_list_lookup_eq_none _ _ _).mp hl)]
      simp only [Option.getD_some, if_neg hne]
      exact ⟨hlt, hissued, hkeys, hsorted, hlive⟩
    | some r =>
      obtain ⟨node, d⟩ := r
      obtain ⟨hget, hkey, _⟩ := gracht_list_lookup_eq_some _ _ _ node d hl
      have hd : d.status = GRACHT_MESSAGE_COMPLETED ∨ d.status = GRACHT_MESSAGE_ERROR :=
        hterm d (List.get?_mem hget)
      have hnd : (s.live.map int_cast).Nodup := by
        refine List.Nodup.map_on ?_ (hsorted.imp (fun hij => Nat.ne_of_lt hij))
        intro i hi j hj hij
        exact int_cast_injective i j (by have := hlive i hi; omega)
          (by have := hlive j hj; omega) hij
      have hgetk : (s.live.map int_cast).get? node = some (int_cast ctx.message_id) := by
        rw [← hkeys, List.get?_eq_getElem?, List.getElem?_map, ← List.get?_eq_getElem?, hget,
          Option.map_some', hkey]
      simp only [run_step]
      rw [status_terminal abi env s.sys s.client ctx ps node d hl hd]
      simp only [Option.getD_some, if_true]
      refine ⟨hlt, hissued, ?_, ?_, ?_⟩
      · simp only []
        rw [map_key_remove, hkeys, eraseIdx_map_eq_filter int_cast s.live node _ hnd hgetk]
      · simp only []
        exact hsorted.sublist (List.filter_sublist _)
      · intro i hi
        simp only [] at hi ⊢
        exact hlive i (List.mem_of_mem_filter hi)
  | wait_message messageBuffer =>
    obtain ⟨c2, hc2, hcnt, hmsgs⟩ := wait_message_effect abi env s.sys s.client messageBuffer
    simp only [run_step, hc2, Option.getD_some]
    refine ⟨?_, ?_, ?_, hsorted, ?_⟩
    · simp only []; omega
    · simp only []
      rw [hcnt]; exact hissued
    · simp only []
      rcases hmsgs with hsame | ⟨node, d, d2, hl, hk, _, hset⟩
      · rw [hsame]; exact hkeys
      · rw [hset, map_key_set gracht_message_descriptor.header_id s.client.messages node d d2
          (gracht_list_lookup_eq_some _ _ _ node d hl).1 hk]
        exact hkeys
    · intro i hi
      simp only [] at hi ⊢
      rw [hcnt]
      exact hlive i hi

/-- The invokes of a run are those of its first call and those of the rest. -/
theorem count_invokes_cons (op : client_op) (rest : List client_op) :
    count_invokes (op :: rest) = count_invokes [op] + count_invokes rest := by
  cases op <;> simp [count_invokes, Nat.add_comm]

/-- One call advances the counter by at most the number of invokes it makes. -/
theorem run_step_counter_le {σ : Type} (abi : gracht_abi) (env : gracht_env σ)
    (s : run_state σ) (op : client_op) :
    (run_step abi env s op).client.current_message_id ≤
      s.client.current_message_id + count_invokes [op] := by
  cases op with
  | invoke ctx m =>
    obtain ⟨c2, hc2, _, hcnt, _, _⟩ := invoke_effect abi env s.sys s.client ctx m
    simp only [run_step, hc2, Option.getD_some, count_invokes, hcnt]
    exact Nat.mod_le _ _
  | status ctx ps =>
    obtain ⟨c2, hc2, hcnt, _, _⟩ := status_effect abi env s.sys s.client ctx ps
    simp only [run_step, hc2, Option.getD_some, count_invokes, hcnt]
    omega
  | wait_message messageBuffer =>
    obtain ⟨c2, hc2, hcnt, _⟩ := wait_message_effect abi env s.sys s.client messageBuffer
    simp only [run_step, hc2, Option.getD_some, count_invokes, hcnt]
    omega

/-- A run keeps the invariant of the Pending-Call table, as long as the counter does not
wrap. -/
theorem run_ops_invariant {σ : Type} (abi : gracht_abi) (env : gracht_env σ)
    (ops : List client_op) :
    ∀ s : run_state σ, run_invariant s → all_terminal s.client →
      s.client.current_message_id + count_invokes ops < 2 ^ 32 →
      run_invariant (run_ops abi env s ops) := by
  induction ops with
  | nil => intro s h _ _; exact h
  | cons op rest ih =>
    intro s h hterm hroom
    rw [count_invokes_cons] at hroom
    have hle := run_step_counter_le abi env s op
    exact ih (run_step abi env s op) (run_step_invariant abi env s op h hterm (by omega))
      (run_step_all_terminal abi env s op hterm) (by omega)

/-- The invariant holds of a freshly created client. -/
theorem fresh_state_invariant {σ : Type} (sys : gracht_system σ) (iod : Int) :
    run_invariant (fresh_state sys iod) :=
  ⟨by simp [fresh_state, fresh_client], rfl, rfl, List.Pairwise.nil,
    fun _ h => absurd h (List.not_mem_nil _)⟩

/-- What the invariant says of the keys: they are pairwise distinct, each is the cast of
an issued id, and none is the cast of the id that the next invoke will issue. -/
theorem run_invariant_keys {σ : Type} (s : run_state σ) (h : run_invariant s) :
    (s.client.messages.map gracht_message_descriptor.header_id).Nodup ∧
    (∀ k ∈ s.client.messages.map gracht_message_descriptor.header_id,
      ∃ id ∈ s.issued, k = int_cast id) ∧
    (∀ x ∈ s.client.messages, x.header_id ≠ int_cast s.client.current_message_id) := by
  obtain ⟨hlt, hissued, hkeys, hsorted, hlive⟩ := h
  refine ⟨?_, ?_, ?_⟩
  · rw [hkeys]
    refine List.Nodup.map_on ?_ (hsorted.imp (fun hij => Nat.ne_of_lt hij))
    intro i hi j hj hij
    exact int_cast_injective i j (by have := hlive i hi; omega) (by have := hlive j hj; omega) hij
  · intro k hk
    rw [hkeys, List.mem_map] at hk
    obtain ⟨i, hi, hik⟩ := hk
    exact ⟨i, by rw [hissued, List.mem_range]; exact hlive i hi, hik.symm⟩
  · intro x hx hxk
    have hmem : x.header_id ∈ s.live.map int_cast := by
      rw [← hkeys]; exact List.mem_map.mpr ⟨x, hx, rfl⟩
    rw [List.mem_map] at hmem
    obtain ⟨i, hi, hik⟩ := hmem
    have hii := hlive i hi
    have := int_cast_injective i s.client.current_message_id (by omega) hlt (hik.trans hxk)
    omega

/-- A run without an invoke of a Sync-Request records no live id. -/
theorem run_ops_live_nil {σ : Type} (abi : gracht_abi) (env : gracht_env σ)
    (ops : List client_op) :
    ∀ s : run_state σ, s.live = [] →
      (∀ ctx m, client_op.invoke ctx m ∈ ops →
        MESSAGE_FLAG_TYPE m.header.flags ≠ MESSAGE_FLAG_SYNC) →
      (run_ops abi env s ops).live = [] := by
  induction ops with
  | nil => intro s h _; exact h
  | cons op rest ih =>
    intro s h hkind
    refine ih (run_step abi env s op) ?_
      (fun ctx m hm => hkind ctx m (List.mem_cons_of_mem op hm))
    cases op with
    | invoke ctx m =>
      have hk := hkind ctx m (List.mem_cons_self _ _)
      simp only [run_step, hk, false_and, if_false, h]
    | status ctx ps =>
      simp only [run_step, h, List.filter_nil, ite_self]
    | wait_message messageBuffer =>
      simp only [run_step, h]

/-- C27: in every client state reached from a freshly created client by a run of invokes,
status queries and receptions with fewer than 2^32 invokes, the keys of the
Pending-Call table are pairwise distinct, each key is (the cast of) a message
id already issued by this client, and the keys are, in table order, the ids
issued to the invokes of a Sync-Request for which get_buffer succeeded, less
the ids asked for by the status queries that returned 0 since; so every entry
was registered by a Sync-Request invoke and has not been consumed by a status
query, and a run without a Sync-Request invoke leaves the table empty. No key
is the id that the next invoke will issue. -/
theorem C27_pending_table_invariant {σ : Type} (abi : gracht_abi) (env : gracht_env σ)
    (sys : gracht_system σ) (iod : Int) (ops : List client_op)
    (hbound : count_invokes ops < 2 ^ 32) :
    ((run_ops abi env (fresh_state sys iod) ops).client.messages.map
      gracht_message_descriptor.header_id).Nodup ∧
    (∀ k ∈ (run_ops abi env (fresh_state sys iod) ops).client.messages.map
        gracht_message_descriptor.header_id,
      ∃ id ∈ (run_ops abi env (fresh_state sys iod) ops).issued, k = int_cast id) ∧
    (run_ops abi env (fresh_state sys iod) ops).client.messages.map
        gracht_message_descriptor.header_id =
      (run_ops abi env (fresh_state sys iod) ops).live.map int_cast ∧
    (run_ops abi env (fresh_state sys iod) ops).issued =
      List.range (run_ops abi env (fresh_state sys iod) ops).client.current_message_id ∧
    ((∀ ctx m, client_op.invoke ctx m ∈ ops →
        MESSAGE_FLAG_TYPE m.header.flags ≠ MESSAGE_FLAG_SYNC) →
      (run_ops abi env (fresh_state sys iod) ops).client.messages = []) ∧
    (∀ x ∈ (run_ops abi env (fresh_state sys iod) ops).client.messages,
      x.header_id ≠
        int_cast (run_ops abi env (fresh_state sys iod) ops).client.current_message_id) := by
  have hinv := run_ops_invariant abi env ops (fresh_state sys iod)
    (fresh_state_invariant sys iod) (fun d hd => absurd hd (List.not_mem_nil d))
    (by simp only [fresh_state, fresh_client]; omega)
  obtain ⟨h1, h2, h3⟩ := run_invariant_keys _ hinv
  refine ⟨h1, h2, hinv.keys_eq, hinv.issued_eq, ?_, h3⟩
  intro hkind
  have hnil := run_ops_live_nil abi env ops (fresh_state sys iod) rfl hkind
  have hk := hinv.keys_eq
  rw [hnil, List.map_nil] at hk
  exact List.map_eq_nil_iff.mp hk

/-- C27 on the sample run: four ids are issued, 0 to 3; id 1 went to an Async-Request
and id 0 was consumed by a status query; the table ends with the entries of
the Sync-Requests 2 and 3, in that order. -/
theorem C27_pending_table_invariant_witness :
    count_invokes sample_ops < 2 ^ 32 ∧
    (run_ops sample_abi (sample_env 0 0 0 sample_response none 0) (fresh_state sample_sys 1)
      sample_ops).issued = [0, 1, 2, 3] ∧
    (run_ops sample_abi (sample_env 0 0 0 sample_response none 0) (fresh_state sample_sys 1)
      sample_ops).live = [2, 3] ∧
    (run_ops sample_abi (sample_env 0 0 0 sample_response none 0) (fresh_state sample_sys 1)
      sample_ops).client.messages.map gracht_message_descriptor.header_id = [2, 3] ∧
    ((run_ops sample_abi (sample_env 0 0 0 sample_response none 0) (fresh_state sample_sys 1)
      sample_ops).client.messages.map gracht_message_descriptor.header_id).Nodup ∧
    (run_ops sample_abi (sample_env 0 0 0 sample_response none 0) (fresh_state sample_sys 1)
      sample_ops).client.messages.map gracht_message_descriptor.header_id =
      (run_ops sample_abi (sample_env 0 0 0 sample_response none 0) (fresh_state sample_sys 1)
        sample_ops).live.map int_cast :=
  ⟨by decide, by decide, by decide, by decide,
   (C27_pending_table_invariant sample_abi (sample_env 0 0 0 sample_response none 0) sample_sys 1
      sample_ops (by decide)).1,
   (C27_pending_table_invariant sample_abi (sample_env 0 0 0 sample_response none 0) sample_sys 1
      sample_ops (by decide)).2.2.1⟩

/-- When every descriptor of the table is Completed or Error, the awaiter condition of a
single context holds. -/
theorem check_awaiter_condition_all_terminal (c : gracht_client) (a : gracht_message_awaiter)
    (ctx : gracht_message_context) (h : all_terminal c) :
    check_awaiter_condition c a [ctx] = 0 := by
  cases hl : gracht_list_lookup gracht_message_descriptor.header_id c.messages
      (int_cast ctx.message_id) with
  | none => simp [check_awaiter_condition, count_completed, hl]
  | some r =>
    obtain ⟨node, d⟩ := r
    have hmem : d ∈ c.messages := List.get?_mem (gracht_list_lookup_eq_some _ _ _ node d hl).1
    have hnot : ¬ (d.status = GRACHT_MESSAGE_INPROGRESS ∨ d.status = GRACHT_MESSAGE_CREATED) := by
      rcases h d hmem with hs | hs <;> rw [hs] <;> decide
    exact check_awaiter_condition_single_done c a ctx node d hl hnot

/-- An await whose condition holds at once returns without enqueuing, and returns 0 when
the allocation of the awaiter succeeded. -/
theorem await_returns_of_condition {σ : Type} (abi : gracht_abi) (env : gracht_env σ)
    (sys : gracht_system σ) (c : gracht_client) (ctx : gracht_message_context)
    (h : ∀ a : gracht_message_awaiter, check_awaiter_condition c a [ctx] = 0) :
    ∃ ret sys2,
      gracht_client_await abi env sys (some c) (some ctx) =
        await_result.returned ret sys2 (some c) ∧
      ∀ addr, (env.malloc sys.link (abi.sizeof_awaiter + 4)).1 = some addr → ret = 0 := by
  cases hm : (env.malloc sys.link (abi.sizeof_awaiter + 4)).1 with
  | none =>
    refine ⟨-1,
      { link := (env.malloc sys.link (abi.sizeof_awaiter + 4)).2
        errno := ENOMEM
        trace := sys.trace ++ [gracht_event.malloc (abi.sizeof_awaiter + 4)] }, ?_, ?_⟩
    · simp only [gracht_client_await, hm]
    · intro addr hadd
      exact absurd hadd (by simp)
  | some addr0 =>
    refine ⟨0,
      { link := (env.malloc sys.link (abi.sizeof_awaiter + 4)).2
        errno := sys.errno
        trace := sys.trace ++ [gracht_event.malloc (abi.sizeof_awaiter + 4)] ++
          [gracht_event.mtx_lock, gracht_event.mtx_unlock, gracht_event.free addr0] }, ?_, ?_⟩
    · simp only [gracht_client_await, hm, await_enter, h, ne_eq, not_true_eq_false, if_false]
    · intro _ _
      rfl

/-- C28: whenever invoke returns for a Sync-Request whose descriptor was registered, the
status of that descriptor is Completed or Error, neither Created nor
InProgress. Consequently, in every state reached from a freshly created client
by a run of invokes, status queries and receptions (each call having
returned), no descriptor is Created or InProgress, and await on any context,
that of an earlier invoke included, returns without enqueuing an awaiter and
leaves the client unchanged, whether or not a Response was received; it returns
0 when the allocation of the awaiter succeeded. -/
theorem C28_invoke_leaves_terminal {σ : Type} (abi : gracht_abi) (env : gracht_env σ)
    (sys0 sys : gracht_system σ) (c : gracht_client) (ctx : gracht_message_context)
    (m : gracht_message) (iod : Int) (ops : List client_op) (ctx2 : gracht_message_context) :
    (MESSAGE_FLAG_TYPE m.header.flags = MESSAGE_FLAG_SYNC →
      (env.ops.get_buffer sys0.link (invoke_buffer_length abi m)).status = 0 →
      ∃ c2 d,
        (gracht_client_invoke abi env sys0 (some c) ctx (some m)).client = some c2 ∧
        c2.messages = c.messages ++ [d] ∧
        (d.status = GRACHT_MESSAGE_COMPLETED ∨ d.status = GRACHT_MESSAGE_ERROR) ∧
        d.status ≠ GRACHT_MESSAGE_CREATED ∧ d.status ≠ GRACHT_MESSAGE_INPROGRESS) ∧
    (∀ d ∈ (run_ops abi env (fresh_state sys iod) ops).client.messages,
      d.status ≠ GRACHT_MESSAGE_CREATED ∧ d.status ≠ GRACHT_MESSAGE_INPROGRESS) ∧
    (∃ ret sys2,
      gracht_client_await abi env (run_ops abi env (fresh_state sys iod) ops).sys
          (some (run_ops abi env (fresh_state sys iod) ops).client) (some ctx2) =
        await_result.returned ret sys2 (some (run_ops abi env (fresh_state sys iod) ops).client) ∧
      ∀ addr, (env.malloc (run_ops abi env (fresh_state sys iod) ops).sys.link
          (abi.sizeof_awaiter + 4)).1 = some addr → ret = 0) := by
  have hterm : all_terminal (run_ops abi env (fresh_state sys iod) ops).client :=
    run_ops_all_terminal abi env ops (fresh_state sys iod)
      (fun d hd => absurd hd (List.not_mem_nil d))
  refine ⟨?_, ?_, ?_⟩
  · intro hsync hgb
    rw [invoke_sync_ok abi env sys0 c ctx m hsync hgb]
    refine ⟨_, _, rfl, rfl, ?_⟩
    simp only []
    split_ifs
    · exact ⟨Or.inl rfl, by decide, by decide⟩
    · exact ⟨Or.inr rfl, by decide, by decide⟩
  · intro d hd
    rcases hterm d hd with hs | hs <;> rw [hs] <;> exact ⟨by decide, by decide⟩
  · exact await_returns_of_condition abi env _ _ ctx2
      (fun a => check_awaiter_condition_all_terminal _ a ctx2 hterm)

/-- C28 on the sample Sync-Request, and on an await of id 0 right after a run that ends
with the invoke of that request, no Response having been received. -/
theorem C28_invoke_leaves_terminal_witness :
    (MESSAGE_FLAG_TYPE sample_request.header.flags = MESSAGE_FLAG_SYNC ∧
      ∃ c2 d,
        (gracht_client_invoke sample_abi (sample_env 0 0 0 sample_response (some 512) 0)
          sample_sys (some (sample_client 7)) ⟨0, 0⟩ (some sample_request)).client = some c2 ∧
        c2.messages = (sample_client 7).messages ++ [d] ∧
        (d.status = GRACHT_MESSAGE_COMPLETED ∨ d.status = GRACHT_MESSAGE_ERROR) ∧
        d.status ≠ GRACHT_MESSAGE_CREATED ∧ d.status ≠ GRACHT_MESSAGE_INPROGRESS) ∧
    (gracht_client_await sample_abi (sample_env 0 0 0 sample_response (some 512) 0)
      (run_ops sample_abi (sample_env 0 0 0 sample_response (some 512) 0)
        (fresh_state sample_sys 1) [client_op.invoke ⟨0, 0⟩ sample_request]).sys
      (some (run_ops sample_abi (sample_env 0 0 0 sample_response (some 512) 0)
        (fresh_state sample_sys 1) [client_op.invoke ⟨0, 0⟩ sample_request]).client)
      (some ⟨0, 4096⟩)).blocked = false :=
  ⟨⟨by decide,
    (C28_invoke_leaves_terminal sample_abi (sample_env 0 0 0 sample_response (some 512) 0)
      sample_sys sample_sys (sample_client 7) ⟨0, 0⟩ sample_request 1
      [client_op.invoke ⟨0, 0⟩ sample_request] ⟨0, 4096⟩).1 (by decide) rfl⟩,
   by
    obtain ⟨ret, sys2, h, _⟩ :=
      (C28_invoke_leaves_terminal sample_abi (sample_env 0 0 0 sample_response (some 512) 0)
        sample_sys sample_sys (sample_client 7) ⟨0, 0⟩ sample_request 1
        [client_op.invoke ⟨0, 0⟩ sample_request] ⟨0, 4096⟩).2.2
    rw [h]
    rfl⟩

/-- C29 as amended: for every Sync-Request invoke that registers its descriptor on a
table where no older entry carries the id issued (as in every run of fewer
than 2^32 invokes), a status query on the context made before any Response is
received returns 0 and removes the descriptor, so that the table is as before
the invoke; the Response for that id received afterwards finds no entry:
wait_message returns -1 and leaves the table as it is, storing nothing. This
holds whether send succeeded or not. -/
theorem C29_premature_consumption {σ : Type} (abi : gracht_abi) (env : gracht_env σ)
    (sys : gracht_system σ) (c : gracht_client) (ctx : gracht_message_context)
    (m : gracht_message) (ps : Nat → gracht_param) (messageBuffer : Nat)
    (hsync : MESSAGE_FLAG_TYPE m.header.flags = MESSAGE_FLAG_SYNC)
    (hgb : (env.ops.get_buffer sys.link (invoke_buffer_length abi m)).status = 0)
    (hfresh : ∀ x ∈ c.messages, x.header_id ≠ int_cast c.current_message_id) :
    ∀ (r1 : invoke_result σ) (r2 : status_result σ) (r3 : wait_result σ),
      r1 = gracht_client_invoke abi env sys (some c) ctx (some m) →
      r2 = gracht_client_status abi env r1.sys r1.client (some r1.context) (some ps) →
      (env.ops.recv r2.sys.link messageBuffer 0).status = 0 →
      MESSAGE_FLAG_TYPE (abi.read_header (env.ops.recv r2.sys.link messageBuffer 0).message).flags =
        MESSAGE_FLAG_RESPONSE →
      (abi.read_header (env.ops.recv r2.sys.link messageBuffer 0).message).id =
        r1.context.message_id →
      r3 = gracht_client_wait_message abi env r2.sys r2.client messageBuffer →
      r2.ret = 0 ∧
      (∃ c2, r2.client = some c2 ∧ c2.messages = c.messages) ∧
      r3.ret = -1 ∧
      (∃ c3, r3.client = some c3 ∧ c3.messages = c.messages) := by
  intro r1 r2 r3 h1 h2 hrecv hkind hid h3
  rw [invoke_sync_ok abi env sys c ctx m hsync hgb] at h1
  subst h1
  simp only [] at h2 hid
  have hterm : ∀ v : Int,
      ((if v = 0 then GRACHT_MESSAGE_COMPLETED else GRACHT_MESSAGE_ERROR) =
          GRACHT_MESSAGE_COMPLETED ∨
        (if v = 0 then GRACHT_MESSAGE_COMPLETED else GRACHT_MESSAGE_ERROR) =
          GRACHT_MESSAGE_ERROR) := by
    intro v
    split_ifs
    · exact Or.inl rfl
    · exact Or.inr rfl
  rw [status_terminal abi env _ _ _ ps c.messages.length _
    (gracht_list_lookup_append_fresh gracht_message_descriptor.header_id c.messages _
      (int_cast c.current_message_id) hfresh rfl) (hterm _)] at h2
  subst h2
  simp only [gracht_list_remove_appended] at hrecv hkind hid h3
  rw [wait_message_response_absent abi env _ _ messageBuffer hrecv hkind
    (by rw [hid]; exact hfresh)] at h3
  subst h3
  exact ⟨rfl, ⟨_, rfl, by simp only [gracht_list_remove_appended]⟩, rfl, ⟨_, rfl, rfl⟩⟩

/-- C29 as amended, on the sample Sync-Request issued as id 7: status consumes the
descriptor at once, and the sample Response to id 7 received afterwards is answered with -1. -/
theorem C29_premature_consumption_witness :
    MESSAGE_FLAG_TYPE sample_request.header.flags = MESSAGE_FLAG_SYNC ∧
    (gracht_client_status sample_abi (sample_env 0 0 0 sample_response none 0)
      (gracht_client_invoke sample_abi (sample_env 0 0 0 sample_response none 0) sample_sys
        (some (sample_client 7)) ⟨0, 0⟩ (some sample_request)).sys
      (gracht_client_invoke sample_abi (sample_env 0 0 0 sample_response none 0) sample_sys
        (some (sample_client 7)) ⟨0, 0⟩ (some sample_request)).client
      (some (gracht_client_invoke sample_abi (sample_env 0 0 0 sample_response none 0) sample_sys
        (some (sample_client 7)) ⟨0, 0⟩ (some sample_request)).context)
      (some sample_no_params)).ret = 0 ∧
    (gracht_client_wait_message sample_abi (sample_env 0 0 0 sample_response none 0)
      (gracht_client_status sample_abi (sample_env 0 0 0 sample_response none 0)
        (gracht_client_invoke sample_abi (sample_env 0 0 0 sample_response none 0) sample_sys
          (some (sample_client 7)) ⟨0, 0⟩ (some sample_request)).sys
        (gracht_client_invoke sample_abi (sample_env 0 0 0 sample_response none 0) sample_sys
          (some (sample_client 7)) ⟨0, 0⟩ (some sample_request)).client
        (some (gracht_client_invoke sample_abi (sample_env 0 0 0 sample_response none 0)
          sample_sys (some (sample_client 7)) ⟨0, 0⟩ (some sample_request)).context)
        (some sample_no_params)).sys
      (gracht_client_status sample_abi (sample_env 0 0 0 sample_response none 0)
        (gracht_client_invoke sample_abi (sample_env 0 0 0 sample_response none 0) sample_sys
          (some (sample_client 7)) ⟨0, 0⟩ (some sample_request)).sys
        (gracht_client_invoke sample_abi (sample_env 0 0 0 sample_response none 0) sample_sys
          (some (sample_client 7)) ⟨0, 0⟩ (some sample_request)).client
        (some (gracht_client_invoke sample_abi (sample_env 0 0 0 sample_response none 0)
          sample_sys (some (sample_client 7)) ⟨0, 0⟩ (some sample_request)).context)
        (some sample_no_params)).client 0).ret = -1 :=
  ⟨by decide,
   (C29_premature_consumption sample_abi (sample_env 0 0 0 sample_response none 0) sample_sys
      (sample_client 7) ⟨0, 0⟩ sample_request sample_no_params 0 (by decide) rfl
      (by simp [sample_client]) _ _ _ rfl rfl rfl (by decide) (by decide) rfl).1,
   (C29_premature_consumption sample_abi (sample_env 0 0 0 sample_response none 0) sample_sys
      (sample_client 7) ⟨0, 0⟩ sample_request sample_no_params 0 (by decide) rfl
      (by simp [sample_client]) _ _ _ rfl rfl rfl (by decide) (by decide) rfl).2.2.1⟩

/-- C29 as stated fails once the counter has wrapped: the table still holds the Completed
descriptor of an earlier Sync-Request with id 7 and the counter is at 7 again.
The sample Sync-Request is invoked, is issued id 7 and its send succeeds; the
status query on its context returns 0 but unlinks the older descriptor, the
first one with key 7, so the new one stays in the table; the Response to id 7
received afterwards finds it: wait_message returns 0, not -1, and stores the
Response in it (byte 16 of the stored message is 239). -/
theorem C29_stale_entry_counterexample :
    MESSAGE_FLAG_TYPE sample_request.header.flags = MESSAGE_FLAG_SYNC ∧
    sample_wrapped_client.messages.map gracht_message_descriptor.header_id = [7] ∧
    (gracht_client_invoke sample_abi (sample_env 0 0 0 sample_response none 0) sample_sys
      (some sample_wrapped_client) ⟨0, 0⟩ (some sample_request)).ret = 0 ∧
    (gracht_client_invoke sample_abi (sample_env 0 0 0 sample_response none 0) sample_sys
      (some sample_wrapped_client) ⟨0, 0⟩ (some sample_request)).context.message_id = 7 ∧
    (gracht_client_status sample_abi (sample_env 0 0 0 sample_response none 0)
      (gracht_client_invoke sample_abi (sample_env 0 0 0 sample_response none 0) sample_sys
        (some sample_wrapped_client) ⟨0, 0⟩ (some sample_request)).sys
      (gracht_client_invoke sample_abi (sample_env 0 0 0 sample_response none 0) sample_sys
        (some sample_wrapped_client) ⟨0, 0⟩ (some sample_request)).client
      (some (gracht_client_invoke sample_abi (sample_env 0 0 0 sample_response none 0) sample_sys
        (some sample_wrapped_client) ⟨0, 0⟩ (some sample_request)).context)
      (some sample_no_params)).ret = 0 ∧
    (gracht_client_status sample_abi (sample_env 0 0 0 sample_response none 0)
      (gracht_client_invoke sample_abi (sample_env 0 0 0 sample_response none 0) sample_sys
        (some sample_wrapped_client) ⟨0, 0⟩ (some sample_request)).sys
      (gracht_client_invoke sample_abi (sample_env 0 0 0 sample_response none 0) sample_sys
        (some sample_wrapped_client) ⟨0, 0⟩ (some sample_request)).client
      (some (gracht_client_invoke sample_abi (sample_env 0 0 0 sample_response none 0) sample_sys
        (some sample_wrapped_client) ⟨0, 0⟩ (some sample_request)).context)
      (some sample_no_params)).client.map
        (fun c => c.messages.map gracht_message_descriptor.header_id) = some [7] ∧
    ¬ (gracht_client_wait_message sample_abi (sample_env 0 0 0 sample_response none 0)
      (gracht_client_status sample_abi (sample_env 0 0 0 sample_response none 0)
        (gracht_client_invoke sample_abi (sample_env 0 0 0 sample_response none 0) sample_sys
          (some sample_wrapped_client) ⟨0, 0⟩ (some sample_request)).sys
        (gracht_client_invoke sample_abi (sample_env 0 0 0 sample_response none 0) sample_sys
          (some sample_wrapped_client) ⟨0, 0⟩ (some sample_request)).client
        (some (gracht_client_invoke sample_abi (sample_env 0 0 0 sample_response none 0)
          sample_sys (some sample_wrapped_client) ⟨0, 0⟩ (some sample_request)).context)
        (some sample_no_params)).sys
      (gracht_client_status sample_abi (sample_env 0 0 0 sample_response none 0)
        (gracht_client_invoke sample_abi (sample_env 0 0 0 sample_response none 0) sample_sys
          (some sample_wrapped_client) ⟨0, 0⟩ (some sample_request)).sys
        (gracht_client_invoke sample_abi (sample_env 0 0 0 sample_response none 0) sample_sys
          (some sample_wrapped_client) ⟨0, 0⟩ (some sample_request)).client
        (some (gracht_client_invoke sample_abi (sample_env 0 0 0 sample_response none 0)
          sample_sys (some sample_wrapped_client) ⟨0, 0⟩ (some sample_request)).context)
        (some sample_no_params)).client 0).ret = -1 ∧
    (gracht_client_wait_message sample_abi (sample_env 0 0 0 sample_response none 0)
      (gracht_client_status sample_abi (sample_env 0 0 0 sample_response none 0)
        (gracht_client_invoke sample_abi (sample_env 0 0 0 sample_response none 0) sample_sys
          (some sample_wrapped_client) ⟨0, 0⟩ (some sample_request)).sys
        (gracht_client_invoke sample_abi (sample_env 0 0 0 sample_response none 0) sample_sys
          (some sample_wrapped_client) ⟨0, 0⟩ (some sample_request)).client
        (some (gracht_client_invoke sample_abi (sample_env 0 0 0 sample_response none 0)
          sample_sys (some sample_wrapped_client) ⟨0, 0⟩ (some sample_request)).context)
        (some sample_no_params)).sys
      (gracht_client_status sample_abi (sample_env 0 0 0 sample_response none 0)
        (gracht_client_invoke sample_abi (sample_env 0 0 0 sample_response none 0) sample_sys
          (some sample_wrapped_client) ⟨0, 0⟩ (some sample_request)).sys
        (gracht_client_invoke sample_abi (sample_env 0 0 0 sample_response none 0) sample_sys
          (some sample_wrapped_client) ⟨0, 0⟩ (some sample_request)).client
        (some (gracht_client_invoke sample_abi (sample_env 0 0 0 sample_response none 0)
          sample_sys (some sample_wrapped_client) ⟨0, 0⟩ (some sample_request)).context)
        (some sample_no_params)).client 0).client.map
        (fun c => c.messages.map (fun d => (d.header_id, d.status, d.message 16))) =
      some [(7, GRACHT_MESSAGE_COMPLETED, 239)] := by
  decide

end Gracht
